import Mathlib

/-! ADS1115 / ADS1015 driver (`app/modules/ads1115.c`).

A shallow embedding of the NodeMCU module `ads1115.c` and theorems about it.

Conventions of the embedding

* `uint8_t` / `uint16_t` values are `Nat`, reduced `% 256` / `% 65536` where the C code
  narrows; `int16_t` values are `Int`, obtained with `int16_t_cast`.
* `double` values are exact rationals (`ℚ`).  Every product formed by the module
  (`code * lsb`, `frac * 1000`) is a dyadic rational with a numerator far below `2^53`,
  so it is exact in IEEE double; the quotients `mv / lsb` are only ever truncated to an
  integer, and a correctly rounded quotient of a 16-bit integer by `0.1875` (or a power
  of two) truncates to the same integer as the exact one.
* `luaL_error` does not return: a function that reaches it yields `Except.error msg`
  together with the state at that point (writes made before the error stay).
* The I2C bus is a log of the `platform_i2c_*` calls made so far plus the stream of
  bytes the bus will deliver to `platform_i2c_recv_byte`.
-/

namespace ADS1115

/-! ## Constants (lines 17-106) -/

abbrev ADS1115_ADS1015 : Nat := 15
abbrev ADS1115_ADS1115 : Nat := 115

abbrev ADS1115_I2C_ADDR_GND : Nat := 0x48
abbrev ADS1115_I2C_ADDR_VDD : Nat := 0x49
abbrev ADS1115_I2C_ADDR_SDA : Nat := 0x4A
abbrev ADS1115_I2C_ADDR_SCL : Nat := 0x4B

/-- Macro `IS_I2C_ADDR_VALID(addr) (((addr) & 0xFC) == 0x48)`. -/
def IS_I2C_ADDR_VALID (addr : Nat) : Bool := (addr &&& 0xFC) == 0x48

abbrev ADS1115_POINTER_MASK : Nat := 0x03
abbrev ADS1115_POINTER_CONVERSION : Nat := 0x00
abbrev ADS1115_POINTER_CONFIG : Nat := 0x01
abbrev ADS1115_POINTER_THRESH_LOW : Nat := 0x02
abbrev ADS1115_POINTER_THRESH_HI : Nat := 0x03

abbrev ADS1115_OS_MASK : Nat := 0x8000
abbrev ADS1115_OS_NON : Nat := 0x0000
abbrev ADS1115_OS_SINGLE : Nat := 0x8000
abbrev ADS1115_OS_BUSY : Nat := 0x0000
abbrev ADS1115_OS_NOTBUSY : Nat := 0x8000

abbrev ADS1115_MUX_MASK : Nat := 0x7000
abbrev ADS1115_MUX_DIFF_0_1 : Nat := 0x0000
abbrev ADS1115_MUX_DIFF_0_3 : Nat := 0x1000
abbrev ADS1115_MUX_DIFF_1_3 : Nat := 0x2000
abbrev ADS1115_MUX_DIFF_2_3 : Nat := 0x3000
abbrev ADS1115_MUX_SINGLE_0 : Nat := 0x4000
abbrev ADS1115_MUX_SINGLE_1 : Nat := 0x5000
abbrev ADS1115_MUX_SINGLE_2 : Nat := 0x6000
abbrev ADS1115_MUX_SINGLE_3 : Nat := 0x7000

/-- Macro `IS_CHANNEL_VALID(channel) (((channel) & 0x8FFF) == 0)`. -/
def IS_CHANNEL_VALID (channel : Nat) : Bool := (channel &&& 0x8FFF) == 0

abbrev ADS1115_PGA_MASK : Nat := 0x0E00
abbrev ADS1115_PGA_6_144V : Nat := 0x0000
abbrev ADS1115_PGA_4_096V : Nat := 0x0200
abbrev ADS1115_PGA_2_048V : Nat := 0x0400
abbrev ADS1115_PGA_1_024V : Nat := 0x0600
abbrev ADS1115_PGA_0_512V : Nat := 0x0800
abbrev ADS1115_PGA_0_256V : Nat := 0x0A00

abbrev ADS1115_MODE_MASK : Nat := 0x0100
abbrev ADS1115_MODE_CONTIN : Nat := 0x0000
abbrev ADS1115_MODE_SINGLE : Nat := 0x0100

abbrev ADS1115_DR_MASK : Nat := 0x00E0
abbrev ADS1115_DR_8SPS : Nat := 8
abbrev ADS1115_DR_16SPS : Nat := 16
abbrev ADS1115_DR_32SPS : Nat := 32
abbrev ADS1115_DR_64SPS : Nat := 64
abbrev ADS1115_DR_128SPS : Nat := 128
abbrev ADS1115_DR_250SPS : Nat := 250
abbrev ADS1115_DR_475SPS : Nat := 475
abbrev ADS1115_DR_490SPS : Nat := 490
abbrev ADS1115_DR_860SPS : Nat := 860
abbrev ADS1115_DR_920SPS : Nat := 920
abbrev ADS1115_DR_1600SPS : Nat := 1600
abbrev ADS1115_DR_2400SPS : Nat := 2400
abbrev ADS1115_DR_3300SPS : Nat := 3300

abbrev ADS1115_CMODE_MASK : Nat := 0x0010
abbrev ADS1115_CMODE_TRAD : Nat := 0x0000
abbrev ADS1115_CMODE_WINDOW : Nat := 0x0010

abbrev ADS1115_CPOL_MASK : Nat := 0x0008
abbrev ADS1115_CPOL_ACTVLOW : Nat := 0x0000
abbrev ADS1115_CPOL_ACTVHI : Nat := 0x0008

abbrev ADS1115_CLAT_MASK : Nat := 0x0004
abbrev ADS1115_CLAT_NONLAT : Nat := 0x0000
abbrev ADS1115_CLAT_LATCH : Nat := 0x0004

abbrev ADS1115_CQUE_MASK : Nat := 0x0003
abbrev ADS1115_CQUE_1CONV : Nat := 0x0000
abbrev ADS1115_CQUE_2CONV : Nat := 0x0001
abbrev ADS1115_CQUE_4CONV : Nat := 0x0002
abbrev ADS1115_CQUE_NONE : Nat := 0x0003

abbrev ADS1115_DEFAULT_CONFIG_REG : Nat := 0x8583

abbrev ads1115_i2c_id : Nat := 0
abbrev general_i2c_addr : Nat := 0x00
abbrev ads1115_i2c_reset : Nat := 0x06

abbrev LUA_NOREF : Int := -2

/-! ## Machine arithmetic -/

/-- Conversion of an integer to `uint8_t`. -/
def uint8_t_cast (n : Int) : Nat := (n % 256).toNat

/-- Conversion of an integer to `uint16_t`. -/
def uint16_t_cast (n : Int) : Nat := (n % 65536).toNat

/-- Conversion of an integer to `int16_t` (two's complement wrap). -/
def int16_t_cast (n : Int) : Int := (n + 32768) % 65536 - 32768

/-- Conversion of a `double` to an integer type: the fractional part is discarded
(truncation toward zero). -/
def c_trunc (q : ℚ) : Int := if 0 ≤ q then ⌊q⌋ else ⌈q⌉

/-! ## Voltage scaling (lines 155-215) -/

/-- Function `static double get_volt(uint16_t gain, uint16_t value)`: convert an ADC value to the
voltage corresponding to the PGA setting.  A gain outside the six cases leaves
`volt = 0`. -/
def get_volt (gain value : Nat) : ℚ :=
  if gain = ADS1115_PGA_6_144V then (int16_t_cast value : ℚ) * 0.1875
  else if gain = ADS1115_PGA_4_096V then (int16_t_cast value : ℚ) * 0.125
  else if gain = ADS1115_PGA_2_048V then (int16_t_cast value : ℚ) * 0.0625
  else if gain = ADS1115_PGA_1_024V then (int16_t_cast value : ℚ) * 0.03125
  else if gain = ADS1115_PGA_0_512V then (int16_t_cast value : ℚ) * 0.015625
  else if gain = ADS1115_PGA_0_256V then (int16_t_cast value : ℚ) * 0.0078125
  else 0

/-- One case of the `switch` in `get_value`:
`if ((*volt >= fs) || (*volt < -fs) || ((*volt < 0) && (channel >> 14))) return 1;`
`*volt = *volt / lsb;`.
`none` is `return 1`; `some v` is falling through to `return 0` with `*volt = v`.
The quotient is a `double`, stored back into the `int16_t`. -/
def get_value_case (fs : Int) (lsb : ℚ) (channel : Nat) (volt : Int) : Option Int :=
  if volt ≥ fs ∨ volt < -fs ∨ (volt < 0 ∧ channel >>> 14 ≠ 0) then none
  else some (int16_t_cast (c_trunc ((volt : ℚ) / lsb)))

/-- Function `static uint8_t get_value(uint16_t gain, uint16_t channel, int16_t *volt)`: convert a
threshold in millivolt to the ADC value corresponding to the PGA setting.
`volt` is the value of `*volt` on entry; `none` is `return 1` (`*volt` untouched),
`some v` is `return 0` with `*volt = v` on exit.  A gain outside the six cases
returns 0 and leaves `*volt` as it was. -/
def get_value (gain channel : Nat) (volt : Int) : Option Int :=
  if gain = ADS1115_PGA_6_144V then get_value_case 6144 0.1875 channel volt
  else if gain = ADS1115_PGA_4_096V then get_value_case 4096 0.125 channel volt
  else if gain = ADS1115_PGA_2_048V then get_value_case 2048 0.0625 channel volt
  else if gain = ADS1115_PGA_1_024V then get_value_case 1024 0.03125 channel volt
  else if gain = ADS1115_PGA_0_512V then get_value_case 512 0.015625 channel volt
  else if gain = ADS1115_PGA_0_256V then get_value_case 256 0.0078125 channel volt
  else some volt

/-! ## Lua values and the state of the module -/

/-- A value on the Lua stack, as far as the argument checks of the module tell values
apart.  `number n` is a value for which `lua_isnumber` holds and for which
`luaL_checkinteger` yields the `lua_Integer` `n`. -/
inductive LuaValue where
  | nil
  | number (n : Int)
  | func (id : Nat)
  | lightfunc (id : Nat)
  | other
deriving DecidableEq, Repr

/-- A value handed to Lua by `lua_pushnumber` (a `double`) or `lua_pushinteger`. -/
inductive LuaPushed where
  | pushnumber (q : ℚ)
  | pushinteger (n : Int)
deriving DecidableEq, Repr

/-- Function `lua_isnumber(L, i)`; stack indices start at 1, an absent index is not a number. -/
def lua_isnumber (L : List LuaValue) (i : Nat) : Bool :=
  match L.getD (i - 1) LuaValue.nil with
  | LuaValue.number _ => true
  | _ => false

/-- Function `luaL_checkinteger(L, i)`, used by the module only after `lua_isnumber(L, i)`. -/
def luaL_checkinteger (L : List LuaValue) (i : Nat) : Int :=
  match L.getD (i - 1) LuaValue.nil with
  | LuaValue.number n => n
  | _ => 0

/-- Direction argument of `platform_i2c_send_address`. -/
inductive I2CDirection where
  | PLATFORM_I2C_DIRECTION_TRANSMITTER
  | PLATFORM_I2C_DIRECTION_RECEIVER
deriving DecidableEq, Repr

/-- One call of a `platform_i2c_*` primitive. -/
inductive I2CCall where
  | send_start (id : Nat)
  | send_address (id addr : Nat) (dir : I2CDirection)
  | send_byte (id b : Nat)
  | recv_byte (id ack : Nat)
  | send_stop (id : Nat)
deriving DecidableEq, Repr

/-- The part of `os_timer_t` the module acts on: whether the timer is armed, and with
which period and repeat flag; `fn_set` records `os_timer_setfn(.., ads1115_lua_readoutdone,
ads_ctrl)`. -/
structure os_timer_t where
  armed : Bool
  msec : Nat
  repeat_flag : Nat
  fn_set : Bool
deriving DecidableEq, Repr

/-- Record `typedef struct { ... } ads_ctrl_struct_t;` (lines 114-127). -/
structure ads_ctrl_struct_t where
  addr : Nat
  chip_id : Nat
  gain : Nat
  samples_value : Nat
  samples : Nat
  comp : Nat
  mode : Nat
  threshold_low : Nat
  threshold_hi : Nat
  config : Nat
  timer_ref : Int
  timer : os_timer_t
deriving DecidableEq, Repr

/-- The record after `memset(ads_ctrl, 0, sizeof(ads_ctrl_struct_t))`. -/
def ads_ctrl_zero : ads_ctrl_struct_t :=
  { addr := 0, chip_id := 0, gain := 0, samples_value := 0, samples := 0, comp := 0,
    mode := 0, threshold_low := 0, threshold_hi := 0, config := 0, timer_ref := 0,
    timer := { armed := false, msec := 0, repeat_flag := 0, fn_set := false } }

/-- Everything the module reads or writes.

* `ads_ctrl_table` is `static ads_ctrl_struct_t * ads_ctrl_table[4]`, `none` being `NULL`;
* `i2c_log` lists the `platform_i2c_*` calls made so far, oldest first;
* `i2c_rx` is the stream of bytes `platform_i2c_recv_byte` will return (an idle bus
  reads `0xFF`);
* `malloc_ok` tells whether `c_malloc` succeeds;
* `system_time` is what `system_get_time()` returns;
* `registry` is the Lua registry as used through `luaL_ref` / `luaL_unref`;
* `lua_calls` lists the calls made through `lua_call`, oldest first: the called value
  and its arguments. -/
structure World where
  ads_ctrl_table : Fin 4 → Option ads_ctrl_struct_t
  i2c_log : List I2CCall
  i2c_rx : List Nat
  malloc_ok : Bool
  system_time : Nat
  registry : List (Int × LuaValue)
  lua_calls : List (LuaValue × List LuaPushed)

/-- Index into `ads_ctrl_table`: `addr & 0x03` (48->0 49->1 4A->2 4B->3). -/
def table_idx (addr : Nat) : Fin 4 :=
  ⟨addr &&& 3, Nat.lt_of_le_of_lt Nat.and_le_right (by decide)⟩

/-- Assignment through the pointer stored in `ads_ctrl_table[idx]`. -/
def World.store (w : World) (idx : Fin 4) (r : ads_ctrl_struct_t) : World :=
  { w with ads_ctrl_table := Function.update w.ads_ctrl_table idx (some r) }

/-- Append calls to the bus log. -/
def World.bus (w : World) (calls : List I2CCall) : World :=
  { w with i2c_log := w.i2c_log ++ calls }

/-! ## Register access (lines 133-153) -/

/-- The `platform_i2c_*` calls made by `write_reg(ads_addr, reg, config)`. -/
def write_reg_calls (ads_addr reg config : Nat) : List I2CCall :=
  [ I2CCall.send_start ads1115_i2c_id,
    I2CCall.send_address ads1115_i2c_id ads_addr I2CDirection.PLATFORM_I2C_DIRECTION_TRANSMITTER,
    I2CCall.send_byte ads1115_i2c_id reg,
    I2CCall.send_byte ads1115_i2c_id ((config >>> 8) % 256),
    I2CCall.send_byte ads1115_i2c_id ((config &&& 0xFF) % 256),
    I2CCall.send_stop ads1115_i2c_id ]

/-- Function `static uint8_t write_reg(uint8_t ads_addr, uint8_t reg, uint16_t config)`. -/
def write_reg (w : World) (ads_addr reg config : Nat) : World :=
  w.bus (write_reg_calls ads_addr reg config)

/-- The `platform_i2c_*` calls made by `read_reg(ads_addr, reg)`. -/
def read_reg_calls (ads_addr reg : Nat) : List I2CCall :=
  [ I2CCall.send_start ads1115_i2c_id,
    I2CCall.send_address ads1115_i2c_id ads_addr I2CDirection.PLATFORM_I2C_DIRECTION_TRANSMITTER,
    I2CCall.send_byte ads1115_i2c_id reg,
    I2CCall.send_stop ads1115_i2c_id,
    I2CCall.send_start ads1115_i2c_id,
    I2CCall.send_address ads1115_i2c_id ads_addr I2CDirection.PLATFORM_I2C_DIRECTION_RECEIVER,
    I2CCall.recv_byte ads1115_i2c_id 1,
    I2CCall.recv_byte ads1115_i2c_id 0,
    I2CCall.send_stop ads1115_i2c_id ]

/-- Function `static uint16_t read_reg(uint8_t ads_addr, uint8_t reg)`:
`buf = (recv << 8); buf += recv;` in `uint16_t`. -/
def read_reg (w : World) (ads_addr reg : Nat) : Nat × World :=
  let b1 := w.i2c_rx.getD 0 0xFF % 256
  let b2 := w.i2c_rx.getD 1 0xFF % 256
  let buf := (b1 <<< 8) % 65536
  let buf := (buf + b2) % 65536
  (buf, { w with i2c_log := w.i2c_log ++ read_reg_calls ads_addr reg,
                 i2c_rx := w.i2c_rx.drop 2 })

/-- Result of a Lua C function: the values it returns to Lua, or the message of the
`luaL_error` that ended it. -/
abbrev LuaResult := Except String (List LuaPushed)

/-! ## reset and setup (lines 218-267) -/

/-- Function `static int ads1115_lua_reset(lua_State *L)`: soft reset of all devices. -/
def ads1115_lua_reset (w : World) (_L : List LuaValue) : LuaResult × World :=
  (Except.ok [],
   w.bus [ I2CCall.send_start ads1115_i2c_id,
           I2CCall.send_address ads1115_i2c_id general_i2c_addr
             I2CDirection.PLATFORM_I2C_DIRECTION_TRANSMITTER,
           I2CCall.send_byte ads1115_i2c_id ads1115_i2c_reset,
           I2CCall.send_stop ads1115_i2c_id ])

/-- Lines 255-265 of `ads1115_lua_setup`: the record after `memset` and the
assignments of the defaults. -/
def setup_defaults (i2c_addr chip_id : Nat) : ads_ctrl_struct_t :=
  { ads_ctrl_zero with
    chip_id := chip_id
    addr := i2c_addr
    gain := ADS1115_PGA_6_144V
    samples := ADS1115_DR_128SPS
    samples_value := if chip_id = ADS1115_ADS1115 then 128 else 1600
    comp := ADS1115_CQUE_NONE
    mode := ADS1115_MODE_SINGLE
    threshold_low := 0x8000
    threshold_hi := 0x7FFF
    config := 0x8583 }

/-- Function `static int ads1115_lua_setup(lua_State *L)`: `ads1115.setup(ADDRESS, CHIP_ID)`. -/
def ads1115_lua_setup (w : World) (L : List LuaValue) : LuaResult × World :=
  if !lua_isnumber L 1 || !lua_isnumber L 2 then
    (Except.error "wrong arg range", w)
  else
    let i2c_addr := uint8_t_cast (luaL_checkinteger L 1)
    if !IS_I2C_ADDR_VALID i2c_addr then
      (Except.error "Invalid argument: adddress", w)
    else
      let chip_id := uint8_t_cast (luaL_checkinteger L 2)
      if chip_id ≠ ADS1115_ADS1015 ∧ chip_id ≠ ADS1115_ADS1115 then
        (Except.error "Invalid argument: chip_id", w)
      else
        -- check for device on i2c bus
        let rd := read_reg w i2c_addr ADS1115_POINTER_CONFIG
        let w := rd.2
        if rd.1 ≠ ADS1115_DEFAULT_CONFIG_REG then
          (Except.error "found no device", w)
        else
          let idx := table_idx i2c_addr
          match w.ads_ctrl_table idx with
          | none =>
            if w.malloc_ok then
              (Except.ok [], w.store idx (setup_defaults i2c_addr chip_id))
            else
              (Except.error "ads1115 malloc: out of memory", w)
          | some _ =>
            (Except.ok [], w.store idx (setup_defaults i2c_addr chip_id))

/-! ## setting (lines 269-411) -/

/-- Lines 294-350 of `ads1115_lua_setting`: the two `switch (samples_value)` statements
that set `samples`, chosen by `ads_ctrl->chip_id == ADS1115_ADS1115`.  `none` is the
`default:` case, which ends the call with `luaL_error`. -/
def setting_samples (chip_id samples_value : Nat) : Option Nat :=
  if chip_id = ADS1115_ADS1115 then
    if samples_value = ADS1115_DR_8SPS then some 0
    else if samples_value = ADS1115_DR_16SPS then some 0x20
    else if samples_value = ADS1115_DR_32SPS then some 0x40
    else if samples_value = ADS1115_DR_64SPS then some 0x60
    else if samples_value = ADS1115_DR_128SPS then some 0x80
    else if samples_value = ADS1115_DR_250SPS then some 0xA0
    else if samples_value = ADS1115_DR_475SPS then some 0xC0
    else if samples_value = ADS1115_DR_860SPS then some 0xE0
    else none
  else
    if samples_value = ADS1115_DR_128SPS then some 0
    else if samples_value = ADS1115_DR_250SPS then some 0x20
    else if samples_value = ADS1115_DR_490SPS then some 0x40
    else if samples_value = ADS1115_DR_920SPS then some 0x60
    else if samples_value = ADS1115_DR_1600SPS then some 0x80
    else if samples_value = ADS1115_DR_2400SPS then some 0xA0
    else if samples_value = ADS1115_DR_3300SPS then some 0xC0
    else none

/-- Lines 375-395 of `ads1115_lua_setting`: the local variables `threshold_low`,
`threshold_hi` and `comparator_mode` after the parsing of the arguments 7, 8 and 9, or
the message of the `luaL_error` raised there.  `get_value` is handed the address of the
`uint16_t` variable and reads and writes it as `int16_t`. -/
def setting_thresholds (L : List LuaValue) (gain channel : Nat) :
    Except String (Nat × Nat × Nat) :=
  if lua_isnumber L 7 && lua_isnumber L 8 then
    let threshold_low := uint16_t_cast (luaL_checkinteger L 7)
    let threshold_hi := uint16_t_cast (luaL_checkinteger L 8)
    if int16_t_cast threshold_low > int16_t_cast threshold_hi then
      Except.error "Invalid argument: threshold_low > threshold_hi"
    else
      match get_value gain channel (int16_t_cast threshold_low) with
      | none => Except.error "Invalid argument: threshold_low"
      | some lo =>
        match get_value gain channel (int16_t_cast threshold_hi) with
        | none => Except.error "Invalid argument: threshold_hi"
        | some hi =>
          if lua_isnumber L 9 then
            let comparator_mode := uint16_t_cast (luaL_checkinteger L 9)
            if comparator_mode ≠ ADS1115_CMODE_WINDOW ∧ comparator_mode ≠ ADS1115_CMODE_TRAD then
              Except.error "Invalid argument: comparator_mode"
            else
              Except.ok (uint16_t_cast lo, uint16_t_cast hi, comparator_mode)
          else
            Except.ok (uint16_t_cast lo, uint16_t_cast hi, ADS1115_CMODE_TRAD)
  else
    Except.ok (0x7FFF, 0x8000, ADS1115_CMODE_TRAD)

/-- Lines 403-410 of `ads1115_lua_setting`: store `comp`, compose the config word,
store it and write it to the config register. -/
def setting_finish (w : World) (addr : Nat) (ads_ctrl : ads_ctrl_struct_t)
    (os channel gain mode samples comparator_mode comp : Nat) : LuaResult × World :=
  let ads_ctrl := { ads_ctrl with comp := comp }
  let config := (os ||| channel ||| gain ||| mode ||| samples ||| comparator_mode |||
    ADS1115_CPOL_ACTVLOW ||| ADS1115_CLAT_NONLAT ||| comp) % 65536
  let ads_ctrl := { ads_ctrl with config := config }
  let w := w.store (table_idx addr) ads_ctrl
  let w := write_reg w addr ADS1115_POINTER_CONFIG config
  (Except.ok [], w)

/-- Function `static int ads1115_lua_setting(lua_State *L)`:
`ads1115.setting(ADDR,GAIN,SAMPLES,CHANNEL,MODE[,CONVERSION_RDY][,COMPARATOR,THRESHOLD_LOW,THRESHOLD_HI[,COMP_MODE])`.
Each assignment through `ads_ctrl->` is a `World.store`. -/
def ads1115_lua_setting (w : World) (L : List LuaValue) : LuaResult × World :=
  if !lua_isnumber L 1 || !lua_isnumber L 2 || !lua_isnumber L 3 || !lua_isnumber L 4
      || !lua_isnumber L 5 then
    (Except.error "wrong arg range", w)
  else
    let addr := uint8_t_cast (luaL_checkinteger L 1)
    if !IS_I2C_ADDR_VALID addr then
      (Except.error "Invalid argument: adddress", w)
    else
      match w.ads_ctrl_table (table_idx addr) with
      | none => (Except.error "Unitialized device", w)
      | some ads_ctrl =>
        let gain := uint16_t_cast (luaL_checkinteger L 2)
        if !(gain == ADS1115_PGA_6_144V || gain == ADS1115_PGA_4_096V
              || gain == ADS1115_PGA_2_048V || gain == ADS1115_PGA_1_024V
              || gain == ADS1115_PGA_0_512V || gain == ADS1115_PGA_0_256V) then
          (Except.error "Invalid argument: gain", w)
        else
          let ads_ctrl := { ads_ctrl with gain := gain }
          let w := w.store (table_idx addr) ads_ctrl
          let samples_value := uint16_t_cast (luaL_checkinteger L 3)
          match setting_samples ads_ctrl.chip_id samples_value with
          | none => (Except.error "Invalid argument: samples", w)
          | some samples =>
            let ads_ctrl := { ads_ctrl with samples := samples, samples_value := samples_value }
            let w := w.store (table_idx addr) ads_ctrl
            let channel := uint16_t_cast (luaL_checkinteger L 4)
            if !IS_CHANNEL_VALID channel then
              (Except.error "Invalid argument: channel", w)
            else
              let mode := uint16_t_cast (luaL_checkinteger L 5)
              if !(mode == ADS1115_MODE_SINGLE || mode == ADS1115_MODE_CONTIN) then
                (Except.error "Invalid argument: mode", w)
              else
                let ads_ctrl := { ads_ctrl with mode := mode }
                let w := w.store (table_idx addr) ads_ctrl
                let os := if mode = ADS1115_MODE_SINGLE then ADS1115_OS_SINGLE else ADS1115_OS_NON
                -- Parse optional parameters
                if lua_isnumber L 6 then
                  -- conversion ready mode
                  let comp := uint16_t_cast (luaL_checkinteger L 6)
                  if !(comp == ADS1115_CQUE_1CONV || comp == ADS1115_CQUE_2CONV
                        || comp == ADS1115_CQUE_4CONV) then
                    (Except.error "Invalid argument: conversion ready/comparator mode", w)
                  else
                    match setting_thresholds L gain channel with
                    | Except.error msg => (Except.error msg, w)
                    | Except.ok (threshold_low, threshold_hi, comparator_mode) =>
                      let ads_ctrl := { ads_ctrl with threshold_low := threshold_low,
                                                      threshold_hi := threshold_hi }
                      let w := w.store (table_idx addr) ads_ctrl
                      let w := write_reg w addr ADS1115_POINTER_THRESH_LOW threshold_low
                      let w := write_reg w addr ADS1115_POINTER_THRESH_HI threshold_hi
                      setting_finish w addr ads_ctrl os channel gain mode samples
                        comparator_mode comp
                else
                  setting_finish w addr ads_ctrl os channel gain mode samples
                    ADS1115_CMODE_TRAD ADS1115_CQUE_NONE

/-! ## startread, the timer callback and read (lines 413-540) -/

/-- Function `luaL_ref(L, LUA_REGISTRYINDEX)` on the value `v`: stores `v` in the registry under a
reference that is not in use and returns that reference. -/
def luaL_ref (w : World) (v : LuaValue) : Int × World :=
  let ref := (w.registry.map Prod.fst).foldl max 0 + 1
  (ref, { w with registry := w.registry ++ [(ref, v)] })

/-- Function `lua_rawgeti(L, LUA_REGISTRYINDEX, ref)`: the value stored under `ref`, `nil` when
there is none. -/
def lua_rawgeti (w : World) (ref : Int) : LuaValue :=
  match w.registry.find? (fun e => e.1 == ref) with
  | some e => e.2
  | none => LuaValue.nil

/-- Function `luaL_unref(L, LUA_REGISTRYINDEX, ref)`: releases the reference. -/
def luaL_unref (w : World) (ref : Int) : World :=
  { w with registry := w.registry.filter (fun e => e.1 != ref) }

/-- Lines 458-485 of `ads1115_lua_startread`: `int msec = 1; switch (ads_ctrl->samples_value)`. -/
def startread_msec (samples_value : Nat) : Nat :=
  if samples_value = ADS1115_DR_8SPS then 150
  else if samples_value = ADS1115_DR_16SPS then 75
  else if samples_value = ADS1115_DR_32SPS then 35
  else if samples_value = ADS1115_DR_64SPS then 20
  else if samples_value = ADS1115_DR_128SPS then 10
  else if samples_value = ADS1115_DR_250SPS then 5
  else if samples_value = ADS1115_DR_475SPS ∨ samples_value = ADS1115_DR_490SPS then 3
  else if samples_value = ADS1115_DR_860SPS ∨ samples_value = ADS1115_DR_920SPS then 2
  else 1

/-- Function `static int ads1115_lua_startread(lua_State *L)`.  `system_get_time()` is a
`uint32_t`; the failing `luaL_argcheck` raises an error carrying "Must be function". -/
def ads1115_lua_startread (w : World) (L : List LuaValue) : LuaResult × World :=
  if !lua_isnumber L 1 then
    (Except.error "wrong arg range", w)
  else
    let addr := uint8_t_cast (luaL_checkinteger L 1)
    if !IS_I2C_ADDR_VALID addr then
      (Except.error "Invalid argument: adddress", w)
    else
      match w.ads_ctrl_table (table_idx addr) with
      | none => (Except.error "Unitialized", w)
      | some ads_ctrl =>
        if (ads_ctrl.comp == ADS1115_CQUE_1CONV || ads_ctrl.comp == ADS1115_CQUE_2CONV
              || ads_ctrl.comp == ADS1115_CQUE_4CONV)
            && ads_ctrl.threshold_low == 0x7FFF && ads_ctrl.threshold_hi == 0x8000 then
          if ads_ctrl.mode = ADS1115_MODE_SINGLE then
            let now : Int := ((0x7FFFFFFF &&& (w.system_time % 4294967296) : Nat) : Int)
            let w := write_reg w addr ADS1115_POINTER_CONFIG ads_ctrl.config
            (Except.ok [LuaPushed.pushinteger now], w)
          else
            (Except.ok [LuaPushed.pushinteger 0], w)
        else
          match L.getD 1 LuaValue.nil with
          | LuaValue.nil => (Except.error "Must be function", w)
          | LuaValue.number _ => (Except.error "Must be function", w)
          | LuaValue.other => (Except.error "Must be function", w)
          | cb =>
            let rf := luaL_ref w cb
            let w := rf.2
            let ads_ctrl := { ads_ctrl with timer_ref := rf.1 }
            let w := w.store (table_idx addr) ads_ctrl
            let w := if ads_ctrl.mode = ADS1115_MODE_SINGLE then
                       write_reg w addr ADS1115_POINTER_CONFIG ads_ctrl.config
                     else w
            -- Start a timer to wait until ADC conversion is done
            let msec := startread_msec ads_ctrl.samples_value
            let ads_ctrl := { ads_ctrl with
              timer := { armed := true, msec := msec, repeat_flag := 0, fn_set := true } }
            (Except.ok [], w.store (table_idx addr) ads_ctrl)

/-- Lines 497-498 and 532-533: `(int)((volt - (int)volt) * 1000)`, then its absolute
value. -/
def voltdec_of (volt : ℚ) : Int :=
  let voltdec := c_trunc ((volt - (c_trunc volt : ℚ)) * 1000)
  if voltdec > 0 then voltdec else 0 - voltdec

/-- Function `static int ads1115_lua_readoutdone(void * param)`: the adc conversion timer
callback; `param` is the pointer stored in `ads_ctrl_table[idx]`. -/
def ads1115_lua_readoutdone (w : World) (idx : Fin 4) : World :=
  match w.ads_ctrl_table idx with
  | none => w
  | some ads_ctrl =>
    let rd := read_reg w ads_ctrl.addr ADS1115_POINTER_CONVERSION
    let ads1115_conversion := rd.1
    let w := rd.2
    let ads1115_volt := get_volt ads_ctrl.gain ads1115_conversion
    let ads1115_voltdec := voltdec_of ads1115_volt
    let ads_ctrl := { ads_ctrl with timer := { ads_ctrl.timer with armed := false } }
    let cb := lua_rawgeti w ads_ctrl.timer_ref
    let w := luaL_unref w ads_ctrl.timer_ref
    let ads_ctrl := { ads_ctrl with timer_ref := LUA_NOREF }
    let w := w.store idx ads_ctrl
    { w with lua_calls := w.lua_calls ++
        [(cb, [LuaPushed.pushnumber ads1115_volt, LuaPushed.pushinteger ads1115_voltdec,
               LuaPushed.pushinteger ads1115_conversion])] }

/-- Function `static int ads1115_lua_read(lua_State *L)`: `volt,voltdec,adc = ads1115.read()`. -/
def ads1115_lua_read (w : World) (L : List LuaValue) : LuaResult × World :=
  if !lua_isnumber L 1 then
    (Except.error "wrong arg range", w)
  else
    let addr := uint8_t_cast (luaL_checkinteger L 1)
    if !IS_I2C_ADDR_VALID addr then
      (Except.error "Invalid argument: adddress", w)
    else
      match w.ads_ctrl_table (table_idx addr) with
      | none => (Except.error "Uninitialized", w)
      | some ads_ctrl =>
        let rd := read_reg w addr ADS1115_POINTER_CONVERSION
        let ads1115_conversion := rd.1
        let w := rd.2
        let ads1115_volt := get_volt ads_ctrl.gain ads1115_conversion
        let ads1115_voltdec := voltdec_of ads1115_volt
        (Except.ok [LuaPushed.pushnumber ads1115_volt, LuaPushed.pushinteger ads1115_voltdec,
                    LuaPushed.pushinteger ads1115_conversion], w)

/-! ## Vocabulary of the specification -/

/-- The six gain settings. -/
def gain_settings : List Nat :=
  [ADS1115_PGA_6_144V, ADS1115_PGA_4_096V, ADS1115_PGA_2_048V, ADS1115_PGA_1_024V,
   ADS1115_PGA_0_512V, ADS1115_PGA_0_256V]

/-- The eight multiplexer selectors. -/
def mux_selectors : List Nat :=
  [ADS1115_MUX_DIFF_0_1, ADS1115_MUX_DIFF_0_3, ADS1115_MUX_DIFF_1_3, ADS1115_MUX_DIFF_2_3,
   ADS1115_MUX_SINGLE_0, ADS1115_MUX_SINGLE_1, ADS1115_MUX_SINGLE_2, ADS1115_MUX_SINGLE_3]

/-- The four single-ended multiplexer selectors. -/
def single_ended : List Nat :=
  [ADS1115_MUX_SINGLE_0, ADS1115_MUX_SINGLE_1, ADS1115_MUX_SINGLE_2, ADS1115_MUX_SINGLE_3]

/-- The four differential multiplexer selectors. -/
def differential : List Nat :=
  [ADS1115_MUX_DIFF_0_1, ADS1115_MUX_DIFF_0_3, ADS1115_MUX_DIFF_1_3, ADS1115_MUX_DIFF_2_3]

/-- Full-scale range in millivolt of a gain setting, the bound tested by `get_value`. -/
def full_scale (gain : Nat) : Int :=
  if gain = ADS1115_PGA_6_144V then 6144
  else if gain = ADS1115_PGA_4_096V then 4096
  else if gain = ADS1115_PGA_2_048V then 2048
  else if gain = ADS1115_PGA_1_024V then 1024
  else if gain = ADS1115_PGA_0_512V then 512
  else if gain = ADS1115_PGA_0_256V then 256
  else 0

/-- Millivolt per code step of a gain setting, the factor used by `get_volt`. -/
def lsb_size (gain : Nat) : ℚ :=
  if gain = ADS1115_PGA_6_144V then 0.1875
  else if gain = ADS1115_PGA_4_096V then 0.125
  else if gain = ADS1115_PGA_2_048V then 0.0625
  else if gain = ADS1115_PGA_1_024V then 0.03125
  else if gain = ADS1115_PGA_0_512V then 0.015625
  else if gain = ADS1115_PGA_0_256V then 0.0078125
  else 0

/-- Sample-rate table of the 16-bit variant: rate and register bits. -/
def rate_table_16bit : List (Nat × Nat) :=
  [(8, 0x00), (16, 0x20), (32, 0x40), (64, 0x60), (128, 0x80), (250, 0xA0), (475, 0xC0),
   (860, 0xE0)]

/-- Sample-rate table of the 12-bit variant: rate and register bits. -/
def rate_table_12bit : List (Nat × Nat) :=
  [(128, 0x00), (250, 0x20), (490, 0x40), (920, 0x60), (1600, 0x80), (2400, 0xA0),
   (3300, 0xC0)]

/-- The sample-rate table of a chip variant. -/
def rate_table (chip_id : Nat) : List (Nat × Nat) :=
  if chip_id = ADS1115_ADS1115 then rate_table_16bit else rate_table_12bit

/-- The messages of the module that report an `InvalidArgument` error. -/
def invalid_argument_messages : List String :=
  [ "wrong arg range",
    "Invalid argument: adddress",
    "Invalid argument: chip_id",
    "Invalid argument: gain",
    "Invalid argument: samples",
    "Invalid argument: channel",
    "Invalid argument: mode",
    "Invalid argument: conversion ready/comparator mode",
    "Invalid argument: threshold_low > threshold_hi",
    "Invalid argument: threshold_low",
    "Invalid argument: threshold_hi",
    "Invalid argument: comparator_mode",
    "Must be function" ]

/-- The call failed with an `InvalidArgument` error. -/
def InvalidArgument (r : LuaResult) : Prop :=
  match r with
  | Except.error msg => msg ∈ invalid_argument_messages
  | Except.ok _ => False

/-- The call failed with the `DeviceNotFound` error. -/
def DeviceNotFound (r : LuaResult) : Prop := r = Except.error "found no device"

/-! ## States used in the instances -/

/-- A state with no record, in which the device answers the next register read with the
bytes 0x85 0x83. -/
def world_fresh : World :=
  { ads_ctrl_table := fun _ => none, i2c_log := [], i2c_rx := [0x85, 0x83], malloc_ok := true,
    system_time := 0, registry := [], lua_calls := [] }

/-- Arguments of `ads1115.setup(ads1115.ADDR_GND, ads1115.ADS1115)`. -/
def args_setup : List LuaValue := [LuaValue.number 0x48, LuaValue.number 115]

/-- The state after `ads1115.setup(ads1115.ADDR_GND, ads1115.ADS1115)` on `world_fresh`. -/
def world_ready : World := (ads1115_lua_setup world_fresh args_setup).2

/-- Arguments of `ads1115.setting(ADDR_GND, GAIN_6_144V, DR_128SPS, SINGLE_0, SINGLE_SHOT)`. -/
def args_setting : List LuaValue :=
  [LuaValue.number 0x48, LuaValue.number 0x0000, LuaValue.number 128, LuaValue.number 0x4000,
   LuaValue.number 0x0100]

/-- The arguments `args_setting` with the gain replaced by 1, which is no gain setting. -/
def args_setting_bad_gain : List LuaValue :=
  [LuaValue.number 0x48, LuaValue.number 1, LuaValue.number 128, LuaValue.number 0x4000,
   LuaValue.number 0x0100]

/-- Arguments of `ads1115.setting(ADDR_GND, GAIN_6_144V, DR_128SPS, DIFF_0_1, SINGLE_SHOT,
COMP_1CONV, 1000, -1000)`: the low threshold exceeds the high one. -/
def args_setting_low_gt_hi : List LuaValue :=
  [LuaValue.number 0x48, LuaValue.number 0x0000, LuaValue.number 128, LuaValue.number 0x0000,
   LuaValue.number 0x0100, LuaValue.number 0x0000, LuaValue.number 1000,
   LuaValue.number (-1000)]

/-! ## The timer event and further vocabulary -/

/-- Modelled from the spec: the platform timer (`os_timer_*`, not part of this module) is a
single-shot timer; when an armed timer expires, the platform calls the function registered
with `os_timer_setfn` on its argument, here `ads1115_lua_readoutdone(ads_ctrl)`.  A timer
that is not armed never expires, so the event does nothing. -/
def timer_expiry (w : World) (idx : Fin 4) : World :=
  match w.ads_ctrl_table idx with
  | none => w
  | some ads_ctrl =>
    if ads_ctrl.timer.armed && ads_ctrl.timer.fn_set then ads1115_lua_readoutdone w idx else w

/-- The test of `ads1115_lua_startread` (lines 430-434) for the conversion-ready-pin mode:
a comparator queue depth is set and the thresholds are the unset pair. -/
def conversion_ready_mode (r : ads_ctrl_struct_t) : Bool :=
  (r.comp == ADS1115_CQUE_1CONV || r.comp == ADS1115_CQUE_2CONV || r.comp == ADS1115_CQUE_4CONV)
    && r.threshold_low == 0x7FFF && r.threshold_hi == 0x8000

/-- The value is a Lua function or light function, what `ads1115_lua_startread` accepts as
callback. -/
def is_callback (v : LuaValue) : Bool :=
  match v with
  | LuaValue.func _ => true
  | LuaValue.lightfunc _ => true
  | _ => false

/-- The wait table of the specification: sample rate and timer duration in ms; a rate
that is not listed waits 1 ms. -/
def wait_table : List (Nat × Nat) :=
  [(8, 150), (16, 75), (32, 35), (64, 20), (128, 10), (250, 5), (475, 3), (490, 3),
   (860, 2), (920, 2)]

/-- The 16-bit register content read as a signed two's-complement code. -/
def signed_code (raw : Nat) : Int := if raw < 32768 then (raw : Int) else (raw : Int) - 65536

/-- Arguments of `ads1115.startread(ADDR_GND)`, no callback; also those of
`ads1115.read(ADDR_GND)`. -/
def args_addr : List LuaValue := [LuaValue.number 0x48]

/-- Arguments of `ads1115.startread(ADDR_GND, cb1)`. -/
def args_startread_cb1 : List LuaValue := [LuaValue.number 0x48, LuaValue.func 1]

/-- Arguments of `ads1115.startread(ADDR_GND, cb2)`. -/
def args_startread_cb2 : List LuaValue := [LuaValue.number 0x48, LuaValue.func 2]

/-- Arguments of `ads1115.setting(ADDR_GND, GAIN_6_144V, DR_128SPS, SINGLE_0, SINGLE_SHOT,
CONV_RDY_1)`: a comparator queue depth and no threshold bounds. -/
def args_setting_rdy : List LuaValue :=
  [LuaValue.number 0x48, LuaValue.number 0x0000, LuaValue.number 128, LuaValue.number 0x4000,
   LuaValue.number 0x0100, LuaValue.number 0x0000]

/-- Arguments of `ads1115.setting(ADDR_GND, GAIN_6_144V, DR_128SPS, SINGLE_0, CONTINUOUS,
CONV_RDY_1)`. -/
def args_setting_rdy_contin : List LuaValue :=
  [LuaValue.number 0x48, LuaValue.number 0x0000, LuaValue.number 128, LuaValue.number 0x4000,
   LuaValue.number 0x0000, LuaValue.number 0x0000]

/-- Arguments of `ads1115.setting(ADDR_GND, GAIN_6_144V, DR_128SPS, DIFF_0_1, SINGLE_SHOT,
COMP_1CONV, -1000, 1000, 5)`: ordered thresholds in range and 5, which is no comparator
mode. -/
def args_setting_bad_cmode : List LuaValue :=
  [LuaValue.number 0x48, LuaValue.number 0x0000, LuaValue.number 128, LuaValue.number 0x0000,
   LuaValue.number 0x0100, LuaValue.number 0x0000, LuaValue.number (-1000),
   LuaValue.number 1000, LuaValue.number 5]

/-- The state after `args_setting_rdy` on `world_ready`, the system time being 123456
microseconds: single-shot, conversion-ready-pin mode. -/
def world_rdy : World :=
  { (ads1115_lua_setting world_ready args_setting_rdy).2 with system_time := 123456 }

/-- The state after `args_setting_rdy_contin` on `world_ready`, the system time being
123456 microseconds: continuous, conversion-ready-pin mode. -/
def world_rdy_contin : World :=
  { (ads1115_lua_setting world_ready args_setting_rdy_contin).2 with system_time := 123456 }

/-- The state `world_ready` in which the device answers the next register read with the
bytes 0xFF 0xFF. -/
def world_negative : World := { world_ready with i2c_rx := [0xFF, 0xFF] }

/-! ## Further states and arguments used in the instances -/

/-- Arguments of `ads1115.setting(ADDR_GND, GAIN_4_096V, 7, SINGLE_0, SINGLE_SHOT)`: a valid
gain that differs from the one stored by setup, and 7, which is no sample rate. -/
def args_setting_bad_samples : List LuaValue :=
  [LuaValue.number 0x48, LuaValue.number 0x0200, LuaValue.number 7, LuaValue.number 0x4000,
   LuaValue.number 0x0100]

/-- Arguments of `ads1115.setting(ADDR_GND, GAIN_6_144V, DR_128SPS, DIFF_0_1, SINGLE_SHOT,
COMP_1CONV, -1000, 1000)`: a comparator queue depth with ordered threshold bounds in
range. -/
def args_setting_bounds : List LuaValue :=
  [LuaValue.number 0x48, LuaValue.number 0x0000, LuaValue.number 128, LuaValue.number 0x0000,
   LuaValue.number 0x0100, LuaValue.number 0x0000, LuaValue.number (-1000),
   LuaValue.number 1000]

/-- The sample rates accepted by one of the two chip variants. -/
def accepted_rates : List Nat := (rate_table_16bit ++ rate_table_12bit).map Prod.fst

/-! ## Lemmas on machine arithmetic -/

theorem int16_t_cast_of_range (c : Int) (h1 : -32768 ≤ c) (h2 : c ≤ 32767) :
    int16_t_cast c = c := by
  unfold int16_t_cast; omega

theorem int16_t_cast_uint16_t_cast (c : Int) (h1 : -32768 ≤ c) (h2 : c ≤ 32767) :
    int16_t_cast (uint16_t_cast c : Int) = c := by
  unfold int16_t_cast uint16_t_cast; omega

theorem c_trunc_intCast (n : Int) : c_trunc (n : ℚ) = n := by
  unfold c_trunc; split <;> simp

theorem c_trunc_sub_abs_lt (q : ℚ) : |(c_trunc q : ℚ) - q| < 1 := by
  unfold c_trunc
  split
  · have h1 := Int.floor_le q
    have h2 := Int.lt_floor_add_one q
    rw [abs_lt]; constructor <;> linarith
  · have h1 := Int.le_ceil q
    have h2 := Int.ceil_lt_add_one q
    rw [abs_lt]; constructor <;> linarith

theorem c_trunc_bounds (q : ℚ) (h1 : -32768 ≤ q) (h2 : q < 32768) :
    -32768 ≤ c_trunc q ∧ c_trunc q ≤ 32767 := by
  unfold c_trunc
  split
  · constructor
    · have : (0 : Int) ≤ ⌊q⌋ := Int.floor_nonneg.mpr (by assumption)
      omega
    · have : ⌊q⌋ < 32768 := Int.floor_lt.mpr (by exact_mod_cast h2)
      omega
  · constructor
    · have : ((-32768 : Int) : ℚ) ≤ q := by exact_mod_cast h1
      have := Int.le_ceil q
      have h3 : ((-32768 : Int) : ℚ) ≤ (⌈q⌉ : ℚ) := le_trans ‹_› this
      exact_mod_cast h3
    · have : ⌈q⌉ ≤ 0 := Int.ceil_le.mpr (by push_cast; linarith)
      omega

/-! ## Lemmas on `get_value` -/

theorem get_value_case_eq_none_iff (fs : Int) (lsb : ℚ) (channel : Nat) (volt : Int) :
    get_value_case fs lsb channel volt = none ↔
      (volt ≥ fs ∨ volt < -fs ∨ (volt < 0 ∧ channel >>> 14 ≠ 0)) := by
  unfold get_value_case
  split <;> simp_all

theorem get_value_case_accept (fs : Int) (lsb : ℚ) (channel : Nat) (volt : Int)
    (hlsb : 0 < lsb) (hfs : (fs : ℚ) = 32768 * lsb)
    (h1 : -fs ≤ volt) (h2 : volt < fs) (h3 : volt < 0 → channel >>> 14 = 0) :
    get_value_case fs lsb channel volt = some (c_trunc ((volt : ℚ) / lsb)) ∧
      -32768 ≤ c_trunc ((volt : ℚ) / lsb) ∧ c_trunc ((volt : ℚ) / lsb) ≤ 32767 ∧
      |(c_trunc ((volt : ℚ) / lsb) : ℚ) * lsb - volt| < lsb := by
  have hq1 : (-32768 : ℚ) ≤ (volt : ℚ) / lsb := by
    rw [le_div_iff₀ hlsb]
    have : ((-fs : Int) : ℚ) ≤ (volt : ℚ) := by exact_mod_cast h1
    push_cast at this; linarith
  have hq2 : (volt : ℚ) / lsb < 32768 := by
    rw [div_lt_iff₀ hlsb]
    have : (volt : ℚ) < (fs : ℚ) := by exact_mod_cast h2
    linarith
  obtain ⟨hb1, hb2⟩ := c_trunc_bounds _ hq1 hq2
  refine ⟨?_, hb1, hb2, ?_⟩
  · unfold get_value_case
    rw [if_neg, int16_t_cast_of_range _ hb1 hb2]
    rintro (h | h | ⟨h, h'⟩)
    · omega
    · omega
    · exact h' (h3 h)
  · have h := c_trunc_sub_abs_lt ((volt : ℚ) / lsb)
    have e : (c_trunc ((volt : ℚ) / lsb) : ℚ) * lsb - volt
        = ((c_trunc ((volt : ℚ) / lsb) : ℚ) - (volt : ℚ) / lsb) * lsb := by
      field_simp
    rw [e, abs_mul, abs_of_pos hlsb]
    calc |(c_trunc ((volt : ℚ) / lsb) : ℚ) - (volt : ℚ) / lsb| * lsb < 1 * lsb :=
          mul_lt_mul_of_pos_right h hlsb
      _ = lsb := one_mul _

theorem mux_shift_eq_zero_iff (channel : Nat) (hc : channel ∈ mux_selectors) :
    channel >>> 14 = 0 ↔ channel ∉ single_ended := by
  simp only [mux_selectors, List.mem_cons, List.mem_singleton, List.not_mem_nil, or_false] at hc
  rcases hc with h | h | h | h | h | h | h | h <;> subst h <;> decide

theorem get_value_eq_none_iff (gain channel : Nat) (mv : Int) (hg : gain ∈ gain_settings) :
    get_value gain channel mv = none ↔
      (mv ≥ full_scale gain ∨ mv < -full_scale gain ∨ (mv < 0 ∧ channel >>> 14 ≠ 0)) := by
  simp only [gain_settings, List.mem_cons, List.mem_singleton, List.not_mem_nil, or_false] at hg
  rcases hg with h | h | h | h | h | h <;> subst h <;>
    simp only [full_scale, get_value] <;> norm_num [get_value_case_eq_none_iff]

theorem get_value_case_neg_full_scale (fs : Int) (lsb : ℚ) (channel : Nat)
    (hlsb : 0 < lsb) (hfs : (fs : ℚ) = 32768 * lsb) (hpos : 0 < fs)
    (h : channel >>> 14 = 0) : get_value_case fs lsb channel (-fs) = some (-32768) := by
  obtain ⟨e, _, _, _⟩ := get_value_case_accept fs lsb channel (-fs) hlsb hfs (le_refl _)
    (by omega) (fun _ => h)
  have hq : (((-fs : Int)) : ℚ) / lsb = ((-32768 : Int) : ℚ) := by
    push_cast
    rw [hfs]
    field_simp
  rw [e, hq, c_trunc_intCast]

theorem get_value_neg_full_scale (gain channel : Nat) (hg : gain ∈ gain_settings)
    (h : channel >>> 14 = 0) : get_value gain channel (-full_scale gain) = some (-32768) := by
  simp only [gain_settings, List.mem_cons, List.mem_singleton, List.not_mem_nil, or_false] at hg
  rcases hg with h | h | h | h | h | h <;> subst h <;>
    simp only [full_scale, get_value] <;> norm_num <;>
    apply get_value_case_neg_full_scale <;> first | assumption | norm_num

theorem full_scale_pos (gain : Nat) (hg : gain ∈ gain_settings) : 0 < full_scale gain := by
  simp only [gain_settings, List.mem_cons, List.mem_singleton, List.not_mem_nil, or_false] at hg
  rcases hg with h | h | h | h | h | h <;> subst h <;> decide

/-! ## Theorems on the voltage scaling -/

/-- C1: for each of the six gain settings, every mux selector and every millivolt value
strictly inside the range of the gain and of matching polarity, `get_value` succeeds
with a code that fits a signed 16-bit value, and `get_volt` of that code differs from the
millivolt value by less than one LSB of the gain. -/
theorem C1_roundtrip_within_one_lsb (gain channel : Nat) (mv : Int)
    (hg : gain ∈ gain_settings) (hc : channel ∈ mux_selectors)
    (hlo : -full_scale gain < mv) (hhi : mv < full_scale gain)
    (hpol : channel ∈ single_ended → 0 ≤ mv) :
    ∃ c : Int, get_value gain channel mv = some c ∧ -32768 ≤ c ∧ c ≤ 32767 ∧
      |get_volt gain (uint16_t_cast c) - (mv : ℚ)| < lsb_size gain := by
  have h3 : mv < 0 → channel >>> 14 = 0 := by
    intro hneg
    rw [mux_shift_eq_zero_iff channel hc]
    intro hs
    have := hpol hs
    omega
  simp only [gain_settings, List.mem_cons, List.mem_singleton, List.not_mem_nil, or_false] at hg
  rcases hg with h | h | h | h | h | h <;> subst h <;>
    simp only [full_scale, get_value, get_volt, lsb_size] at hlo hhi ⊢ <;>
    norm_num at hlo hhi ⊢
  · obtain ⟨e, b1, b2, hd⟩ := get_value_case_accept 6144 (3/16) channel mv (by norm_num)
      (by norm_num) (by omega) hhi h3
    exact ⟨_, e, b1, b2, by rw [int16_t_cast_uint16_t_cast _ b1 b2]; exact hd⟩
  · obtain ⟨e, b1, b2, hd⟩ := get_value_case_accept 4096 (1/8) channel mv (by norm_num)
      (by norm_num) (by omega) hhi h3
    exact ⟨_, e, b1, b2, by rw [int16_t_cast_uint16_t_cast _ b1 b2]; exact hd⟩
  · obtain ⟨e, b1, b2, hd⟩ := get_value_case_accept 2048 (1/16) channel mv (by norm_num)
      (by norm_num) (by omega) hhi h3
    exact ⟨_, e, b1, b2, by rw [int16_t_cast_uint16_t_cast _ b1 b2]; exact hd⟩
  · obtain ⟨e, b1, b2, hd⟩ := get_value_case_accept 1024 (1/32) channel mv (by norm_num)
      (by norm_num) (by omega) hhi h3
    exact ⟨_, e, b1, b2, by rw [int16_t_cast_uint16_t_cast _ b1 b2]; exact hd⟩
  · obtain ⟨e, b1, b2, hd⟩ := get_value_case_accept 512 (1/64) channel mv (by norm_num)
      (by norm_num) (by omega) hhi h3
    exact ⟨_, e, b1, b2, by rw [int16_t_cast_uint16_t_cast _ b1 b2]; exact hd⟩
  · obtain ⟨e, b1, b2, hd⟩ := get_value_case_accept 256 (1/128) channel mv (by norm_num)
      (by norm_num) (by omega) hhi h3
    exact ⟨_, e, b1, b2, by rw [int16_t_cast_uint16_t_cast _ b1 b2]; exact hd⟩

/-- C1 (instance): 1000 mV at gain 6.144V on the single-ended input AIN0. -/
theorem C1_roundtrip_within_one_lsb_witness :
    (ADS1115_PGA_6_144V ∈ gain_settings ∧ ADS1115_MUX_SINGLE_0 ∈ mux_selectors ∧
      -full_scale ADS1115_PGA_6_144V < 1000 ∧ 1000 < full_scale ADS1115_PGA_6_144V ∧
      (ADS1115_MUX_SINGLE_0 ∈ single_ended → (0 : Int) ≤ 1000)) ∧
    ∃ c : Int, get_value ADS1115_PGA_6_144V ADS1115_MUX_SINGLE_0 1000 = some c ∧
      -32768 ≤ c ∧ c ≤ 32767 ∧
      |get_volt ADS1115_PGA_6_144V (uint16_t_cast c) - ((1000 : Int) : ℚ)|
        < lsb_size ADS1115_PGA_6_144V :=
  ⟨⟨by decide, by decide, by decide, by decide, by decide⟩,
   C1_roundtrip_within_one_lsb ADS1115_PGA_6_144V ADS1115_MUX_SINGLE_0 1000
    (by decide) (by decide) (by decide) (by decide) (by decide)⟩


/-! ## Theorems on setup -/

theorem uint8_t_cast_addr (a : Int) (ha : 0x48 ≤ a ∧ a ≤ 0x4B) :
    IS_I2C_ADDR_VALID (uint8_t_cast a) = true := by
  obtain ⟨h1, h2⟩ := ha
  interval_cases a <;> decide

/-- The course of `ads1115_lua_setup` once its argument checks have passed. -/
theorem setup_of_valid_args (w : World) (a c : Int) (rest : List LuaValue)
    (hv : IS_I2C_ADDR_VALID (uint8_t_cast a) = true)
    (hc : uint8_t_cast c = ADS1115_ADS1015 ∨ uint8_t_cast c = ADS1115_ADS1115) :
    ads1115_lua_setup w (LuaValue.number a :: LuaValue.number c :: rest) =
      if (read_reg w (uint8_t_cast a) ADS1115_POINTER_CONFIG).1 = 0x8583 then
        if w.ads_ctrl_table (table_idx (uint8_t_cast a)) = none ∧ w.malloc_ok = false then
          (Except.error "ads1115 malloc: out of memory",
            (read_reg w (uint8_t_cast a) ADS1115_POINTER_CONFIG).2)
        else
          (Except.ok [],
            (read_reg w (uint8_t_cast a) ADS1115_POINTER_CONFIG).2.store
              (table_idx (uint8_t_cast a)) (setup_defaults (uint8_t_cast a) (uint8_t_cast c)))
      else
        (Except.error "found no device", (read_reg w (uint8_t_cast a) ADS1115_POINTER_CONFIG).2) := by
  have hchip : ¬ (uint8_t_cast c ≠ ADS1115_ADS1015 ∧ uint8_t_cast c ≠ ADS1115_ADS1115) := by
    rcases hc with h | h <;> rw [h] <;> decide
  have htab : (read_reg w (uint8_t_cast a) ADS1115_POINTER_CONFIG).2.ads_ctrl_table
      = w.ads_ctrl_table := rfl
  have hmal : (read_reg w (uint8_t_cast a) ADS1115_POINTER_CONFIG).2.malloc_ok
      = w.malloc_ok := rfl
  unfold ads1115_lua_setup
  simp only [lua_isnumber, luaL_checkinteger, List.getD_cons_zero, List.getD_cons_succ,
    Nat.sub_self, Nat.reduceSub, hv, Bool.not_true, Bool.or_self, Bool.false_eq_true, if_false,
    if_neg hchip, htab, hmal]
  by_cases hr : (read_reg w (uint8_t_cast a) ADS1115_POINTER_CONFIG).1 = 0x8583
  · rw [if_neg (by simpa using hr), if_pos hr]
    cases hs : w.ads_ctrl_table (table_idx (uint8_t_cast a)) with
    | none => cases hm : w.malloc_ok <;> simp
    | some r => simp
  · rw [if_pos (by simpa using hr), if_neg hr]

/-- C3: for a valid address and a valid chip variant, allocation of the record
succeeding, `setup` succeeds if and only if the readback of the config register is
0x8583; on every other readback it fails with "found no device" and `ads_ctrl_table` is
as before. -/
theorem C3_setup_iff_default_readback (w : World) (a c : Int) (rest : List LuaValue)
    (ha : 0x48 ≤ a ∧ a ≤ 0x4B)
    (hc : c = ADS1115_ADS1015 ∨ c = ADS1115_ADS1115)
    (halloc : w.ads_ctrl_table (table_idx (uint8_t_cast a)) ≠ none ∨ w.malloc_ok = true) :
    ((ads1115_lua_setup w (LuaValue.number a :: LuaValue.number c :: rest)).1 = Except.ok [] ↔
      (read_reg w (uint8_t_cast a) ADS1115_POINTER_CONFIG).1 = 0x8583) ∧
    ((read_reg w (uint8_t_cast a) ADS1115_POINTER_CONFIG).1 = 0x8583 ∨
      (DeviceNotFound (ads1115_lua_setup w (LuaValue.number a :: LuaValue.number c :: rest)).1 ∧
       (ads1115_lua_setup w (LuaValue.number a :: LuaValue.number c :: rest)).2.ads_ctrl_table
         = w.ads_ctrl_table)) := by
  have hv := uint8_t_cast_addr a ha
  have hc' : uint8_t_cast c = ADS1115_ADS1015 ∨ uint8_t_cast c = ADS1115_ADS1115 := by
    rcases hc with h | h <;> subst h
    · exact Or.inl (by decide)
    · exact Or.inr (by decide)
  have hna : ¬ (w.ads_ctrl_table (table_idx (uint8_t_cast a)) = none ∧ w.malloc_ok = false) := by
    rintro ⟨h1, h2⟩
    rcases halloc with h | h
    · exact h h1
    · rw [h2] at h; exact Bool.noConfusion h
  rw [setup_of_valid_args w a c rest hv hc']
  by_cases hr : (read_reg w (uint8_t_cast a) ADS1115_POINTER_CONFIG).1 = 0x8583
  · rw [if_pos hr, if_neg hna]
    exact ⟨by simp [hr], Or.inl hr⟩
  · rw [if_neg hr]
    refine ⟨by simp [hr], Or.inr ⟨rfl, rfl⟩⟩

/-- C3 (instance): `setup(0x48, ADS1115)` on the fresh state. -/
theorem C3_setup_iff_default_readback_witness :
    ((0x48 ≤ (0x48 : Int) ∧ (0x48 : Int) ≤ 0x4B) ∧
     ((115 : Int) = ADS1115_ADS1015 ∨ (115 : Int) = ADS1115_ADS1115) ∧
     (world_fresh.ads_ctrl_table (table_idx (uint8_t_cast 0x48)) ≠ none ∨
       world_fresh.malloc_ok = true)) ∧
    (((ads1115_lua_setup world_fresh (LuaValue.number 0x48 :: LuaValue.number 115 :: [])).1
        = Except.ok [] ↔
      (read_reg world_fresh (uint8_t_cast 0x48) ADS1115_POINTER_CONFIG).1 = 0x8583) ∧
    ((read_reg world_fresh (uint8_t_cast 0x48) ADS1115_POINTER_CONFIG).1 = 0x8583 ∨
      (DeviceNotFound
          (ads1115_lua_setup world_fresh (LuaValue.number 0x48 :: LuaValue.number 115 :: [])).1 ∧
       (ads1115_lua_setup world_fresh
          (LuaValue.number 0x48 :: LuaValue.number 115 :: [])).2.ads_ctrl_table
         = world_fresh.ads_ctrl_table))) :=
  ⟨⟨by decide, by decide, Or.inr rfl⟩,
   C3_setup_iff_default_readback world_fresh 0x48 115 [] (by decide) (by decide) (Or.inr rfl)⟩

/-- The state after a successful `ads1115_lua_setup`. -/
theorem setup_ok_state (w : World) (L : List LuaValue)
    (hok : (ads1115_lua_setup w L).1 = Except.ok []) :
    (uint8_t_cast (luaL_checkinteger L 2) = ADS1115_ADS1015 ∨
      uint8_t_cast (luaL_checkinteger L 2) = ADS1115_ADS1115) ∧
    (ads1115_lua_setup w L).2 =
      (read_reg w (uint8_t_cast (luaL_checkinteger L 1)) ADS1115_POINTER_CONFIG).2.store
        (table_idx (uint8_t_cast (luaL_checkinteger L 1)))
        (setup_defaults (uint8_t_cast (luaL_checkinteger L 1))
          (uint8_t_cast (luaL_checkinteger L 2))) := by
  by_cases h1 : (!lua_isnumber L 1 || !lua_isnumber L 2) = true
  · simp [ads1115_lua_setup, h1] at hok
  by_cases h2 : (!IS_I2C_ADDR_VALID (uint8_t_cast (luaL_checkinteger L 1))) = true
  · simp [ads1115_lua_setup, h1, h2] at hok
  by_cases h3 : uint8_t_cast (luaL_checkinteger L 2) ≠ ADS1115_ADS1015 ∧
      uint8_t_cast (luaL_checkinteger L 2) ≠ ADS1115_ADS1115
  · simp [ads1115_lua_setup, h1, h2, h3] at hok
  by_cases h4 : (read_reg w (uint8_t_cast (luaL_checkinteger L 1)) ADS1115_POINTER_CONFIG).1
      ≠ ADS1115_DEFAULT_CONFIG_REG
  · simp [ads1115_lua_setup, h1, h2, h3, h4] at hok
  have hchip : uint8_t_cast (luaL_checkinteger L 2) = ADS1115_ADS1015 ∨
      uint8_t_cast (luaL_checkinteger L 2) = ADS1115_ADS1115 := by
    by_contra hcon
    exact h3 ⟨fun h => hcon (Or.inl h), fun h => hcon (Or.inr h)⟩
  refine ⟨hchip, ?_⟩
  unfold ads1115_lua_setup at hok ⊢
  simp only [h1, h2, h3, h4, if_false] at hok ⊢
  cases hs : (read_reg w (uint8_t_cast (luaL_checkinteger L 1))
      ADS1115_POINTER_CONFIG).2.ads_ctrl_table
      (table_idx (uint8_t_cast (luaL_checkinteger L 1))) with
  | some r => simp [hs]
  | none =>
    simp only [hs] at hok ⊢
    by_cases hm : (read_reg w (uint8_t_cast (luaL_checkinteger L 1))
        ADS1115_POINTER_CONFIG).2.malloc_ok = true
    · simp [hm]
    · simp [hm] at hok

/-- C4: after a successful `setup`, the record at slot `address & 3` holds the address and
the chip variant, gain 6.144V, sample rate 128 (16-bit variant) or 1600 (12-bit variant),
mode single-shot and comparator queue disabled; the other three slots are as before. -/
theorem C4_setup_defaults (w : World) (L : List LuaValue)
    (hok : (ads1115_lua_setup w L).1 = Except.ok []) :
    ∃ r : ads_ctrl_struct_t,
      (ads1115_lua_setup w L).2.ads_ctrl_table
        (table_idx (uint8_t_cast (luaL_checkinteger L 1))) = some r ∧
      r.addr = uint8_t_cast (luaL_checkinteger L 1) ∧
      r.chip_id = uint8_t_cast (luaL_checkinteger L 2) ∧
      (r.chip_id = ADS1115_ADS1115 ∨ r.chip_id = ADS1115_ADS1015) ∧
      r.gain = ADS1115_PGA_6_144V ∧
      r.samples_value = (if r.chip_id = ADS1115_ADS1115 then 128 else 1600) ∧
      r.mode = ADS1115_MODE_SINGLE ∧
      r.comp = ADS1115_CQUE_NONE ∧
      ∀ i : Fin 4, i ≠ table_idx (uint8_t_cast (luaL_checkinteger L 1)) →
        (ads1115_lua_setup w L).2.ads_ctrl_table i = w.ads_ctrl_table i := by
  obtain ⟨hchip, hst⟩ := setup_ok_state w L hok
  rw [hst]
  refine ⟨setup_defaults (uint8_t_cast (luaL_checkinteger L 1))
    (uint8_t_cast (luaL_checkinteger L 2)), ?_, rfl, rfl, ?_, rfl, rfl, rfl, rfl, ?_⟩
  · simp [World.store]
  · simp only [setup_defaults]; tauto
  · intro i hi
    simp only [World.store, Function.update_noteq hi]
    rfl

/-- C4 (instance): `setup(0x48, ADS1115)` on the fresh state. -/
theorem C4_setup_defaults_witness :
    (ads1115_lua_setup world_fresh args_setup).1 = Except.ok [] ∧
    ∃ r : ads_ctrl_struct_t,
      (ads1115_lua_setup world_fresh args_setup).2.ads_ctrl_table
        (table_idx (uint8_t_cast (luaL_checkinteger args_setup 1))) = some r ∧
      r.addr = uint8_t_cast (luaL_checkinteger args_setup 1) ∧
      r.chip_id = uint8_t_cast (luaL_checkinteger args_setup 2) ∧
      (r.chip_id = ADS1115_ADS1115 ∨ r.chip_id = ADS1115_ADS1015) ∧
      r.gain = ADS1115_PGA_6_144V ∧
      r.samples_value = (if r.chip_id = ADS1115_ADS1115 then 128 else 1600) ∧
      r.mode = ADS1115_MODE_SINGLE ∧
      r.comp = ADS1115_CQUE_NONE ∧
      ∀ i : Fin 4, i ≠ table_idx (uint8_t_cast (luaL_checkinteger args_setup 1)) →
        (ads1115_lua_setup world_fresh args_setup).2.ads_ctrl_table i
          = world_fresh.ads_ctrl_table i :=
  ⟨rfl, C4_setup_defaults world_fresh args_setup rfl⟩
/-! ## Theorems on setting -/

theorem uint16_t_cast_lt (n : Int) : uint16_t_cast n < 65536 := by
  unfold uint16_t_cast; omega

theorem setting_finish_fst (w : World) (addr : Nat) (r : ads_ctrl_struct_t)
    (os channel gain mode samples comparator_mode comp : Nat) :
    (setting_finish w addr r os channel gain mode samples comparator_mode comp).1
      = Except.ok [] := rfl

/-- A failing `ads1115_lua_setting` leaves the bus log as it was. -/
theorem setting_failed_log (w : World) (L : List LuaValue)
    (hfail : (ads1115_lua_setting w L).1 ≠ Except.ok []) :
    (ads1115_lua_setting w L).2.i2c_log = w.i2c_log := by
  unfold ads1115_lua_setting at hfail ⊢
  simp only [] at hfail ⊢
  repeat' split
  all_goals first
    | rfl
    | (exfalso; apply hfail; simp_all [setting_finish_fst])

theorem gain_check_iff (g : Nat) :
    (g == ADS1115_PGA_6_144V || g == ADS1115_PGA_4_096V || g == ADS1115_PGA_2_048V
      || g == ADS1115_PGA_1_024V || g == ADS1115_PGA_0_512V || g == ADS1115_PGA_0_256V) = true
      ↔ g ∈ gain_settings := by
  simp [gain_settings, or_assoc]

theorem mode_check_iff (m : Nat) :
    (m == ADS1115_MODE_SINGLE || m == ADS1115_MODE_CONTIN) = true
      ↔ (m = ADS1115_MODE_SINGLE ∨ m = ADS1115_MODE_CONTIN) := by
  simp

theorem comp_check_iff (q : Nat) :
    (q == ADS1115_CQUE_1CONV || q == ADS1115_CQUE_2CONV || q == ADS1115_CQUE_4CONV) = true
      ↔ (q = ADS1115_CQUE_1CONV ∨ q = ADS1115_CQUE_2CONV ∨ q = ADS1115_CQUE_4CONV) := by
  simp [or_assoc]

theorem eq_true_of_not_not {b : Bool} (h : ¬ (!b) = true) : b = true := by
  cases b <;> simp_all

theorem channel_check_mem (c : Nat) (h : c < 65536) (h0 : IS_CHANNEL_VALID c = true) :
    c ∈ mux_selectors := by
  have h0 : c &&& 0x8FFF = 0 := by simpa [IS_CHANNEL_VALID] using h0
  have e1 : c = c &&& (2^16 - 1) := by
    rw [Nat.and_pow_two_sub_one_eq_mod]; exact (Nat.mod_eq_of_lt h).symm
  have e2 : (2^16 - 1 : Nat) = 0x8FFF ||| (2^12 ||| (2^13 ||| 2^14)) := by decide
  rw [e2, Nat.and_or_distrib_left, h0, Nat.zero_or, Nat.and_or_distrib_left,
    Nat.and_or_distrib_left, Nat.and_two_pow, Nat.and_two_pow, Nat.and_two_pow] at e1
  rw [e1]
  cases c.testBit 12 <;> cases c.testBit 13 <;> cases c.testBit 14 <;> decide

theorem channel_check_iff (c : Nat) (h : c < 65536) :
    IS_CHANNEL_VALID c = true ↔ c ∈ mux_selectors := by
  constructor
  · exact channel_check_mem c h
  · intro hc
    simp only [mux_selectors, List.mem_cons, List.mem_singleton, List.not_mem_nil, or_false] at hc
    rcases hc with h | h | h | h | h | h | h | h <;> subst h <;> decide

/-- What a successful `ads1115_lua_setting` has checked and done: `r` is the record
before the call, `r'` the record after it, `cm` the comparator mode that went into the
config word. -/
theorem setting_ok_inv (w : World) (L : List LuaValue)
    (hok : (ads1115_lua_setting w L).1 = Except.ok []) :
    ∃ (r r' : ads_ctrl_struct_t) (cm : Nat),
      w.ads_ctrl_table (table_idx (uint8_t_cast (luaL_checkinteger L 1))) = some r ∧
      (ads1115_lua_setting w L).2.ads_ctrl_table =
        Function.update w.ads_ctrl_table (table_idx (uint8_t_cast (luaL_checkinteger L 1)))
          (some r') ∧
      IS_I2C_ADDR_VALID (uint8_t_cast (luaL_checkinteger L 1)) = true ∧
      uint16_t_cast (luaL_checkinteger L 2) ∈ gain_settings ∧
      setting_samples r.chip_id (uint16_t_cast (luaL_checkinteger L 3)) = some r'.samples ∧
      IS_CHANNEL_VALID (uint16_t_cast (luaL_checkinteger L 4)) = true ∧
      (uint16_t_cast (luaL_checkinteger L 5) = ADS1115_MODE_SINGLE ∨
        uint16_t_cast (luaL_checkinteger L 5) = ADS1115_MODE_CONTIN) ∧
      r'.addr = r.addr ∧ r'.chip_id = r.chip_id ∧
      r'.timer_ref = r.timer_ref ∧ r'.timer = r.timer ∧
      r'.gain = uint16_t_cast (luaL_checkinteger L 2) ∧
      r'.samples_value = uint16_t_cast (luaL_checkinteger L 3) ∧
      r'.mode = uint16_t_cast (luaL_checkinteger L 5) ∧
      r'.config =
        ((if uint16_t_cast (luaL_checkinteger L 5) = ADS1115_MODE_SINGLE
            then ADS1115_OS_SINGLE else ADS1115_OS_NON)
          ||| uint16_t_cast (luaL_checkinteger L 4) ||| uint16_t_cast (luaL_checkinteger L 2)
          ||| uint16_t_cast (luaL_checkinteger L 5) ||| r'.samples ||| cm
          ||| ADS1115_CPOL_ACTVLOW ||| ADS1115_CLAT_NONLAT ||| r'.comp) % 65536 ∧
      ((lua_isnumber L 6 = false ∧ r'.comp = ADS1115_CQUE_NONE ∧ cm = ADS1115_CMODE_TRAD ∧
          r'.threshold_low = r.threshold_low ∧ r'.threshold_hi = r.threshold_hi ∧
          (ads1115_lua_setting w L).2.i2c_log = w.i2c_log ++
            write_reg_calls (uint8_t_cast (luaL_checkinteger L 1)) ADS1115_POINTER_CONFIG
              r'.config) ∨
       (lua_isnumber L 6 = true ∧ r'.comp = uint16_t_cast (luaL_checkinteger L 6) ∧
          (r'.comp = ADS1115_CQUE_1CONV ∨ r'.comp = ADS1115_CQUE_2CONV ∨
            r'.comp = ADS1115_CQUE_4CONV) ∧
          setting_thresholds L (uint16_t_cast (luaL_checkinteger L 2))
              (uint16_t_cast (luaL_checkinteger L 4))
            = Except.ok (r'.threshold_low, r'.threshold_hi, cm) ∧
          (ads1115_lua_setting w L).2.i2c_log = w.i2c_log ++
            (write_reg_calls (uint8_t_cast (luaL_checkinteger L 1)) ADS1115_POINTER_THRESH_LOW
                r'.threshold_low ++
             (write_reg_calls (uint8_t_cast (luaL_checkinteger L 1)) ADS1115_POINTER_THRESH_HI
                r'.threshold_hi ++
              write_reg_calls (uint8_t_cast (luaL_checkinteger L 1)) ADS1115_POINTER_CONFIG
                r'.config)))) := by
  by_cases h1 : (!lua_isnumber L 1 || !lua_isnumber L 2 || !lua_isnumber L 3
      || !lua_isnumber L 4 || !lua_isnumber L 5) = true
  · simp [ads1115_lua_setting, h1] at hok
  by_cases h2 : (!IS_I2C_ADDR_VALID (uint8_t_cast (luaL_checkinteger L 1))) = true
  · simp [ads1115_lua_setting, h1, h2] at hok
  cases hrec : w.ads_ctrl_table (table_idx (uint8_t_cast (luaL_checkinteger L 1))) with
  | none => simp [ads1115_lua_setting, h1, h2, hrec] at hok
  | some r =>
  by_cases h3 : (!(uint16_t_cast (luaL_checkinteger L 2) == ADS1115_PGA_6_144V
      || uint16_t_cast (luaL_checkinteger L 2) == ADS1115_PGA_4_096V
      || uint16_t_cast (luaL_checkinteger L 2) == ADS1115_PGA_2_048V
      || uint16_t_cast (luaL_checkinteger L 2) == ADS1115_PGA_1_024V
      || uint16_t_cast (luaL_checkinteger L 2) == ADS1115_PGA_0_512V
      || uint16_t_cast (luaL_checkinteger L 2) == ADS1115_PGA_0_256V)) = true
  · simp [ads1115_lua_setting, h1, h2, hrec, h3] at hok
  cases hsam : setting_samples r.chip_id (uint16_t_cast (luaL_checkinteger L 3)) with
  | none => simp [ads1115_lua_setting, h1, h2, hrec, h3, hsam] at hok
  | some bits =>
  by_cases h4 : (!IS_CHANNEL_VALID (uint16_t_cast (luaL_checkinteger L 4))) = true
  · simp [ads1115_lua_setting, h1, h2, hrec, h3, hsam, h4] at hok
  by_cases h5 : (!(uint16_t_cast (luaL_checkinteger L 5) == ADS1115_MODE_SINGLE
      || uint16_t_cast (luaL_checkinteger L 5) == ADS1115_MODE_CONTIN)) = true
  · simp [ads1115_lua_setting, h1, h2, hrec, h3, hsam, h4, h5] at hok
  have hg : uint16_t_cast (luaL_checkinteger L 2) ∈ gain_settings := by
    exact (gain_check_iff _).mp (eq_true_of_not_not h3)
  have hv : IS_I2C_ADDR_VALID (uint8_t_cast (luaL_checkinteger L 1)) = true := by
    simpa using h2
  have hc : IS_CHANNEL_VALID (uint16_t_cast (luaL_checkinteger L 4)) = true := by
    simpa using h4
  have hm : uint16_t_cast (luaL_checkinteger L 5) = ADS1115_MODE_SINGLE ∨
      uint16_t_cast (luaL_checkinteger L 5) = ADS1115_MODE_CONTIN :=
    (mode_check_iff _).mp (eq_true_of_not_not h5)
  by_cases h6 : lua_isnumber L 6 = true
  · by_cases h7 : (!(uint16_t_cast (luaL_checkinteger L 6) == ADS1115_CQUE_1CONV
        || uint16_t_cast (luaL_checkinteger L 6) == ADS1115_CQUE_2CONV
        || uint16_t_cast (luaL_checkinteger L 6) == ADS1115_CQUE_4CONV)) = true
    · simp [ads1115_lua_setting, h1, h2, hrec, h3, hsam, h4, h5, h6, h7] at hok
    have hq : uint16_t_cast (luaL_checkinteger L 6) = ADS1115_CQUE_1CONV ∨
        uint16_t_cast (luaL_checkinteger L 6) = ADS1115_CQUE_2CONV ∨
        uint16_t_cast (luaL_checkinteger L 6) = ADS1115_CQUE_4CONV :=
      (comp_check_iff _).mp (eq_true_of_not_not h7)
    cases hthr : setting_thresholds L (uint16_t_cast (luaL_checkinteger L 2))
        (uint16_t_cast (luaL_checkinteger L 4)) with
    | error msg => simp [ads1115_lua_setting, h1, h2, hrec, h3, hsam, h4, h5, h6, h7, hthr] at hok
    | ok t =>
      obtain ⟨lo, hi, cm⟩ := t
      unfold ads1115_lua_setting
      simp only [h1, h2, hrec, h3, hsam, h4, h5, h6, h7, hthr, if_false, if_true,
        Bool.false_eq_true]
      refine ⟨r, ({ r with
          gain := uint16_t_cast (luaL_checkinteger L 2), samples := bits,
          samples_value := uint16_t_cast (luaL_checkinteger L 3),
          mode := uint16_t_cast (luaL_checkinteger L 5),
          threshold_low := lo, threshold_hi := hi,
          comp := uint16_t_cast (luaL_checkinteger L 6),
          config := ((if uint16_t_cast (luaL_checkinteger L 5) = ADS1115_MODE_SINGLE
            then ADS1115_OS_SINGLE else ADS1115_OS_NON)
          ||| uint16_t_cast (luaL_checkinteger L 4) ||| uint16_t_cast (luaL_checkinteger L 2)
          ||| uint16_t_cast (luaL_checkinteger L 5) ||| bits ||| cm
          ||| ADS1115_CPOL_ACTVLOW ||| ADS1115_CLAT_NONLAT
          ||| uint16_t_cast (luaL_checkinteger L 6)) % 65536 } : ads_ctrl_struct_t), cm,
        ?_, ?_, hv, hg, ?_, hc, hm, rfl, rfl, rfl, rfl, rfl, rfl, rfl, rfl,
        Or.inr ⟨?_, rfl, hq, ?_, ?_⟩⟩
      all_goals first
        | rfl
        | trivial
        | simp [setting_finish, write_reg, World.bus, World.store]
  · have h6' : lua_isnumber L 6 = false := by simpa using h6
    unfold ads1115_lua_setting
    simp only [h1, h2, hrec, h3, hsam, h4, h5, h6, if_false, if_true, Bool.false_eq_true]
    refine ⟨r, ({ r with
        gain := uint16_t_cast (luaL_checkinteger L 2), samples := bits,
        samples_value := uint16_t_cast (luaL_checkinteger L 3),
        mode := uint16_t_cast (luaL_checkinteger L 5),
        comp := ADS1115_CQUE_NONE,
        config := ((if uint16_t_cast (luaL_checkinteger L 5) = ADS1115_MODE_SINGLE
          then ADS1115_OS_SINGLE else ADS1115_OS_NON)
        ||| uint16_t_cast (luaL_checkinteger L 4) ||| uint16_t_cast (luaL_checkinteger L 2)
        ||| uint16_t_cast (luaL_checkinteger L 5) ||| bits ||| ADS1115_CMODE_TRAD
        ||| ADS1115_CPOL_ACTVLOW ||| ADS1115_CLAT_NONLAT
        ||| ADS1115_CQUE_NONE) % 65536 } : ads_ctrl_struct_t), ADS1115_CMODE_TRAD,
      ?_, ?_, hv, hg, ?_, hc, hm, rfl, rfl, rfl, rfl, rfl, rfl, rfl, rfl,
      Or.inl ⟨?_, rfl, rfl, rfl, rfl, ?_⟩⟩
    all_goals first
      | rfl
      | trivial
      | simp [setting_finish, write_reg, World.bus, World.store]

/-- The result of `ads1115_lua_setting` on an initialised device, its five mandatory
arguments being numbers: the checks in the order the function makes them. -/
theorem setting_result (w : World) (L : List LuaValue) (r : ads_ctrl_struct_t)
    (h1 : lua_isnumber L 1 = true) (h2 : lua_isnumber L 2 = true)
    (h3 : lua_isnumber L 3 = true) (h4 : lua_isnumber L 4 = true)
    (h5 : lua_isnumber L 5 = true)
    (hv : IS_I2C_ADDR_VALID (uint8_t_cast (luaL_checkinteger L 1)) = true)
    (hrec : w.ads_ctrl_table (table_idx (uint8_t_cast (luaL_checkinteger L 1))) = some r) :
    (ads1115_lua_setting w L).1 =
      if uint16_t_cast (luaL_checkinteger L 2) ∉ gain_settings then
        Except.error "Invalid argument: gain"
      else if setting_samples r.chip_id (uint16_t_cast (luaL_checkinteger L 3)) = none then
        Except.error "Invalid argument: samples"
      else if IS_CHANNEL_VALID (uint16_t_cast (luaL_checkinteger L 4)) = false then
        Except.error "Invalid argument: channel"
      else if ¬ (uint16_t_cast (luaL_checkinteger L 5) = ADS1115_MODE_SINGLE ∨
          uint16_t_cast (luaL_checkinteger L 5) = ADS1115_MODE_CONTIN) then
        Except.error "Invalid argument: mode"
      else if lua_isnumber L 6 = false then
        Except.ok []
      else if ¬ (uint16_t_cast (luaL_checkinteger L 6) = ADS1115_CQUE_1CONV ∨
          uint16_t_cast (luaL_checkinteger L 6) = ADS1115_CQUE_2CONV ∨
          uint16_t_cast (luaL_checkinteger L 6) = ADS1115_CQUE_4CONV) then
        Except.error "Invalid argument: conversion ready/comparator mode"
      else
        match setting_thresholds L (uint16_t_cast (luaL_checkinteger L 2))
            (uint16_t_cast (luaL_checkinteger L 4)) with
        | Except.error msg => Except.error msg
        | Except.ok _ => Except.ok [] := by
  have hv' : (!IS_I2C_ADDR_VALID (uint8_t_cast (luaL_checkinteger L 1))) = false := by
    rw [hv]; rfl
  unfold ads1115_lua_setting
  simp only [h1, h2, h3, h4, h5, hv', hrec, Bool.not_true, Bool.or_self, Bool.false_eq_true,
    if_false]
  by_cases c1 : (uint16_t_cast (luaL_checkinteger L 2) == ADS1115_PGA_6_144V
      || uint16_t_cast (luaL_checkinteger L 2) == ADS1115_PGA_4_096V
      || uint16_t_cast (luaL_checkinteger L 2) == ADS1115_PGA_2_048V
      || uint16_t_cast (luaL_checkinteger L 2) == ADS1115_PGA_1_024V
      || uint16_t_cast (luaL_checkinteger L 2) == ADS1115_PGA_0_512V
      || uint16_t_cast (luaL_checkinteger L 2) == ADS1115_PGA_0_256V) = true
  swap
  · have hg : uint16_t_cast (luaL_checkinteger L 2) ∉ gain_settings :=
      fun h => c1 ((gain_check_iff _).mpr h)
    have c1' := Bool.eq_false_iff.mpr c1
    rw [if_pos hg]
    simp [c1']
  have hg : uint16_t_cast (luaL_checkinteger L 2) ∈ gain_settings := (gain_check_iff _).mp c1
  rw [if_neg (not_not.mpr hg)]
  simp only [c1, Bool.not_true, Bool.false_eq_true, if_false]
  cases hsam : setting_samples r.chip_id (uint16_t_cast (luaL_checkinteger L 3)) with
  | none => simp
  | some bits =>
  simp only [reduceCtorEq, if_false]
  cases c3 : IS_CHANNEL_VALID (uint16_t_cast (luaL_checkinteger L 4)) with
  | false => simp
  | true =>
  simp only [Bool.not_true, Bool.false_eq_true, if_false]
  by_cases c4 : (uint16_t_cast (luaL_checkinteger L 5) == ADS1115_MODE_SINGLE
      || uint16_t_cast (luaL_checkinteger L 5) == ADS1115_MODE_CONTIN) = true
  swap
  · have hm := fun h => c4 ((mode_check_iff _).mpr h)
    have c4' := Bool.eq_false_iff.mpr c4
    rw [if_pos hm]
    simp [c4']
  have hm := (mode_check_iff _).mp c4
  rw [if_neg (not_not.mpr hm)]
  simp only [c4, Bool.not_true, Bool.false_eq_true, if_false]
  cases c5 : lua_isnumber L 6 with
  | false => simp [setting_finish_fst]
  | true =>
  simp only [Bool.false_eq_true, if_false, if_true]
  by_cases c6 : (uint16_t_cast (luaL_checkinteger L 6) == ADS1115_CQUE_1CONV
      || uint16_t_cast (luaL_checkinteger L 6) == ADS1115_CQUE_2CONV
      || uint16_t_cast (luaL_checkinteger L 6) == ADS1115_CQUE_4CONV) = true
  swap
  · have hq := fun h => c6 ((comp_check_iff _).mpr h)
    have c6' := Bool.eq_false_iff.mpr c6
    rw [if_pos hq]
    simp [c6']
  have hq := (comp_check_iff _).mp c6
  rw [if_neg (not_not.mpr hq)]
  simp only [c6, Bool.not_true, Bool.false_eq_true, if_false]
  cases hthr : setting_thresholds L (uint16_t_cast (luaL_checkinteger L 2))
      (uint16_t_cast (luaL_checkinteger L 4)) with
  | error msg => rfl
  | ok t => rfl

theorem lookup_cons_ne (a k b : Nat) (es : List (Nat × Nat)) (h : ¬ a = k) :
    List.lookup a ((k, b) :: es) = List.lookup a es := by
  have : (a == k) = false := by simpa using h
  simp [List.lookup, this]

theorem setting_samples_eq_lookup (chip_id samples_value : Nat) :
    setting_samples chip_id samples_value = List.lookup samples_value (rate_table chip_id) := by
  unfold setting_samples rate_table rate_table_16bit rate_table_12bit
  split <;> split_ifs <;>
    first
    | (subst_vars; rfl)
    | (repeat rw [lookup_cons_ne _ _ _ _ (by assumption)]
       rfl)

theorem setting_samples_ne_none_iff (chip_id samples_value : Nat) :
    setting_samples chip_id samples_value ≠ none ↔
      samples_value ∈ (rate_table chip_id).map Prod.fst := by
  unfold setting_samples rate_table rate_table_16bit rate_table_12bit
  split <;> split_ifs <;> simp_all

theorem setting_samples_bits (chip_id samples_value bits : Nat)
    (h : setting_samples chip_id samples_value = some bits) :
    bits ∈ [0x00, 0x20, 0x40, 0x60, 0x80, 0xA0, 0xC0, 0xE0] := by
  unfold setting_samples at h
  split at h <;> split_ifs at h <;> simp_all

/-- The comparator mode that `setting_thresholds` hands on is the ninth argument when the
arguments 7, 8 and 9 are numbers, and `ADS1115_CMODE_TRAD` otherwise; it is one of the two
comparator modes. -/
theorem setting_thresholds_cmode (L : List LuaValue) (gain channel lo hi cm : Nat)
    (h : setting_thresholds L gain channel = Except.ok (lo, hi, cm)) :
    cm = (if (lua_isnumber L 7 && lua_isnumber L 8 && lua_isnumber L 9) = true
            then uint16_t_cast (luaL_checkinteger L 9) else ADS1115_CMODE_TRAD) ∧
    (cm = ADS1115_CMODE_TRAD ∨ cm = ADS1115_CMODE_WINDOW) := by
  unfold setting_thresholds at h
  split at h
  · rename_i h78
    simp only [] at h
    split at h
    · exact absurd h (by simp)
    · split at h
      · exact absurd h (by simp)
      · split at h
        · exact absurd h (by simp)
        · split at h
          · rename_i h9
            split at h
            · exact absurd h (by simp)
            · rename_i hcm
              simp only [Except.ok.injEq, Prod.mk.injEq] at h
              obtain ⟨-, -, rfl⟩ := h
              refine ⟨by simp [h78, h9], ?_⟩
              by_contra hcon
              exact hcm ⟨fun e => hcon (Or.inr e), fun e => hcon (Or.inl e)⟩
          · rename_i h9
            simp only [Except.ok.injEq, Prod.mk.injEq] at h
            obtain ⟨-, -, rfl⟩ := h
            exact ⟨by simp [h78, h9], Or.inl rfl⟩
  · rename_i h78
    simp only [Except.ok.injEq, Prod.mk.injEq] at h
    obtain ⟨-, -, rfl⟩ := h
    refine ⟨?_, Or.inl rfl⟩
    have : (lua_isnumber L 7 && lua_isnumber L 8) = false := by simpa using h78
    simp [this]

theorem setting_thresholds_low_gt_hi (L : List LuaValue) (gain channel : Nat)
    (h7 : lua_isnumber L 7 = true) (h8 : lua_isnumber L 8 = true)
    (hgt : int16_t_cast (uint16_t_cast (luaL_checkinteger L 7))
        > int16_t_cast (uint16_t_cast (luaL_checkinteger L 8))) :
    setting_thresholds L gain channel
      = Except.error "Invalid argument: threshold_low > threshold_hi" := by
  unfold setting_thresholds
  simp [h7, h8, hgt]

set_option maxRecDepth 100000 in
theorem config_fields :
    ∀ m ∈ [ADS1115_MODE_SINGLE, ADS1115_MODE_CONTIN], ∀ ch ∈ mux_selectors,
    ∀ g ∈ gain_settings,
    ∀ bits ∈ [0x00, 0x20, 0x40, 0x60, 0x80, 0xA0, 0xC0, 0xE0],
    ∀ cm ∈ [ADS1115_CMODE_TRAD, ADS1115_CMODE_WINDOW],
    ∀ q ∈ [ADS1115_CQUE_1CONV, ADS1115_CQUE_2CONV, ADS1115_CQUE_4CONV, ADS1115_CQUE_NONE],
      (((if m = ADS1115_MODE_SINGLE then ADS1115_OS_SINGLE else ADS1115_OS_NON)
          ||| ch ||| g ||| m ||| bits ||| cm ||| ADS1115_CPOL_ACTVLOW ||| ADS1115_CLAT_NONLAT
          ||| q) % 65536
        = ((if m = ADS1115_MODE_SINGLE then ADS1115_OS_SINGLE else ADS1115_OS_NON)
          ||| ch ||| g ||| m ||| bits ||| cm ||| ADS1115_CPOL_ACTVLOW ||| ADS1115_CLAT_NONLAT
          ||| q)) ∧
      ((((if m = ADS1115_MODE_SINGLE then ADS1115_OS_SINGLE else ADS1115_OS_NON)
          ||| ch ||| g ||| m ||| bits ||| cm ||| ADS1115_CPOL_ACTVLOW ||| ADS1115_CLAT_NONLAT
          ||| q) &&& ADS1115_OS_MASK = ADS1115_OS_SINGLE) ↔ m = ADS1115_MODE_SINGLE) ∧
      (((if m = ADS1115_MODE_SINGLE then ADS1115_OS_SINGLE else ADS1115_OS_NON)
          ||| ch ||| g ||| m ||| bits ||| cm ||| ADS1115_CPOL_ACTVLOW ||| ADS1115_CLAT_NONLAT
          ||| q) &&& ADS1115_MUX_MASK = ch) ∧
      (((if m = ADS1115_MODE_SINGLE then ADS1115_OS_SINGLE else ADS1115_OS_NON)
          ||| ch ||| g ||| m ||| bits ||| cm ||| ADS1115_CPOL_ACTVLOW ||| ADS1115_CLAT_NONLAT
          ||| q) &&& ADS1115_PGA_MASK = g) ∧
      (((if m = ADS1115_MODE_SINGLE then ADS1115_OS_SINGLE else ADS1115_OS_NON)
          ||| ch ||| g ||| m ||| bits ||| cm ||| ADS1115_CPOL_ACTVLOW ||| ADS1115_CLAT_NONLAT
          ||| q) &&& ADS1115_MODE_MASK = m) ∧
      (((if m = ADS1115_MODE_SINGLE then ADS1115_OS_SINGLE else ADS1115_OS_NON)
          ||| ch ||| g ||| m ||| bits ||| cm ||| ADS1115_CPOL_ACTVLOW ||| ADS1115_CLAT_NONLAT
          ||| q) &&& ADS1115_DR_MASK = bits) ∧
      (((if m = ADS1115_MODE_SINGLE then ADS1115_OS_SINGLE else ADS1115_OS_NON)
          ||| ch ||| g ||| m ||| bits ||| cm ||| ADS1115_CPOL_ACTVLOW ||| ADS1115_CLAT_NONLAT
          ||| q) &&& ADS1115_CMODE_MASK = cm) ∧
      (((if m = ADS1115_MODE_SINGLE then ADS1115_OS_SINGLE else ADS1115_OS_NON)
          ||| ch ||| g ||| m ||| bits ||| cm ||| ADS1115_CPOL_ACTVLOW ||| ADS1115_CLAT_NONLAT
          ||| q) &&& (ADS1115_CPOL_MASK ||| ADS1115_CLAT_MASK) = 0) ∧
      (((if m = ADS1115_MODE_SINGLE then ADS1115_OS_SINGLE else ADS1115_OS_NON)
          ||| ch ||| g ||| m ||| bits ||| cm ||| ADS1115_CPOL_ACTVLOW ||| ADS1115_CLAT_NONLAT
          ||| q) &&& ADS1115_CQUE_MASK = q) := by
  decide

/-! ### The claims on setting -/

/-- C2: the sample-rate `switch` of `setting` is the table lookup of the chip variant
(16-bit: 8, 16, 32, 64, 128, 250, 475, 860 giving 0x00 .. 0xE0; 12-bit: 128, 250, 490, 920,
1600, 2400, 3300 giving 0x00 .. 0xC0); on an initialised device with a valid gain,
`setting` fails with "Invalid argument: samples" exactly for the rates outside the table,
and a successful `setting` leaves the bits of the table in the record. -/
theorem C2_sample_rate_bits (w : World) (L : List LuaValue) (r : ads_ctrl_struct_t)
    (h1 : lua_isnumber L 1 = true) (h2 : lua_isnumber L 2 = true)
    (h3 : lua_isnumber L 3 = true) (h4 : lua_isnumber L 4 = true)
    (h5 : lua_isnumber L 5 = true)
    (hv : IS_I2C_ADDR_VALID (uint8_t_cast (luaL_checkinteger L 1)) = true)
    (hrec : w.ads_ctrl_table (table_idx (uint8_t_cast (luaL_checkinteger L 1))) = some r)
    (hg : uint16_t_cast (luaL_checkinteger L 2) ∈ gain_settings) :
    (∀ sv : Nat, setting_samples ADS1115_ADS1115 sv = List.lookup sv rate_table_16bit) ∧
    (∀ sv : Nat, setting_samples ADS1115_ADS1015 sv = List.lookup sv rate_table_12bit) ∧
    setting_samples r.chip_id (uint16_t_cast (luaL_checkinteger L 3))
      = List.lookup (uint16_t_cast (luaL_checkinteger L 3)) (rate_table r.chip_id) ∧
    ((ads1115_lua_setting w L).1 = Except.error "Invalid argument: samples" ↔
      List.lookup (uint16_t_cast (luaL_checkinteger L 3)) (rate_table r.chip_id) = none) ∧
    (List.lookup (uint16_t_cast (luaL_checkinteger L 3)) (rate_table r.chip_id) = none →
      InvalidArgument (ads1115_lua_setting w L).1) ∧
    ((ads1115_lua_setting w L).1 = Except.ok [] →
      ∃ r', (ads1115_lua_setting w L).2.ads_ctrl_table
          (table_idx (uint8_t_cast (luaL_checkinteger L 1))) = some r' ∧
        r'.samples_value = uint16_t_cast (luaL_checkinteger L 3) ∧
        List.lookup (uint16_t_cast (luaL_checkinteger L 3)) (rate_table r.chip_id)
          = some r'.samples) := by
  have hres := setting_result w L r h1 h2 h3 h4 h5 hv hrec
  rw [if_neg (not_not.mpr hg)] at hres
  have hiff : (ads1115_lua_setting w L).1 = Except.error "Invalid argument: samples" ↔
      List.lookup (uint16_t_cast (luaL_checkinteger L 3)) (rate_table r.chip_id) = none := by
    rw [← setting_samples_eq_lookup]
    constructor
    · intro he
      by_contra hn
      rw [if_neg hn, he] at hres
      split_ifs at hres <;> try simp at hres
      split at hres <;> try simp at hres
      rename_i msg hthr
      subst hres
      unfold setting_thresholds at hthr
      split at hthr
      · simp only [] at hthr
        repeat' split at hthr
        all_goals simp at hthr
      · simp at hthr
    · intro hn
      rw [if_pos hn] at hres
      exact hres
  refine ⟨fun sv => setting_samples_eq_lookup _ sv, fun sv => setting_samples_eq_lookup _ sv,
    setting_samples_eq_lookup _ _, hiff, ?_, ?_⟩
  · intro hn
    rw [hiff.mpr hn]
    simp [InvalidArgument, invalid_argument_messages]
  · intro hok
    obtain ⟨r0, r', cm, hr0, htab, -, -, hs, -, -, -, -, -, -, -, hsv, -⟩ :=
      setting_ok_inv w L hok
    rw [hrec] at hr0
    cases hr0
    refine ⟨r', by rw [htab]; simp, hsv, ?_⟩
    rw [← setting_samples_eq_lookup]
    exact hs

/-- C2 (instance): `setting(0x48, GAIN_6_144V, 128, SINGLE_0, SINGLE_SHOT)` after setup of
the 16-bit variant. -/
theorem C2_sample_rate_bits_witness :
    (lua_isnumber args_setting 1 = true ∧ lua_isnumber args_setting 2 = true ∧
     lua_isnumber args_setting 3 = true ∧ lua_isnumber args_setting 4 = true ∧
     lua_isnumber args_setting 5 = true ∧
     IS_I2C_ADDR_VALID (uint8_t_cast (luaL_checkinteger args_setting 1)) = true ∧
     world_ready.ads_ctrl_table (table_idx (uint8_t_cast (luaL_checkinteger args_setting 1)))
       = some (setup_defaults 0x48 115) ∧
     uint16_t_cast (luaL_checkinteger args_setting 2) ∈ gain_settings) ∧
    ((∀ sv : Nat, setting_samples ADS1115_ADS1115 sv = List.lookup sv rate_table_16bit) ∧
    (∀ sv : Nat, setting_samples ADS1115_ADS1015 sv = List.lookup sv rate_table_12bit) ∧
    setting_samples (setup_defaults 0x48 115).chip_id
        (uint16_t_cast (luaL_checkinteger args_setting 3))
      = List.lookup (uint16_t_cast (luaL_checkinteger args_setting 3))
          (rate_table (setup_defaults 0x48 115).chip_id) ∧
    ((ads1115_lua_setting world_ready args_setting).1
        = Except.error "Invalid argument: samples" ↔
      List.lookup (uint16_t_cast (luaL_checkinteger args_setting 3))
        (rate_table (setup_defaults 0x48 115).chip_id) = none) ∧
    (List.lookup (uint16_t_cast (luaL_checkinteger args_setting 3))
        (rate_table (setup_defaults 0x48 115).chip_id) = none →
      InvalidArgument (ads1115_lua_setting world_ready args_setting).1) ∧
    ((ads1115_lua_setting world_ready args_setting).1 = Except.ok [] →
      ∃ r', (ads1115_lua_setting world_ready args_setting).2.ads_ctrl_table
          (table_idx (uint8_t_cast (luaL_checkinteger args_setting 1))) = some r' ∧
        r'.samples_value = uint16_t_cast (luaL_checkinteger args_setting 3) ∧
        List.lookup (uint16_t_cast (luaL_checkinteger args_setting 3))
          (rate_table (setup_defaults 0x48 115).chip_id) = some r'.samples)) :=
  ⟨⟨rfl, rfl, rfl, rfl, rfl, by decide, rfl, by decide⟩,
   C2_sample_rate_bits world_ready args_setting (setup_defaults 0x48 115)
     rfl rfl rfl rfl rfl (by decide) rfl (by decide)⟩

/-- C5: on an initialised device and without optional arguments, `setting` succeeds if
and only if the gain is one of the six gain codes, the sample rate is in the table of the
chip variant, the channel is one of the eight multiplexer codes and the mode is
single-shot or continuous; the mask test `IS_CHANNEL_VALID` accepts exactly the eight
multiplexer codes; when `setting` does not succeed it fails with an invalid-argument
error. -/
theorem C5_setting_succeeds_iff_valid (w : World) (L : List LuaValue) (r : ads_ctrl_struct_t)
    (h1 : lua_isnumber L 1 = true) (h2 : lua_isnumber L 2 = true)
    (h3 : lua_isnumber L 3 = true) (h4 : lua_isnumber L 4 = true)
    (h5 : lua_isnumber L 5 = true)
    (hv : IS_I2C_ADDR_VALID (uint8_t_cast (luaL_checkinteger L 1)) = true)
    (hrec : w.ads_ctrl_table (table_idx (uint8_t_cast (luaL_checkinteger L 1))) = some r)
    (hopt : lua_isnumber L 6 = false) :
    ((ads1115_lua_setting w L).1 = Except.ok [] ↔
      (uint16_t_cast (luaL_checkinteger L 2) ∈ gain_settings ∧
       uint16_t_cast (luaL_checkinteger L 3) ∈ (rate_table r.chip_id).map Prod.fst ∧
       uint16_t_cast (luaL_checkinteger L 4) ∈ mux_selectors ∧
       (uint16_t_cast (luaL_checkinteger L 5) = ADS1115_MODE_SINGLE ∨
         uint16_t_cast (luaL_checkinteger L 5) = ADS1115_MODE_CONTIN))) ∧
    (IS_CHANNEL_VALID (uint16_t_cast (luaL_checkinteger L 4)) = true ↔
      uint16_t_cast (luaL_checkinteger L 4) ∈ mux_selectors) ∧
    ((ads1115_lua_setting w L).1 = Except.ok [] ∨
      InvalidArgument (ads1115_lua_setting w L).1) := by
  have hres := setting_result w L r h1 h2 h3 h4 h5 hv hrec
  have hch := channel_check_iff (uint16_t_cast (luaL_checkinteger L 4)) (uint16_t_cast_lt _)
  have hsam := setting_samples_ne_none_iff r.chip_id (uint16_t_cast (luaL_checkinteger L 3))
  refine ⟨?_, hch, ?_⟩
  · rw [hres, ← hch, ← hsam]
    split_ifs <;> simp_all
  · rw [hres]
    split_ifs <;> simp_all [InvalidArgument, invalid_argument_messages]

/-- C5 (instance): `setting(0x48, GAIN_6_144V, 128, SINGLE_0, SINGLE_SHOT)` after setup. -/
theorem C5_setting_succeeds_iff_valid_witness :
    (lua_isnumber args_setting 1 = true ∧ lua_isnumber args_setting 2 = true ∧
     lua_isnumber args_setting 3 = true ∧ lua_isnumber args_setting 4 = true ∧
     lua_isnumber args_setting 5 = true ∧
     IS_I2C_ADDR_VALID (uint8_t_cast (luaL_checkinteger args_setting 1)) = true ∧
     world_ready.ads_ctrl_table (table_idx (uint8_t_cast (luaL_checkinteger args_setting 1)))
       = some (setup_defaults 0x48 115) ∧
     lua_isnumber args_setting 6 = false) ∧
    (((ads1115_lua_setting world_ready args_setting).1 = Except.ok [] ↔
      (uint16_t_cast (luaL_checkinteger args_setting 2) ∈ gain_settings ∧
       uint16_t_cast (luaL_checkinteger args_setting 3)
         ∈ (rate_table (setup_defaults 0x48 115).chip_id).map Prod.fst ∧
       uint16_t_cast (luaL_checkinteger args_setting 4) ∈ mux_selectors ∧
       (uint16_t_cast (luaL_checkinteger args_setting 5) = ADS1115_MODE_SINGLE ∨
         uint16_t_cast (luaL_checkinteger args_setting 5) = ADS1115_MODE_CONTIN))) ∧
    (IS_CHANNEL_VALID (uint16_t_cast (luaL_checkinteger args_setting 4)) = true ↔
      uint16_t_cast (luaL_checkinteger args_setting 4) ∈ mux_selectors) ∧
    ((ads1115_lua_setting world_ready args_setting).1 = Except.ok [] ∨
      InvalidArgument (ads1115_lua_setting world_ready args_setting).1)) :=
  ⟨⟨rfl, rfl, rfl, rfl, rfl, by decide, rfl, rfl⟩,
   C5_setting_succeeds_iff_valid world_ready args_setting (setup_defaults 0x48 115)
     rfl rfl rfl rfl rfl (by decide) rfl rfl⟩

/-- C6: after a successful `setting`, the config word stored in the record is the last
word written to register 0x01 and is the bitwise OR of the fields (start bit, channel,
gain, mode, resolved sample-rate bits, comparator mode, active-low, non-latching,
comparator queue); each field is recovered from it by its mask.  The comparator mode is
the ninth argument when the arguments 6 to 9 are all supplied and traditional otherwise;
the comparator queue is the sixth argument when supplied and `ADS1115_CQUE_NONE`
otherwise. -/
theorem C6_config_word_fields (w : World) (L : List LuaValue)
    (hok : (ads1115_lua_setting w L).1 = Except.ok []) :
    ∃ r' : ads_ctrl_struct_t,
      (ads1115_lua_setting w L).2.ads_ctrl_table
        (table_idx (uint8_t_cast (luaL_checkinteger L 1))) = some r' ∧
      (∃ before, (ads1115_lua_setting w L).2.i2c_log = before ++
        write_reg_calls (uint8_t_cast (luaL_checkinteger L 1)) ADS1115_POINTER_CONFIG
          r'.config) ∧
      r'.config =
        ((if uint16_t_cast (luaL_checkinteger L 5) = ADS1115_MODE_SINGLE
            then ADS1115_OS_SINGLE else ADS1115_OS_NON)
          ||| uint16_t_cast (luaL_checkinteger L 4) ||| uint16_t_cast (luaL_checkinteger L 2)
          ||| uint16_t_cast (luaL_checkinteger L 5) ||| r'.samples
          ||| (if (lua_isnumber L 6 && lua_isnumber L 7 && lua_isnumber L 8
                    && lua_isnumber L 9) = true
                then uint16_t_cast (luaL_checkinteger L 9) else ADS1115_CMODE_TRAD)
          ||| ADS1115_CPOL_ACTVLOW ||| ADS1115_CLAT_NONLAT
          ||| (if lua_isnumber L 6 = true then uint16_t_cast (luaL_checkinteger L 6)
                else ADS1115_CQUE_NONE)) ∧
      (r'.config &&& ADS1115_OS_MASK = ADS1115_OS_SINGLE ↔
        uint16_t_cast (luaL_checkinteger L 5) = ADS1115_MODE_SINGLE) ∧
      r'.config &&& ADS1115_MUX_MASK = uint16_t_cast (luaL_checkinteger L 4) ∧
      r'.config &&& ADS1115_PGA_MASK = uint16_t_cast (luaL_checkinteger L 2) ∧
      r'.config &&& ADS1115_MODE_MASK = uint16_t_cast (luaL_checkinteger L 5) ∧
      r'.config &&& ADS1115_DR_MASK = r'.samples ∧
      setting_samples r'.chip_id (uint16_t_cast (luaL_checkinteger L 3)) = some r'.samples ∧
      r'.config &&& ADS1115_CMODE_MASK =
        (if (lua_isnumber L 6 && lua_isnumber L 7 && lua_isnumber L 8
              && lua_isnumber L 9) = true
          then uint16_t_cast (luaL_checkinteger L 9) else ADS1115_CMODE_TRAD) ∧
      r'.config &&& (ADS1115_CPOL_MASK ||| ADS1115_CLAT_MASK) = 0 ∧
      r'.config &&& ADS1115_CQUE_MASK =
        (if lua_isnumber L 6 = true then uint16_t_cast (luaL_checkinteger L 6)
          else ADS1115_CQUE_NONE) := by
  obtain ⟨r, r', cm, hr, htab, -, hg, hs, hc, hm, -, hchip, -, -, -, -, -, hcfg, hcase⟩ :=
    setting_ok_inv w L hok
  have hch := channel_check_mem _ (uint16_t_cast_lt _) hc
  have hbits := setting_samples_bits _ _ _ hs
  have hm' : uint16_t_cast (luaL_checkinteger L 5) ∈ [ADS1115_MODE_SINGLE, ADS1115_MODE_CONTIN] := by
    simpa using hm
  -- the comparator mode and queue that went into the word
  have hcq : (cm = (if (lua_isnumber L 6 && lua_isnumber L 7 && lua_isnumber L 8
                    && lua_isnumber L 9) = true
                then uint16_t_cast (luaL_checkinteger L 9) else ADS1115_CMODE_TRAD)) ∧
      cm ∈ [ADS1115_CMODE_TRAD, ADS1115_CMODE_WINDOW] ∧
      (r'.comp = (if lua_isnumber L 6 = true then uint16_t_cast (luaL_checkinteger L 6)
                else ADS1115_CQUE_NONE)) ∧
      r'.comp ∈ [ADS1115_CQUE_1CONV, ADS1115_CQUE_2CONV, ADS1115_CQUE_4CONV,
        ADS1115_CQUE_NONE] ∧
      ∃ before, (ads1115_lua_setting w L).2.i2c_log = before ++
        write_reg_calls (uint8_t_cast (luaL_checkinteger L 1)) ADS1115_POINTER_CONFIG
          r'.config := by
    rcases hcase with ⟨h6, hq, hcm, -, -, hlog⟩ | ⟨h6, hq, hqv, hthr, hlog⟩
    · refine ⟨by simp [h6, hcm], by simp [hcm], by simp [h6, hq], by simp [hq], _, hlog⟩
    · obtain ⟨e1, e2⟩ := setting_thresholds_cmode L _ _ _ _ _ hthr
      refine ⟨by simpa [h6] using e1, by simpa using e2, by simp [h6, hq], ?_, ?_⟩
      · rcases hqv with h | h | h <;> simp [h]
      · exact ⟨_, by rw [hlog, ← List.append_assoc, ← List.append_assoc]⟩
  obtain ⟨hcm, hcmv, hq, hqv, hlog⟩ := hcq
  obtain ⟨f0, f1, f2, f3, f4, f5, f6, f7, f8⟩ :=
    config_fields _ hm' _ hch _ hg _ hbits _ hcmv _ hqv
  rw [f0] at hcfg
  rw [← hcfg] at f1 f2 f3 f4 f5 f6 f7 f8
  refine ⟨r', by rw [htab]; simp, hlog, ?_, f1, f2, f3, f4, f5, by rw [hchip]; exact hs, ?_, f7, ?_⟩
  · rw [hcfg, ← hcm, ← hq]
  · rw [f6, hcm]
  · rw [f8, hq]

/-- C6 (instance): `setting(0x48, GAIN_6_144V, 128, SINGLE_0, SINGLE_SHOT)` after setup. -/
theorem C6_config_word_fields_witness :
    (ads1115_lua_setting world_ready args_setting).1 = Except.ok [] ∧
    ∃ r' : ads_ctrl_struct_t,
      (ads1115_lua_setting world_ready args_setting).2.ads_ctrl_table
        (table_idx (uint8_t_cast (luaL_checkinteger args_setting 1))) = some r' ∧
      (∃ before, (ads1115_lua_setting world_ready args_setting).2.i2c_log = before ++
        write_reg_calls (uint8_t_cast (luaL_checkinteger args_setting 1))
          ADS1115_POINTER_CONFIG r'.config) ∧
      r'.config =
        ((if uint16_t_cast (luaL_checkinteger args_setting 5) = ADS1115_MODE_SINGLE
            then ADS1115_OS_SINGLE else ADS1115_OS_NON)
          ||| uint16_t_cast (luaL_checkinteger args_setting 4)
          ||| uint16_t_cast (luaL_checkinteger args_setting 2)
          ||| uint16_t_cast (luaL_checkinteger args_setting 5) ||| r'.samples
          ||| (if (lua_isnumber args_setting 6 && lua_isnumber args_setting 7
                    && lua_isnumber args_setting 8 && lua_isnumber args_setting 9) = true
                then uint16_t_cast (luaL_checkinteger args_setting 9) else ADS1115_CMODE_TRAD)
          ||| ADS1115_CPOL_ACTVLOW ||| ADS1115_CLAT_NONLAT
          ||| (if lua_isnumber args_setting 6 = true
                then uint16_t_cast (luaL_checkinteger args_setting 6)
                else ADS1115_CQUE_NONE)) ∧
      (r'.config &&& ADS1115_OS_MASK = ADS1115_OS_SINGLE ↔
        uint16_t_cast (luaL_checkinteger args_setting 5) = ADS1115_MODE_SINGLE) ∧
      r'.config &&& ADS1115_MUX_MASK = uint16_t_cast (luaL_checkinteger args_setting 4) ∧
      r'.config &&& ADS1115_PGA_MASK = uint16_t_cast (luaL_checkinteger args_setting 2) ∧
      r'.config &&& ADS1115_MODE_MASK = uint16_t_cast (luaL_checkinteger args_setting 5) ∧
      r'.config &&& ADS1115_DR_MASK = r'.samples ∧
      setting_samples r'.chip_id (uint16_t_cast (luaL_checkinteger args_setting 3))
        = some r'.samples ∧
      r'.config &&& ADS1115_CMODE_MASK =
        (if (lua_isnumber args_setting 6 && lua_isnumber args_setting 7
              && lua_isnumber args_setting 8 && lua_isnumber args_setting 9) = true
          then uint16_t_cast (luaL_checkinteger args_setting 9) else ADS1115_CMODE_TRAD) ∧
      r'.config &&& (ADS1115_CPOL_MASK ||| ADS1115_CLAT_MASK) = 0 ∧
      r'.config &&& ADS1115_CQUE_MASK =
        (if lua_isnumber args_setting 6 = true
          then uint16_t_cast (luaL_checkinteger args_setting 6)
          else ADS1115_CQUE_NONE) :=
  ⟨rfl, C6_config_word_fields world_ready args_setting rfl⟩

/-- C7: on an initialised device, with valid gain, sample rate, channel, mode and
comparator queue depth, thresholds supplied with the low one above the high one (as
signed 16-bit values) make `setting` fail with
"Invalid argument: threshold_low > threshold_hi", an invalid-argument error, and the call
makes no bus call at all, so no threshold register is written. -/
theorem C7_low_above_high_rejected (w : World) (L : List LuaValue) (r : ads_ctrl_struct_t)
    (h1 : lua_isnumber L 1 = true) (h2 : lua_isnumber L 2 = true)
    (h3 : lua_isnumber L 3 = true) (h4 : lua_isnumber L 4 = true)
    (h5 : lua_isnumber L 5 = true)
    (hv : IS_I2C_ADDR_VALID (uint8_t_cast (luaL_checkinteger L 1)) = true)
    (hrec : w.ads_ctrl_table (table_idx (uint8_t_cast (luaL_checkinteger L 1))) = some r)
    (hg : uint16_t_cast (luaL_checkinteger L 2) ∈ gain_settings)
    (hs : uint16_t_cast (luaL_checkinteger L 3) ∈ (rate_table r.chip_id).map Prod.fst)
    (hc : uint16_t_cast (luaL_checkinteger L 4) ∈ mux_selectors)
    (hm : uint16_t_cast (luaL_checkinteger L 5) = ADS1115_MODE_SINGLE ∨
      uint16_t_cast (luaL_checkinteger L 5) = ADS1115_MODE_CONTIN)
    (h6 : lua_isnumber L 6 = true)
    (hq : uint16_t_cast (luaL_checkinteger L 6) = ADS1115_CQUE_1CONV ∨
      uint16_t_cast (luaL_checkinteger L 6) = ADS1115_CQUE_2CONV ∨
      uint16_t_cast (luaL_checkinteger L 6) = ADS1115_CQUE_4CONV)
    (h7 : lua_isnumber L 7 = true) (h8 : lua_isnumber L 8 = true)
    (hgt : int16_t_cast (uint16_t_cast (luaL_checkinteger L 7))
        > int16_t_cast (uint16_t_cast (luaL_checkinteger L 8))) :
    (ads1115_lua_setting w L).1
      = Except.error "Invalid argument: threshold_low > threshold_hi" ∧
    InvalidArgument (ads1115_lua_setting w L).1 ∧
    (ads1115_lua_setting w L).2.i2c_log = w.i2c_log := by
  have hres := setting_result w L r h1 h2 h3 h4 h5 hv hrec
  have hch := (channel_check_iff _ (uint16_t_cast_lt _)).mpr hc
  have hsam := (setting_samples_ne_none_iff r.chip_id _).mpr hs
  rw [if_neg (not_not.mpr hg), if_neg hsam, if_neg (by simp [hch]), if_neg (not_not.mpr hm),
    if_neg (by simp [h6]), if_neg (not_not.mpr hq),
    setting_thresholds_low_gt_hi L _ _ h7 h8 hgt] at hres
  refine ⟨hres, ?_, ?_⟩
  · rw [hres]; simp [InvalidArgument, invalid_argument_messages]
  · apply setting_failed_log
    rw [hres]; simp

/-- C7 (instance): thresholds 1000 mV and -1000 mV. -/
theorem C7_low_above_high_rejected_witness :
    (lua_isnumber args_setting_low_gt_hi 1 = true ∧ lua_isnumber args_setting_low_gt_hi 2 = true ∧
     lua_isnumber args_setting_low_gt_hi 3 = true ∧ lua_isnumber args_setting_low_gt_hi 4 = true ∧
     lua_isnumber args_setting_low_gt_hi 5 = true ∧
     IS_I2C_ADDR_VALID (uint8_t_cast (luaL_checkinteger args_setting_low_gt_hi 1)) = true ∧
     world_ready.ads_ctrl_table
         (table_idx (uint8_t_cast (luaL_checkinteger args_setting_low_gt_hi 1)))
       = some (setup_defaults 0x48 115) ∧
     uint16_t_cast (luaL_checkinteger args_setting_low_gt_hi 2) ∈ gain_settings ∧
     uint16_t_cast (luaL_checkinteger args_setting_low_gt_hi 3)
       ∈ (rate_table (setup_defaults 0x48 115).chip_id).map Prod.fst ∧
     uint16_t_cast (luaL_checkinteger args_setting_low_gt_hi 4) ∈ mux_selectors ∧
     (uint16_t_cast (luaL_checkinteger args_setting_low_gt_hi 5) = ADS1115_MODE_SINGLE ∨
       uint16_t_cast (luaL_checkinteger args_setting_low_gt_hi 5) = ADS1115_MODE_CONTIN) ∧
     lua_isnumber args_setting_low_gt_hi 6 = true ∧
     (uint16_t_cast (luaL_checkinteger args_setting_low_gt_hi 6) = ADS1115_CQUE_1CONV ∨
       uint16_t_cast (luaL_checkinteger args_setting_low_gt_hi 6) = ADS1115_CQUE_2CONV ∨
       uint16_t_cast (luaL_checkinteger args_setting_low_gt_hi 6) = ADS1115_CQUE_4CONV) ∧
     lua_isnumber args_setting_low_gt_hi 7 = true ∧ lua_isnumber args_setting_low_gt_hi 8 = true ∧
     int16_t_cast (uint16_t_cast (luaL_checkinteger args_setting_low_gt_hi 7))
        > int16_t_cast (uint16_t_cast (luaL_checkinteger args_setting_low_gt_hi 8))) ∧
    ((ads1115_lua_setting world_ready args_setting_low_gt_hi).1
      = Except.error "Invalid argument: threshold_low > threshold_hi" ∧
    InvalidArgument (ads1115_lua_setting world_ready args_setting_low_gt_hi).1 ∧
    (ads1115_lua_setting world_ready args_setting_low_gt_hi).2.i2c_log = world_ready.i2c_log) :=
  ⟨⟨rfl, rfl, rfl, rfl, rfl, by decide, rfl, by decide, by decide, by decide, by decide, rfl,
    by decide, rfl, rfl, by decide⟩,
   C7_low_above_high_rejected world_ready args_setting_low_gt_hi (setup_defaults 0x48 115)
    rfl rfl rfl rfl rfl (by decide) rfl (by decide) (by decide) (by decide) (by decide) rfl
    (by decide) rfl rfl (by decide)⟩

/-- C8: whenever `setting` fails, whatever the reason, the call has made no
`platform_i2c_*` call: the bus log is as before. -/
theorem C8_failed_setting_no_bus_traffic (w : World) (L : List LuaValue)
    (hfail : (ads1115_lua_setting w L).1 ≠ Except.ok []) :
    (ads1115_lua_setting w L).2.i2c_log = w.i2c_log :=
  setting_failed_log w L hfail

/-- C8 (instance): `setting` with the gain 1 after setup. -/
theorem C8_failed_setting_no_bus_traffic_witness :
    (ads1115_lua_setting world_ready args_setting_bad_gain).1 ≠ Except.ok [] ∧
    (ads1115_lua_setting world_ready args_setting_bad_gain).2.i2c_log = world_ready.i2c_log :=
  ⟨fun h => Except.noConfusion h,
   C8_failed_setting_no_bus_traffic world_ready args_setting_bad_gain
     (fun h => Except.noConfusion h)⟩
/-- C9 (as stated, refuted): at gain 6.144V and the differential selector AIN0/AIN1 the
value -6144 mV, whose magnitude is at the full-scale range, is not rejected: `get_value`
returns 0 and stores the code -32768. -/
theorem C9_neg_full_scale_accepted :
    ADS1115_PGA_6_144V ∈ gain_settings ∧ ADS1115_MUX_DIFF_0_1 ∈ mux_selectors ∧
    |(-6144 : Int)| ≥ full_scale ADS1115_PGA_6_144V ∧
    get_value ADS1115_PGA_6_144V ADS1115_MUX_DIFF_0_1 (-6144) = some (-32768) := by
  refine ⟨by decide, by decide, by decide, ?_⟩
  exact get_value_neg_full_scale ADS1115_PGA_6_144V ADS1115_MUX_DIFF_0_1 (by decide) (by decide)

/-- C9 (amended): for every gain setting and every mux selector, `get_value` rejects
every millivolt value `mv` with `mv >= FS` or `mv < -FS`; the value `-FS` itself is
rejected with a single-ended selector and accepted, as code -32768, with a differential
one. -/
theorem C9_rejects_beyond_full_scale (gain channel : Nat) (mv : Int)
    (hg : gain ∈ gain_settings) (hc : channel ∈ mux_selectors)
    (hmv : mv ≥ full_scale gain ∨ mv < -full_scale gain) :
    get_value gain channel mv = none ∧
    get_value gain channel (-full_scale gain)
      = if channel ∈ single_ended then none else some (-32768) := by
  constructor
  · rw [get_value_eq_none_iff gain channel mv hg]
    rcases hmv with h | h
    · exact Or.inl h
    · exact Or.inr (Or.inl h)
  · have hp := full_scale_pos gain hg
    split
    · rename_i hs
      rw [get_value_eq_none_iff gain channel _ hg]
      refine Or.inr (Or.inr ⟨by omega, ?_⟩)
      intro h0
      exact (mux_shift_eq_zero_iff channel hc).mp h0 hs
    · rename_i hs
      exact get_value_neg_full_scale gain channel hg ((mux_shift_eq_zero_iff channel hc).mpr hs)

/-- C9 (amended, instance): 6144 mV at gain 6.144V on AIN0/AIN1. -/
theorem C9_rejects_beyond_full_scale_witness :
    (ADS1115_PGA_6_144V ∈ gain_settings ∧ ADS1115_MUX_DIFF_0_1 ∈ mux_selectors ∧
      ((6144 : Int) ≥ full_scale ADS1115_PGA_6_144V ∨
        (6144 : Int) < -full_scale ADS1115_PGA_6_144V)) ∧
    (get_value ADS1115_PGA_6_144V ADS1115_MUX_DIFF_0_1 6144 = none ∧
    get_value ADS1115_PGA_6_144V ADS1115_MUX_DIFF_0_1 (-full_scale ADS1115_PGA_6_144V)
      = if ADS1115_MUX_DIFF_0_1 ∈ single_ended then none else some (-32768)) :=
  ⟨⟨by decide, by decide, by decide⟩,
   C9_rejects_beyond_full_scale ADS1115_PGA_6_144V ADS1115_MUX_DIFF_0_1 6144
    (by decide) (by decide) (by decide)⟩

/-- C10: for every gain setting, every mux selector and every millivolt value strictly
inside the range of the gain, `get_value` fails exactly when the value is negative and
the selector is single-ended; with a differential selector it never fails. -/
theorem C10_fails_iff_negative_single_ended (gain channel : Nat) (mv : Int)
    (hg : gain ∈ gain_settings) (hc : channel ∈ mux_selectors)
    (hlo : -full_scale gain < mv) (hhi : mv < full_scale gain) :
    (get_value gain channel mv = none ↔ (mv < 0 ∧ channel ∈ single_ended)) ∧
    (channel ∈ differential → ∃ c, get_value gain channel mv = some c) := by
  have key : get_value gain channel mv = none ↔ (mv < 0 ∧ channel ∈ single_ended) := by
    rw [get_value_eq_none_iff gain channel mv hg]
    constructor
    · rintro (h | h | ⟨h, h'⟩)
      · omega
      · omega
      · refine ⟨h, ?_⟩
        by_contra hs
        exact h' ((mux_shift_eq_zero_iff channel hc).mpr hs)
    · rintro ⟨h, hs⟩
      refine Or.inr (Or.inr ⟨h, ?_⟩)
      intro h0
      exact (mux_shift_eq_zero_iff channel hc).mp h0 hs
  refine ⟨key, ?_⟩
  intro hd
  have hns : channel ∉ single_ended := by
    simp only [differential, List.mem_cons, List.mem_singleton, List.not_mem_nil, or_false] at hd
    rcases hd with h | h | h | h <;> subst h <;> decide
  cases hv : get_value gain channel mv with
  | some c => exact ⟨c, rfl⟩
  | none => exact absurd (key.mp hv).2 hns

/-- C10 (instance): -100 mV at gain 0.256V on the single-ended input AIN3. -/
theorem C10_fails_iff_negative_single_ended_witness :
    (ADS1115_PGA_0_256V ∈ gain_settings ∧ ADS1115_MUX_SINGLE_3 ∈ mux_selectors ∧
      -full_scale ADS1115_PGA_0_256V < -100 ∧ (-100 : Int) < full_scale ADS1115_PGA_0_256V) ∧
    ((get_value ADS1115_PGA_0_256V ADS1115_MUX_SINGLE_3 (-100) = none ↔
      ((-100 : Int) < 0 ∧ ADS1115_MUX_SINGLE_3 ∈ single_ended)) ∧
    (ADS1115_MUX_SINGLE_3 ∈ differential →
      ∃ c, get_value ADS1115_PGA_0_256V ADS1115_MUX_SINGLE_3 (-100) = some c)) :=
  ⟨⟨by decide, by decide, by decide, by decide⟩,
   C10_fails_iff_negative_single_ended ADS1115_PGA_0_256V ADS1115_MUX_SINGLE_3 (-100)
    (by decide) (by decide) (by decide) (by decide)⟩

/-! ## Theorems on startread -/

/-- The course of `ads1115_lua_startread` in conversion-ready-pin mode. -/
theorem startread_conversion_ready (w : World) (L : List LuaValue) (r : ads_ctrl_struct_t)
    (h1 : lua_isnumber L 1 = true)
    (hv : IS_I2C_ADDR_VALID (uint8_t_cast (luaL_checkinteger L 1)) = true)
    (hrec : w.ads_ctrl_table (table_idx (uint8_t_cast (luaL_checkinteger L 1))) = some r)
    (hmode : conversion_ready_mode r = true) :
    ads1115_lua_startread w L =
      if r.mode = ADS1115_MODE_SINGLE then
        (Except.ok [LuaPushed.pushinteger
            ((0x7FFFFFFF &&& (w.system_time % 4294967296) : Nat) : Int)],
          write_reg w (uint8_t_cast (luaL_checkinteger L 1)) ADS1115_POINTER_CONFIG r.config)
      else
        (Except.ok [LuaPushed.pushinteger 0], w) := by
  unfold conversion_ready_mode at hmode
  unfold ads1115_lua_startread
  simp only [h1, hv, hrec, hmode, Bool.not_true, Bool.false_eq_true, if_false, if_true]

theorem conversion_ready_mode_of (r : ads_ctrl_struct_t)
    (hq : r.comp = ADS1115_CQUE_1CONV ∨ r.comp = ADS1115_CQUE_2CONV ∨
      r.comp = ADS1115_CQUE_4CONV)
    (hlo : r.threshold_low = 0x7FFF) (hhi : r.threshold_hi = 0x8000) :
    conversion_ready_mode r = true := by
  unfold conversion_ready_mode
  rcases hq with h | h | h <;> simp [h, hlo, hhi]

theorem timestamp_bounds (t : Nat) :
    (0 : Int) ≤ ((0x7FFFFFFF &&& (t % 4294967296) : Nat) : Int) ∧
    ((0x7FFFFFFF &&& (t % 4294967296) : Nat) : Int) < 2147483648 := by
  have h : 0x7FFFFFFF &&& (t % 4294967296) ≤ 0x7FFFFFFF := Nat.and_le_left
  constructor
  · exact Int.ofNat_nonneg _
  · have : (0x7FFFFFFF &&& (t % 4294967296) : Nat) < 2147483648 := by omega
    exact_mod_cast this

/-- C11: on a record with a comparator queue depth of 1, 2 or 4 conversions and the unset
threshold pair (0x7FFF, 0x8000), `startread` succeeds whatever its second argument is
(also without one) and returns one integer, the variable `now` (the system time wrapped to
31 bits in single-shot mode, 0 otherwise; in [0, 2^31)); it leaves `ads_ctrl_table` (hence
the record, its timer and its callback reference), the Lua registry and the list of Lua
calls as they were; in single-shot mode the bus sees exactly one register write, of the
cached config word to register 0x01, and in continuous mode no bus call. -/
theorem C11_conversion_ready_no_timer (w : World) (L : List LuaValue) (r : ads_ctrl_struct_t)
    (h1 : lua_isnumber L 1 = true)
    (hv : IS_I2C_ADDR_VALID (uint8_t_cast (luaL_checkinteger L 1)) = true)
    (hrec : w.ads_ctrl_table (table_idx (uint8_t_cast (luaL_checkinteger L 1))) = some r)
    (hq : r.comp = ADS1115_CQUE_1CONV ∨ r.comp = ADS1115_CQUE_2CONV ∨
      r.comp = ADS1115_CQUE_4CONV)
    (hlo : r.threshold_low = 0x7FFF) (hhi : r.threshold_hi = 0x8000) :
    (∃ now : Int, (ads1115_lua_startread w L).1 = Except.ok [LuaPushed.pushinteger now] ∧
      now = (if r.mode = ADS1115_MODE_SINGLE
        then ((0x7FFFFFFF &&& (w.system_time % 4294967296) : Nat) : Int) else 0) ∧
      0 ≤ now ∧ now < 2147483648) ∧
    (ads1115_lua_startread w L).2.ads_ctrl_table = w.ads_ctrl_table ∧
    (ads1115_lua_startread w L).2.registry = w.registry ∧
    (ads1115_lua_startread w L).2.lua_calls = w.lua_calls ∧
    (ads1115_lua_startread w L).2.i2c_log = w.i2c_log ++
      (if r.mode = ADS1115_MODE_SINGLE then
        write_reg_calls (uint8_t_cast (luaL_checkinteger L 1)) ADS1115_POINTER_CONFIG r.config
       else []) := by
  rw [startread_conversion_ready w L r h1 hv hrec (conversion_ready_mode_of r hq hlo hhi)]
  by_cases hm : r.mode = ADS1115_MODE_SINGLE
  · simp only [hm, if_true]
    refine ⟨⟨_, rfl, rfl, timestamp_bounds w.system_time⟩, ?_, ?_, ?_, ?_⟩ <;> rfl
  · simp only [hm, if_false]
    refine ⟨⟨0, rfl, rfl, le_refl _, by decide⟩, ?_, ?_, ?_, ?_⟩ <;>
      first | rfl | simp

/-- C11 (instance): `startread(0x48)` in single-shot conversion-ready-pin mode at system
time 123456. -/
theorem C11_conversion_ready_no_timer_witness :
    (lua_isnumber args_addr 1 = true ∧
     IS_I2C_ADDR_VALID (uint8_t_cast (luaL_checkinteger args_addr 1)) = true ∧
     (∃ r, world_rdy.ads_ctrl_table (table_idx (uint8_t_cast (luaL_checkinteger args_addr 1)))
        = some r ∧ r.comp = ADS1115_CQUE_1CONV ∧ r.threshold_low = 0x7FFF ∧
        r.threshold_hi = 0x8000 ∧ r.mode = ADS1115_MODE_SINGLE ∧ r.config = 0xC180)) ∧
    ((∃ now : Int, (ads1115_lua_startread world_rdy args_addr).1
        = Except.ok [LuaPushed.pushinteger now] ∧
      now = (if (0x0100 : Nat) = ADS1115_MODE_SINGLE
        then ((0x7FFFFFFF &&& (world_rdy.system_time % 4294967296) : Nat) : Int) else 0) ∧
      0 ≤ now ∧ now < 2147483648) ∧
    (ads1115_lua_startread world_rdy args_addr).2.ads_ctrl_table = world_rdy.ads_ctrl_table ∧
    (ads1115_lua_startread world_rdy args_addr).2.registry = world_rdy.registry ∧
    (ads1115_lua_startread world_rdy args_addr).2.lua_calls = world_rdy.lua_calls ∧
    (ads1115_lua_startread world_rdy args_addr).2.i2c_log = world_rdy.i2c_log ++
      (if (0x0100 : Nat) = ADS1115_MODE_SINGLE then
        write_reg_calls (uint8_t_cast (luaL_checkinteger args_addr 1)) ADS1115_POINTER_CONFIG
          0xC180
       else [])) :=
  ⟨⟨rfl, by decide, ⟨_, rfl, rfl, rfl, rfl, rfl, rfl⟩⟩,
   C11_conversion_ready_no_timer world_rdy args_addr
     { setup_defaults 0x48 115 with
         samples := 0x80, threshold_low := 0x7FFF, threshold_hi := 0x8000,
         comp := 0, config := 0xC180 }
     rfl (by decide) rfl (Or.inl rfl) rfl rfl⟩

/-- C12 (as stated, refuted): in continuous conversion-ready-pin mode, the system time
being 123456, `startread` returns 0 and not the system time wrapped to 31 bits. -/
theorem C12_continuous_returns_zero :
    (∃ r, world_rdy_contin.ads_ctrl_table
        (table_idx (uint8_t_cast (luaL_checkinteger args_addr 1))) = some r ∧
      conversion_ready_mode r = true ∧ r.mode = ADS1115_MODE_CONTIN) ∧
    (ads1115_lua_startread world_rdy_contin args_addr).1
      = Except.ok [LuaPushed.pushinteger 0] ∧
    ((0x7FFFFFFF &&& (world_rdy_contin.system_time % 4294967296) : Nat) : Int) = 123456 :=
  ⟨⟨_, rfl, rfl, rfl⟩, rfl, by decide⟩

/-- C12 (amended): in conversion-ready-pin mode, `startread` in single-shot mode returns
the system time wrapped to 31 bits (`time & 0x7FFFFFFF`, non-negative) and writes the
cached config word to register 0x01; in any other mode (continuous) it makes no bus call
and returns 0. -/
theorem C12_timestamp_single_shot_only (w : World) (L : List LuaValue)
    (r : ads_ctrl_struct_t)
    (h1 : lua_isnumber L 1 = true)
    (hv : IS_I2C_ADDR_VALID (uint8_t_cast (luaL_checkinteger L 1)) = true)
    (hrec : w.ads_ctrl_table (table_idx (uint8_t_cast (luaL_checkinteger L 1))) = some r)
    (hmode : conversion_ready_mode r = true) :
    (ads1115_lua_startread w L).1 = Except.ok [LuaPushed.pushinteger
      (if r.mode = ADS1115_MODE_SINGLE
        then ((0x7FFFFFFF &&& (w.system_time % 4294967296) : Nat) : Int) else 0)] ∧
    (0 : Int) ≤ ((0x7FFFFFFF &&& (w.system_time % 4294967296) : Nat) : Int) ∧
    (ads1115_lua_startread w L).2.i2c_log =
      (if r.mode = ADS1115_MODE_SINGLE
        then w.i2c_log ++ write_reg_calls (uint8_t_cast (luaL_checkinteger L 1))
          ADS1115_POINTER_CONFIG r.config
        else w.i2c_log) := by
  rw [startread_conversion_ready w L r h1 hv hrec hmode]
  by_cases hm : r.mode = ADS1115_MODE_SINGLE
  · simp only [hm, if_true]
    exact ⟨trivial, (timestamp_bounds w.system_time).1, rfl⟩
  · simp only [hm, if_false]
    exact ⟨trivial, (timestamp_bounds w.system_time).1, trivial⟩

/-- C12 (amended, instance): `startread(0x48)` in single-shot conversion-ready-pin mode at
system time 123456. -/
theorem C12_timestamp_single_shot_only_witness :
    (lua_isnumber args_addr 1 = true ∧
     IS_I2C_ADDR_VALID (uint8_t_cast (luaL_checkinteger args_addr 1)) = true ∧
     (∃ r, world_rdy.ads_ctrl_table (table_idx (uint8_t_cast (luaL_checkinteger args_addr 1)))
        = some r ∧ conversion_ready_mode r = true ∧ r.mode = ADS1115_MODE_SINGLE ∧
        r.config = 0xC180)) ∧
    ((ads1115_lua_startread world_rdy args_addr).1 = Except.ok [LuaPushed.pushinteger
      (if (0x0100 : Nat) = ADS1115_MODE_SINGLE
        then ((0x7FFFFFFF &&& (world_rdy.system_time % 4294967296) : Nat) : Int) else 0)] ∧
    (0 : Int) ≤ ((0x7FFFFFFF &&& (world_rdy.system_time % 4294967296) : Nat) : Int) ∧
    (ads1115_lua_startread world_rdy args_addr).2.i2c_log =
      (if (0x0100 : Nat) = ADS1115_MODE_SINGLE
        then world_rdy.i2c_log ++ write_reg_calls
          (uint8_t_cast (luaL_checkinteger args_addr 1)) ADS1115_POINTER_CONFIG 0xC180
        else world_rdy.i2c_log)) :=
  ⟨⟨rfl, by decide, ⟨_, rfl, rfl, rfl, rfl⟩⟩,
   C12_timestamp_single_shot_only world_rdy args_addr
     { setup_defaults 0x48 115 with
         samples := 0x80, threshold_low := 0x7FFF, threshold_hi := 0x8000,
         comp := 0, config := 0xC180 }
     rfl (by decide) rfl rfl⟩

/-! ### The polling path -/

theorem foldl_max_ge (l : List Int) (a : Int) :
    a ≤ l.foldl max a ∧ ∀ k ∈ l, k ≤ l.foldl max a := by
  induction l generalizing a with
  | nil => simp
  | cons x xs ih =>
    simp only [List.foldl_cons, List.mem_cons]
    obtain ⟨h1, h2⟩ := ih (max a x)
    refine ⟨le_trans (le_max_left a x) h1, ?_⟩
    rintro k (rfl | hk)
    · exact le_trans (le_max_right a k) h1
    · exact h2 k hk

/-- The reference handed out by `luaL_ref` is not in use. -/
theorem luaL_ref_fresh (w : World) (v : LuaValue) :
    ∀ e ∈ w.registry, e.1 ≠ (luaL_ref w v).1 := by
  intro e he
  have h := (foldl_max_ge (w.registry.map Prod.fst) 0).2 e.1 (List.mem_map_of_mem _ he)
  simp only [luaL_ref]
  omega

theorem registry_find_fresh (reg : List (Int × LuaValue)) (ref : Int) (v : LuaValue)
    (h : ∀ e ∈ reg, e.1 ≠ ref) :
    (reg ++ [(ref, v)]).find? (fun e => e.1 == ref) = some (ref, v) := by
  induction reg with
  | nil => simp
  | cons x xs ih =>
    have hx : (x.1 == ref) = false := by simpa using h x (List.mem_cons_self _ _)
    simp only [List.cons_append, List.find?_cons, hx]
    exact ih (fun e he => h e (List.mem_cons_of_mem _ he))

theorem registry_filter_fresh (reg : List (Int × LuaValue)) (ref : Int) (v : LuaValue)
    (h : ∀ e ∈ reg, e.1 ≠ ref) :
    (reg ++ [(ref, v)]).filter (fun e => e.1 != ref) = reg := by
  induction reg with
  | nil => simp
  | cons x xs ih =>
    have hx : (x.1 != ref) = true := by simpa using h x (List.mem_cons_self _ _)
    simp only [List.cons_append, List.filter_cons, hx, if_true]
    rw [ih (fun e he => h e (List.mem_cons_of_mem _ he))]

theorem startread_msec_eq_lookup (samples_value : Nat) :
    startread_msec samples_value = (List.lookup samples_value wait_table).getD 1 := by
  unfold startread_msec wait_table
  split_ifs with h1 h2 h3 h4 h5 h6 h7 h8
  · subst h1; rfl
  · subst h2; rfl
  · subst h3; rfl
  · subst h4; rfl
  · subst h5; rfl
  · subst h6; rfl
  · rcases h7 with h | h <;> subst h <;> rfl
  · rcases h8 with h | h <;> subst h <;> rfl
  · have h7a : ¬ samples_value = 475 := fun h => h7 (Or.inl h)
    have h7b : ¬ samples_value = 490 := fun h => h7 (Or.inr h)
    have h8a : ¬ samples_value = 860 := fun h => h8 (Or.inl h)
    have h8b : ¬ samples_value = 920 := fun h => h8 (Or.inr h)
    repeat rw [lookup_cons_ne _ _ _ _ (by assumption)]
    rfl

/-- Without a function as second argument, `ads1115_lua_startread` on the polling path
raises the argument error and leaves the state as it was. -/
theorem startread_polling_no_callback (w : World) (L : List LuaValue)
    (r : ads_ctrl_struct_t)
    (h1 : lua_isnumber L 1 = true)
    (hv : IS_I2C_ADDR_VALID (uint8_t_cast (luaL_checkinteger L 1)) = true)
    (hrec : w.ads_ctrl_table (table_idx (uint8_t_cast (luaL_checkinteger L 1))) = some r)
    (hmode : conversion_ready_mode r = false)
    (hcb : is_callback (L.getD 1 LuaValue.nil) = false) :
    ads1115_lua_startread w L = (Except.error "Must be function", w) := by
  unfold conversion_ready_mode at hmode
  unfold ads1115_lua_startread
  simp only [h1, hv, hrec, hmode, Bool.not_true, Bool.false_eq_true, if_false]
  generalize L.getD 1 LuaValue.nil = cb at hcb ⊢
  cases cb <;> simp [is_callback] at hcb ⊢

/-- The course of `ads1115_lua_startread` on the polling path with a function as second
argument. -/
theorem startread_polling (w : World) (L : List LuaValue) (r : ads_ctrl_struct_t)
    (h1 : lua_isnumber L 1 = true)
    (hv : IS_I2C_ADDR_VALID (uint8_t_cast (luaL_checkinteger L 1)) = true)
    (hrec : w.ads_ctrl_table (table_idx (uint8_t_cast (luaL_checkinteger L 1))) = some r)
    (hmode : conversion_ready_mode r = false)
    (hcb : is_callback (L.getD 1 LuaValue.nil) = true) :
    ads1115_lua_startread w L =
      (Except.ok [],
       { w with
         ads_ctrl_table := Function.update w.ads_ctrl_table
           (table_idx (uint8_t_cast (luaL_checkinteger L 1)))
           (some { r with
             timer_ref := (luaL_ref w (L.getD 1 LuaValue.nil)).1
             timer := { armed := true, msec := startread_msec r.samples_value,
                        repeat_flag := 0, fn_set := true } })
         registry := w.registry ++
           [((luaL_ref w (L.getD 1 LuaValue.nil)).1, L.getD 1 LuaValue.nil)]
         i2c_log := w.i2c_log ++
           (if r.mode = ADS1115_MODE_SINGLE then
             write_reg_calls (uint8_t_cast (luaL_checkinteger L 1)) ADS1115_POINTER_CONFIG
               r.config
            else []) }) := by
  unfold conversion_ready_mode at hmode
  unfold ads1115_lua_startread
  simp only [h1, hv, hrec, hmode, Bool.not_true, Bool.false_eq_true, if_false]
  generalize L.getD 1 LuaValue.nil = cb at hcb ⊢
  cases cb <;> simp [is_callback] at hcb <;>
    by_cases hm : r.mode = ADS1115_MODE_SINGLE <;>
    simp [hm, World.store, write_reg, World.bus, luaL_ref]

theorem conversion_ready_mode_none (r : ads_ctrl_struct_t) (hq : r.comp = ADS1115_CQUE_NONE) :
    conversion_ready_mode r = false := by
  simp [conversion_ready_mode, hq]

/-- C13: on a record with no comparator queue configured, `startread` without a function
as second argument fails with the argument error and leaves the state as it was; with a
function it succeeds, stores the function in the registry under the reference kept in the
record (the pending callback), arms the single-shot timer of the record with the duration
the wait table gives for the sample rate of the record (8->150, 16->75, 32->35, 64->20,
128->10, 250->5, 475 and 490->3, 860 and 920->2, any other->1), changes no other field of
the record, and writes the cached config word to register 0x01 exactly when the mode is
single-shot. -/
theorem C13_polling_requires_callback (w : World) (L : List LuaValue) (r : ads_ctrl_struct_t)
    (h1 : lua_isnumber L 1 = true)
    (hv : IS_I2C_ADDR_VALID (uint8_t_cast (luaL_checkinteger L 1)) = true)
    (hrec : w.ads_ctrl_table (table_idx (uint8_t_cast (luaL_checkinteger L 1))) = some r)
    (hq : r.comp = ADS1115_CQUE_NONE) :
    if is_callback (L.getD 1 LuaValue.nil) = true then
      (ads1115_lua_startread w L).1 = Except.ok [] ∧
      ∃ r' : ads_ctrl_struct_t,
        (ads1115_lua_startread w L).2.ads_ctrl_table
          (table_idx (uint8_t_cast (luaL_checkinteger L 1))) = some r' ∧
        r' = { r with timer_ref := r'.timer_ref, timer := r'.timer } ∧
        lua_rawgeti (ads1115_lua_startread w L).2 r'.timer_ref = L.getD 1 LuaValue.nil ∧
        r'.timer.armed = true ∧ r'.timer.repeat_flag = 0 ∧
        r'.timer.msec = (List.lookup r.samples_value wait_table).getD 1 ∧
        (ads1115_lua_startread w L).2.i2c_log = w.i2c_log ++
          (if r.mode = ADS1115_MODE_SINGLE then
            write_reg_calls (uint8_t_cast (luaL_checkinteger L 1)) ADS1115_POINTER_CONFIG
              r.config
           else [])
    else
      (ads1115_lua_startread w L).1 = Except.error "Must be function" ∧
      InvalidArgument (ads1115_lua_startread w L).1 ∧
      (ads1115_lua_startread w L).2 = w := by
  have hmode := conversion_ready_mode_none r hq
  split
  · rename_i hcb
    rw [startread_polling w L r h1 hv hrec hmode hcb]
    refine ⟨rfl, ({ r with
        timer_ref := (luaL_ref w (L.getD 1 LuaValue.nil)).1
        timer := { armed := true, msec := startread_msec r.samples_value,
                   repeat_flag := 0, fn_set := true } } : ads_ctrl_struct_t),
      by simp, rfl, ?_, rfl, rfl, ?_, rfl⟩
    · simp only [lua_rawgeti]
      rw [registry_find_fresh _ _ _ (luaL_ref_fresh w _)]
    · exact startread_msec_eq_lookup _
  · rename_i hcb
    have hcb' : is_callback (L.getD 1 LuaValue.nil) = false := by simpa using hcb
    rw [startread_polling_no_callback w L r h1 hv hrec hmode hcb']
    exact ⟨rfl, by simp [InvalidArgument, invalid_argument_messages], rfl⟩

/-- C13 (instance): `startread(0x48, cb1)` after setup. -/
theorem C13_polling_requires_callback_witness :
    (lua_isnumber args_startread_cb1 1 = true ∧
     IS_I2C_ADDR_VALID (uint8_t_cast (luaL_checkinteger args_startread_cb1 1)) = true ∧
     world_ready.ads_ctrl_table
       (table_idx (uint8_t_cast (luaL_checkinteger args_startread_cb1 1)))
       = some (setup_defaults 0x48 115) ∧
     (setup_defaults 0x48 115).comp = ADS1115_CQUE_NONE ∧
     is_callback (args_startread_cb1.getD 1 LuaValue.nil) = true) ∧
    (if is_callback (args_startread_cb1.getD 1 LuaValue.nil) = true then
      (ads1115_lua_startread world_ready args_startread_cb1).1 = Except.ok [] ∧
      ∃ r' : ads_ctrl_struct_t,
        (ads1115_lua_startread world_ready args_startread_cb1).2.ads_ctrl_table
          (table_idx (uint8_t_cast (luaL_checkinteger args_startread_cb1 1))) = some r' ∧
        r' = { setup_defaults 0x48 115 with timer_ref := r'.timer_ref, timer := r'.timer } ∧
        lua_rawgeti (ads1115_lua_startread world_ready args_startread_cb1).2 r'.timer_ref
          = args_startread_cb1.getD 1 LuaValue.nil ∧
        r'.timer.armed = true ∧ r'.timer.repeat_flag = 0 ∧
        r'.timer.msec = (List.lookup (setup_defaults 0x48 115).samples_value wait_table).getD 1 ∧
        (ads1115_lua_startread world_ready args_startread_cb1).2.i2c_log
          = world_ready.i2c_log ++
          (if (setup_defaults 0x48 115).mode = ADS1115_MODE_SINGLE then
            write_reg_calls (uint8_t_cast (luaL_checkinteger args_startread_cb1 1))
              ADS1115_POINTER_CONFIG (setup_defaults 0x48 115).config
           else [])
    else
      (ads1115_lua_startread world_ready args_startread_cb1).1
        = Except.error "Must be function" ∧
      InvalidArgument (ads1115_lua_startread world_ready args_startread_cb1).1 ∧
      (ads1115_lua_startread world_ready args_startread_cb1).2 = world_ready) :=
  ⟨⟨rfl, by decide, rfl, rfl, rfl⟩,
   C13_polling_requires_callback world_ready args_startread_cb1 (setup_defaults 0x48 115)
     rfl (by decide) rfl rfl⟩

/-! ### Timer expiry -/

/-- The timer event on a record whose timer is armed and whose callback reference is the
last entry of the registry, not used by an earlier entry: the conversion register is read,
the callback is called once with voltage, fraction and register content, the timer is
disarmed and the reference released. -/
theorem timer_expiry_pending (w : World) (idx : Fin 4) (r : ads_ctrl_struct_t)
    (cb : LuaValue) (reg : List (Int × LuaValue))
    (hrec : w.ads_ctrl_table idx = some r)
    (harm : r.timer.armed = true) (hfn : r.timer.fn_set = true)
    (hreg : w.registry = reg ++ [(r.timer_ref, cb)])
    (hfresh : ∀ e ∈ reg, e.1 ≠ r.timer_ref) :
    timer_expiry w idx =
      { w with
        ads_ctrl_table := Function.update w.ads_ctrl_table idx
          (some { r with timer := { r.timer with armed := false }, timer_ref := LUA_NOREF })
        i2c_log := w.i2c_log ++ read_reg_calls r.addr ADS1115_POINTER_CONVERSION
        i2c_rx := w.i2c_rx.drop 2
        registry := reg
        lua_calls := w.lua_calls ++
          [(cb, [LuaPushed.pushnumber
                   (get_volt r.gain (read_reg w r.addr ADS1115_POINTER_CONVERSION).1),
                 LuaPushed.pushinteger (voltdec_of
                   (get_volt r.gain (read_reg w r.addr ADS1115_POINTER_CONVERSION).1)),
                 LuaPushed.pushinteger
                   (read_reg w r.addr ADS1115_POINTER_CONVERSION).1])] } := by
  have hfind := registry_find_fresh reg r.timer_ref cb hfresh
  have hfilt := registry_filter_fresh reg r.timer_ref cb hfresh
  unfold timer_expiry ads1115_lua_readoutdone
  simp only [hrec, harm, hfn, Bool.and_self, if_true]
  simp only [lua_rawgeti, luaL_unref, read_reg, World.store, hreg, hfind, hfilt]

/-- A timer that is not armed does not expire. -/
theorem timer_expiry_disarmed (w : World) (idx : Fin 4) (r : ads_ctrl_struct_t)
    (hrec : w.ads_ctrl_table idx = some r) (harm : r.timer.armed = false) :
    timer_expiry w idx = w := by
  unfold timer_expiry
  simp [hrec, harm]

/-- C14: after a successful `startread` with callback `cb` on the polling path, the expiry
of the timer reads the conversion register, calls `cb` exactly once (the list of Lua
calls grows by that one call) with the voltage `get_volt` of the gain of the record and
the register content read, disarms the timer, and clears the callback reference of the
record and of the registry; a further timer event then does nothing, so `cb` is not
called again without a new trigger. -/
theorem C14_delivery_exactly_once (w : World) (L : List LuaValue) (r : ads_ctrl_struct_t)
    (h1 : lua_isnumber L 1 = true)
    (hv : IS_I2C_ADDR_VALID (uint8_t_cast (luaL_checkinteger L 1)) = true)
    (hrec : w.ads_ctrl_table (table_idx (uint8_t_cast (luaL_checkinteger L 1))) = some r)
    (hmode : conversion_ready_mode r = false)
    (hcb : is_callback (L.getD 1 LuaValue.nil) = true) :
    (ads1115_lua_startread w L).1 = Except.ok [] ∧
    (ads1115_lua_startread w L).2.lua_calls = w.lua_calls ∧
    (∃ (raw : Nat) (volt : ℚ),
      raw = (read_reg (ads1115_lua_startread w L).2 r.addr ADS1115_POINTER_CONVERSION).1 ∧
      volt = get_volt r.gain raw ∧
      (timer_expiry (ads1115_lua_startread w L).2
          (table_idx (uint8_t_cast (luaL_checkinteger L 1)))).lua_calls
        = w.lua_calls ++ [(L.getD 1 LuaValue.nil,
            [LuaPushed.pushnumber volt, LuaPushed.pushinteger (voltdec_of volt),
             LuaPushed.pushinteger raw])]) ∧
    (timer_expiry (ads1115_lua_startread w L).2
        (table_idx (uint8_t_cast (luaL_checkinteger L 1)))).i2c_log
      = (ads1115_lua_startread w L).2.i2c_log ++
          read_reg_calls r.addr ADS1115_POINTER_CONVERSION ∧
    (∃ r2 : ads_ctrl_struct_t,
      (timer_expiry (ads1115_lua_startread w L).2
          (table_idx (uint8_t_cast (luaL_checkinteger L 1)))).ads_ctrl_table
        (table_idx (uint8_t_cast (luaL_checkinteger L 1))) = some r2 ∧
      r2.timer.armed = false ∧ r2.timer_ref = LUA_NOREF) ∧
    (timer_expiry (ads1115_lua_startread w L).2
        (table_idx (uint8_t_cast (luaL_checkinteger L 1)))).registry = w.registry ∧
    timer_expiry (timer_expiry (ads1115_lua_startread w L).2
        (table_idx (uint8_t_cast (luaL_checkinteger L 1))))
        (table_idx (uint8_t_cast (luaL_checkinteger L 1)))
      = timer_expiry (ads1115_lua_startread w L).2
        (table_idx (uint8_t_cast (luaL_checkinteger L 1))) := by
  have hs := startread_polling w L r h1 hv hrec hmode hcb
  have he := timer_expiry_pending (ads1115_lua_startread w L).2
    (table_idx (uint8_t_cast (luaL_checkinteger L 1)))
    { r with
      timer_ref := (luaL_ref w (L.getD 1 LuaValue.nil)).1
      timer := { armed := true, msec := startread_msec r.samples_value,
                 repeat_flag := 0, fn_set := true } }
    (L.getD 1 LuaValue.nil) w.registry (by rw [hs]; simp) rfl rfl (by rw [hs])
    (luaL_ref_fresh w (L.getD 1 LuaValue.nil))
  refine ⟨by rw [hs], by rw [hs], ⟨_, _, rfl, rfl, ?_⟩, ?_, ?_, ?_, ?_⟩
  · rw [he, hs]
  · rw [he]
  · rw [he]
    exact ⟨({ r with
        timer_ref := LUA_NOREF
        timer := { armed := false, msec := startread_msec r.samples_value,
                   repeat_flag := 0, fn_set := true } } : ads_ctrl_struct_t),
      by simp, rfl, rfl⟩
  · rw [he]
  · apply timer_expiry_disarmed _ _
      { r with
        timer_ref := LUA_NOREF
        timer := { armed := false, msec := startread_msec r.samples_value,
                   repeat_flag := 0, fn_set := true } }
    · rw [he]; simp
    · rfl

/-- C14 (instance): `startread(0x48, cb1)` after setup, then the timer event. -/
theorem C14_delivery_exactly_once_witness :
    (lua_isnumber args_startread_cb1 1 = true ∧
     IS_I2C_ADDR_VALID (uint8_t_cast (luaL_checkinteger args_startread_cb1 1)) = true ∧
     world_ready.ads_ctrl_table
       (table_idx (uint8_t_cast (luaL_checkinteger args_startread_cb1 1)))
       = some (setup_defaults 0x48 115) ∧
     conversion_ready_mode (setup_defaults 0x48 115) = false ∧
     is_callback (args_startread_cb1.getD 1 LuaValue.nil) = true) ∧
    (timer_expiry (ads1115_lua_startread world_ready args_startread_cb1).2
        (table_idx (uint8_t_cast (luaL_checkinteger args_startread_cb1 1)))).lua_calls
      = world_ready.lua_calls ++ [(LuaValue.func 1,
          [LuaPushed.pushnumber (get_volt 0 65535),
           LuaPushed.pushinteger (voltdec_of (get_volt 0 65535)),
           LuaPushed.pushinteger 65535])] :=
  ⟨⟨rfl, by decide, rfl, rfl, rfl⟩,
   by
    obtain ⟨-, -, ⟨raw, volt, hraw, hvolt, hcalls⟩, -⟩ :=
      C14_delivery_exactly_once world_ready args_startread_cb1 (setup_defaults 0x48 115)
        rfl (by decide) rfl rfl rfl
    rw [hcalls, hvolt, hraw]
    rfl⟩

/-- C15: on the polling path, when `startread` with callback `cb1` is followed by
`startread` with callback `cb2` on the same device before the timer has expired, both
calls succeed and call nothing; the record then holds its one timer, armed anew, and one
callback reference, which is that of `cb2`; the next timer event makes exactly one Lua
call, to `cb2`, so `cb1` is not called; after it the timer is disarmed and a further
timer event does nothing. -/
theorem C15_retrigger_cancels_first (w : World) (L1 L2 : List LuaValue)
    (r : ads_ctrl_struct_t)
    (h1 : lua_isnumber L1 1 = true) (h2 : lua_isnumber L2 1 = true)
    (hsame : uint8_t_cast (luaL_checkinteger L2 1) = uint8_t_cast (luaL_checkinteger L1 1))
    (hv : IS_I2C_ADDR_VALID (uint8_t_cast (luaL_checkinteger L1 1)) = true)
    (hrec : w.ads_ctrl_table (table_idx (uint8_t_cast (luaL_checkinteger L1 1))) = some r)
    (hmode : conversion_ready_mode r = false)
    (hcb1 : is_callback (L1.getD 1 LuaValue.nil) = true)
    (hcb2 : is_callback (L2.getD 1 LuaValue.nil) = true) :
    (ads1115_lua_startread w L1).1 = Except.ok [] ∧
    (ads1115_lua_startread (ads1115_lua_startread w L1).2 L2).1 = Except.ok [] ∧
    (ads1115_lua_startread (ads1115_lua_startread w L1).2 L2).2.lua_calls = w.lua_calls ∧
    (∃ r2 : ads_ctrl_struct_t,
      (ads1115_lua_startread (ads1115_lua_startread w L1).2 L2).2.ads_ctrl_table
        (table_idx (uint8_t_cast (luaL_checkinteger L1 1))) = some r2 ∧
      r2.timer.armed = true ∧ r2.timer.repeat_flag = 0 ∧
      r2.timer.msec = startread_msec r.samples_value ∧
      lua_rawgeti (ads1115_lua_startread (ads1115_lua_startread w L1).2 L2).2 r2.timer_ref
        = L2.getD 1 LuaValue.nil) ∧
    (∃ (raw : Nat) (volt : ℚ),
      raw = (read_reg (ads1115_lua_startread (ads1115_lua_startread w L1).2 L2).2 r.addr
        ADS1115_POINTER_CONVERSION).1 ∧
      volt = get_volt r.gain raw ∧
      (timer_expiry (ads1115_lua_startread (ads1115_lua_startread w L1).2 L2).2
          (table_idx (uint8_t_cast (luaL_checkinteger L1 1)))).lua_calls
        = w.lua_calls ++ [(L2.getD 1 LuaValue.nil,
            [LuaPushed.pushnumber volt, LuaPushed.pushinteger (voltdec_of volt),
             LuaPushed.pushinteger raw])]) ∧
    timer_expiry (timer_expiry (ads1115_lua_startread (ads1115_lua_startread w L1).2 L2).2
        (table_idx (uint8_t_cast (luaL_checkinteger L1 1))))
        (table_idx (uint8_t_cast (luaL_checkinteger L1 1)))
      = timer_expiry (ads1115_lua_startread (ads1115_lua_startread w L1).2 L2).2
        (table_idx (uint8_t_cast (luaL_checkinteger L1 1))) := by
  have hs1 := startread_polling w L1 r h1 hv hrec hmode hcb1
  have hmode1 : conversion_ready_mode
      ({ r with
        timer_ref := (luaL_ref w (L1.getD 1 LuaValue.nil)).1
        timer := { armed := true, msec := startread_msec r.samples_value,
                   repeat_flag := 0, fn_set := true } } : ads_ctrl_struct_t) = false := hmode
  have hs2 := startread_polling (ads1115_lua_startread w L1).2 L2
    { r with
      timer_ref := (luaL_ref w (L1.getD 1 LuaValue.nil)).1
      timer := { armed := true, msec := startread_msec r.samples_value,
                 repeat_flag := 0, fn_set := true } }
    h2 (by rw [hsame]; exact hv) (by rw [hsame, hs1]; simp) hmode1 hcb2
  rw [hsame] at hs2
  have he := timer_expiry_pending (ads1115_lua_startread (ads1115_lua_startread w L1).2 L2).2
    (table_idx (uint8_t_cast (luaL_checkinteger L1 1)))
    { r with
      timer_ref := (luaL_ref (ads1115_lua_startread w L1).2 (L2.getD 1 LuaValue.nil)).1
      timer := { armed := true, msec := startread_msec r.samples_value,
                 repeat_flag := 0, fn_set := true } }
    (L2.getD 1 LuaValue.nil) (ads1115_lua_startread w L1).2.registry
    (by rw [hs2]; simp) rfl rfl (by rw [hs2])
    (luaL_ref_fresh (ads1115_lua_startread w L1).2 (L2.getD 1 LuaValue.nil))
  refine ⟨by rw [hs1], by rw [hs2], by rw [hs2, hs1], ?_, ⟨_, _, rfl, rfl, ?_⟩, ?_⟩
  · refine ⟨({ r with
        timer_ref := (luaL_ref (ads1115_lua_startread w L1).2 (L2.getD 1 LuaValue.nil)).1
        timer := { armed := true, msec := startread_msec r.samples_value,
                   repeat_flag := 0, fn_set := true } } : ads_ctrl_struct_t),
      by rw [hs2]; simp, rfl, rfl, rfl, ?_⟩
    rw [hs2]
    simp only [lua_rawgeti]
    rw [registry_find_fresh _ _ _
      (luaL_ref_fresh (ads1115_lua_startread w L1).2 (L2.getD 1 LuaValue.nil))]
  · rw [he, hs2, hs1]
  · apply timer_expiry_disarmed _ _
      { r with
        timer_ref := LUA_NOREF
        timer := { armed := false, msec := startread_msec r.samples_value,
                   repeat_flag := 0, fn_set := true } }
    · rw [he]; simp
    · rfl

/-- C15 (instance): `startread(0x48, cb1)`, then `startread(0x48, cb2)`, then the timer
event, after setup. -/
theorem C15_retrigger_cancels_first_witness :
    (lua_isnumber args_startread_cb1 1 = true ∧ lua_isnumber args_startread_cb2 1 = true ∧
     uint8_t_cast (luaL_checkinteger args_startread_cb2 1)
       = uint8_t_cast (luaL_checkinteger args_startread_cb1 1) ∧
     IS_I2C_ADDR_VALID (uint8_t_cast (luaL_checkinteger args_startread_cb1 1)) = true ∧
     world_ready.ads_ctrl_table
       (table_idx (uint8_t_cast (luaL_checkinteger args_startread_cb1 1)))
       = some (setup_defaults 0x48 115) ∧
     conversion_ready_mode (setup_defaults 0x48 115) = false ∧
     is_callback (args_startread_cb1.getD 1 LuaValue.nil) = true ∧
     is_callback (args_startread_cb2.getD 1 LuaValue.nil) = true) ∧
    (timer_expiry
        (ads1115_lua_startread (ads1115_lua_startread world_ready args_startread_cb1).2
          args_startread_cb2).2
        (table_idx (uint8_t_cast (luaL_checkinteger args_startread_cb1 1)))).lua_calls
      = world_ready.lua_calls ++ [(LuaValue.func 2,
          [LuaPushed.pushnumber (get_volt 0 65535),
           LuaPushed.pushinteger (voltdec_of (get_volt 0 65535)),
           LuaPushed.pushinteger 65535])] :=
  ⟨⟨rfl, rfl, rfl, by decide, rfl, rfl, rfl, rfl⟩,
   by
    obtain ⟨-, -, -, -, ⟨raw, volt, hraw, hvolt, hcalls⟩, -⟩ :=
      C15_retrigger_cancels_first world_ready args_startread_cb1 args_startread_cb2
        (setup_defaults 0x48 115) rfl rfl rfl (by decide) rfl rfl rfl rfl
    rw [hcalls, hvolt, hraw]
    rfl⟩

/-! ## Theorems on read and on the values delivered -/

theorem read_reg_lt (w : World) (ads_addr reg : Nat) : (read_reg w ads_addr reg).1 < 65536 := by
  simp only [read_reg]
  omega

theorem int16_t_cast_eq_signed_code (raw : Nat) (h : raw < 65536) :
    int16_t_cast (raw : Int) = signed_code raw := by
  unfold int16_t_cast signed_code
  split <;> omega

theorem signed_code_range (raw : Nat) (h : raw < 65536) :
    -32768 ≤ signed_code raw ∧ signed_code raw ≤ 32767 := by
  unfold signed_code
  split <;> omega

theorem get_volt_eq_signed (gain raw : Nat) (h : raw < 65536) :
    get_volt gain raw = (signed_code raw : ℚ) * lsb_size gain := by
  rw [← int16_t_cast_eq_signed_code raw h]
  unfold get_volt lsb_size
  split_ifs <;> simp

/-- The result of `ads1115_lua_read` on an initialised device. -/
theorem read_result (w : World) (L : List LuaValue) (r : ads_ctrl_struct_t)
    (h1 : lua_isnumber L 1 = true)
    (hv : IS_I2C_ADDR_VALID (uint8_t_cast (luaL_checkinteger L 1)) = true)
    (hrec : w.ads_ctrl_table (table_idx (uint8_t_cast (luaL_checkinteger L 1))) = some r) :
    ads1115_lua_read w L =
      (Except.ok
        [LuaPushed.pushnumber (get_volt r.gain
           (read_reg w (uint8_t_cast (luaL_checkinteger L 1)) ADS1115_POINTER_CONVERSION).1),
         LuaPushed.pushinteger (voltdec_of (get_volt r.gain
           (read_reg w (uint8_t_cast (luaL_checkinteger L 1)) ADS1115_POINTER_CONVERSION).1)),
         LuaPushed.pushinteger
           (read_reg w (uint8_t_cast (luaL_checkinteger L 1)) ADS1115_POINTER_CONVERSION).1],
       (read_reg w (uint8_t_cast (luaL_checkinteger L 1)) ADS1115_POINTER_CONVERSION).2) := by
  unfold ads1115_lua_read
  simp only [h1, hv, hrec, Bool.not_true, Bool.false_eq_true, if_false]

/-- The Lua call made by `ads1115_lua_readoutdone`. -/
theorem readoutdone_calls (w : World) (idx : Fin 4) (r : ads_ctrl_struct_t)
    (hrec : w.ads_ctrl_table idx = some r) :
    (ads1115_lua_readoutdone w idx).lua_calls = w.lua_calls ++
      [(lua_rawgeti w r.timer_ref,
        [LuaPushed.pushnumber (get_volt r.gain
           (read_reg w r.addr ADS1115_POINTER_CONVERSION).1),
         LuaPushed.pushinteger (voltdec_of (get_volt r.gain
           (read_reg w r.addr ADS1115_POINTER_CONVERSION).1)),
         LuaPushed.pushinteger (read_reg w r.addr ADS1115_POINTER_CONVERSION).1])] := by
  unfold ads1115_lua_readoutdone
  simp only [hrec]
  rfl

theorem voltdec_of_eq (v : ℚ) :
    voltdec_of v = ⌊|v - (c_trunc v : ℚ)| * 1000⌋ ∧ 0 ≤ voltdec_of v ∧ voltdec_of v ≤ 999 := by
  have hx : |v - (c_trunc v : ℚ)| < 1 := by
    rw [abs_sub_comm]; exact c_trunc_sub_abs_lt v
  have hy : |v - (c_trunc v : ℚ)| * 1000 = |(v - (c_trunc v : ℚ)) * 1000| := by
    rw [abs_mul]; norm_num
  have key : voltdec_of v = ⌊|v - (c_trunc v : ℚ)| * 1000⌋ := by
    rw [hy]
    unfold voltdec_of
    simp only []
    generalize (v - (c_trunc v : ℚ)) * 1000 = y
    unfold c_trunc
    by_cases h0 : 0 ≤ y
    · rw [if_pos h0, abs_of_nonneg h0]
      have : (0 : Int) ≤ ⌊y⌋ := Int.floor_nonneg.mpr h0
      split <;> omega
    · rw [if_neg h0]
      have hneg : y < 0 := lt_of_not_ge h0
      rw [abs_of_neg hneg, Int.floor_neg]
      have : ⌈y⌉ ≤ 0 := Int.ceil_le.mpr (by push_cast; exact le_of_lt hneg)
      split <;> omega
  refine ⟨key, ?_, ?_⟩
  · rw [key]
    exact Int.floor_nonneg.mpr (mul_nonneg (abs_nonneg _) (by norm_num))
  · rw [key]
    have : ⌊|v - (c_trunc v : ℚ)| * 1000⌋ < 1000 := by
      rw [Int.floor_lt]
      push_cast
      linarith
    omega

/-- C16 (as stated, refuted): with the conversion register holding 0xFFFF at gain 6.144V,
`read` returns the voltage -0.1875, the fraction 187 and the raw value 65535; the raw
value is not in [-32768, 32767] and the voltage is not the raw value times the LSB size. -/
theorem C16_raw_value_unsigned :
    (world_negative.ads_ctrl_table (table_idx (uint8_t_cast (luaL_checkinteger args_addr 1)))
      = some (setup_defaults 0x48 115) ∧
     (setup_defaults 0x48 115).gain = ADS1115_PGA_6_144V) ∧
    (ads1115_lua_read world_negative args_addr).1
      = Except.ok [LuaPushed.pushnumber (-0.1875), LuaPushed.pushinteger 187,
          LuaPushed.pushinteger 65535] ∧
    ¬ ((65535 : Int) ≤ 32767) ∧
    (-0.1875 : ℚ) ≠ (65535 : ℚ) * lsb_size ADS1115_PGA_6_144V := by
  have e1 : get_volt 0 65535 = -0.1875 := by norm_num [get_volt, int16_t_cast]
  have e2 : voltdec_of (-0.1875 : ℚ) = 187 := by decide!
  refine ⟨⟨rfl, rfl⟩, ?_, by decide, by norm_num [lsb_size]⟩
  rw [read_result world_negative args_addr (setup_defaults 0x48 115) rfl (by decide) rfl]
  have e0 : (read_reg world_negative (uint8_t_cast (luaL_checkinteger args_addr 1))
      ADS1115_POINTER_CONVERSION).1 = 65535 := rfl
  have e3 : (setup_defaults 0x48 115).gain = 0 := rfl
  simp only [e0, e3, e1, e2, Nat.cast_ofNat]

/-- C16 (amended): on an initialised device, `read` returns the voltage, the fraction and
the raw value, where the raw value is the unsigned 16-bit content of the conversion
register (below 65536) and the voltage is that content read as a signed two's-complement
code (in [-32768, 32767]) times the LSB size of the gain of the record; the values handed
to the callback by the timer callback stand in the same relation. -/
theorem C16_voltage_of_signed_code (w : World) (L : List LuaValue) (r : ads_ctrl_struct_t)
    (h1 : lua_isnumber L 1 = true)
    (hv : IS_I2C_ADDR_VALID (uint8_t_cast (luaL_checkinteger L 1)) = true)
    (hrec : w.ads_ctrl_table (table_idx (uint8_t_cast (luaL_checkinteger L 1))) = some r) :
    (∃ raw : Nat,
      raw = (read_reg w (uint8_t_cast (luaL_checkinteger L 1)) ADS1115_POINTER_CONVERSION).1 ∧
      raw < 65536 ∧ -32768 ≤ signed_code raw ∧ signed_code raw ≤ 32767 ∧
      (ads1115_lua_read w L).1 = Except.ok
        [LuaPushed.pushnumber ((signed_code raw : ℚ) * lsb_size r.gain),
         LuaPushed.pushinteger (voltdec_of ((signed_code raw : ℚ) * lsb_size r.gain)),
         LuaPushed.pushinteger raw]) ∧
    (∃ raw : Nat,
      raw = (read_reg w r.addr ADS1115_POINTER_CONVERSION).1 ∧
      raw < 65536 ∧ -32768 ≤ signed_code raw ∧ signed_code raw ≤ 32767 ∧
      (ads1115_lua_readoutdone w (table_idx (uint8_t_cast (luaL_checkinteger L 1)))).lua_calls
        = w.lua_calls ++ [(lua_rawgeti w r.timer_ref,
          [LuaPushed.pushnumber ((signed_code raw : ℚ) * lsb_size r.gain),
           LuaPushed.pushinteger (voltdec_of ((signed_code raw : ℚ) * lsb_size r.gain)),
           LuaPushed.pushinteger raw])]) := by
  constructor
  · have hlt := read_reg_lt w (uint8_t_cast (luaL_checkinteger L 1)) ADS1115_POINTER_CONVERSION
    refine ⟨_, rfl, hlt, (signed_code_range _ hlt).1, (signed_code_range _ hlt).2, ?_⟩
    rw [read_result w L r h1 hv hrec, get_volt_eq_signed _ _ hlt]
  · have hlt := read_reg_lt w r.addr ADS1115_POINTER_CONVERSION
    refine ⟨_, rfl, hlt, (signed_code_range _ hlt).1, (signed_code_range _ hlt).2, ?_⟩
    rw [readoutdone_calls w _ r hrec, get_volt_eq_signed _ _ hlt]

/-- C16 (amended, instance): `read(0x48)` with the conversion register holding 0xFFFF. -/
theorem C16_voltage_of_signed_code_witness :
    (lua_isnumber args_addr 1 = true ∧
     IS_I2C_ADDR_VALID (uint8_t_cast (luaL_checkinteger args_addr 1)) = true ∧
     world_negative.ads_ctrl_table (table_idx (uint8_t_cast (luaL_checkinteger args_addr 1)))
       = some (setup_defaults 0x48 115)) ∧
    ∃ raw : Nat,
      raw = (read_reg world_negative (uint8_t_cast (luaL_checkinteger args_addr 1))
        ADS1115_POINTER_CONVERSION).1 ∧
      raw < 65536 ∧ -32768 ≤ signed_code raw ∧ signed_code raw ≤ 32767 ∧
      (ads1115_lua_read world_negative args_addr).1 = Except.ok
        [LuaPushed.pushnumber ((signed_code raw : ℚ) * lsb_size (setup_defaults 0x48 115).gain),
         LuaPushed.pushinteger
           (voltdec_of ((signed_code raw : ℚ) * lsb_size (setup_defaults 0x48 115).gain)),
         LuaPushed.pushinteger raw] :=
  ⟨⟨rfl, by decide, rfl⟩,
   (C16_voltage_of_signed_code world_negative args_addr (setup_defaults 0x48 115)
     rfl (by decide) rfl).1⟩

/-- C17: for every gain and every register content, the fraction computed by the module
from the voltage `v = get_volt gain raw` is `floor(|v - trunc v| * 1000)`, trunc rounding
toward zero, and lies in [0, 999]; on an initialised device it is the second value that
`read` returns and the second argument of the Lua call made by the timer callback. -/
theorem C17_fraction_millis (w : World) (L : List LuaValue) (r : ads_ctrl_struct_t)
    (h1 : lua_isnumber L 1 = true)
    (hv : IS_I2C_ADDR_VALID (uint8_t_cast (luaL_checkinteger L 1)) = true)
    (hrec : w.ads_ctrl_table (table_idx (uint8_t_cast (luaL_checkinteger L 1))) = some r) :
    (∀ gain raw : Nat,
      voltdec_of (get_volt gain raw)
        = ⌊|get_volt gain raw - (c_trunc (get_volt gain raw) : ℚ)| * 1000⌋ ∧
      0 ≤ voltdec_of (get_volt gain raw) ∧ voltdec_of (get_volt gain raw) ≤ 999) ∧
    (∃ (v : ℚ) (d : Int) (raw : Nat),
      (ads1115_lua_read w L).1 = Except.ok
        [LuaPushed.pushnumber v, LuaPushed.pushinteger d, LuaPushed.pushinteger raw] ∧
      raw = (read_reg w (uint8_t_cast (luaL_checkinteger L 1)) ADS1115_POINTER_CONVERSION).1 ∧
      v = get_volt r.gain raw ∧
      d = ⌊|v - (c_trunc v : ℚ)| * 1000⌋ ∧ 0 ≤ d ∧ d ≤ 999) ∧
    (∃ (v : ℚ) (d : Int) (raw : Nat),
      (ads1115_lua_readoutdone w (table_idx (uint8_t_cast (luaL_checkinteger L 1)))).lua_calls
        = w.lua_calls ++ [(lua_rawgeti w r.timer_ref,
          [LuaPushed.pushnumber v, LuaPushed.pushinteger d, LuaPushed.pushinteger raw])] ∧
      raw = (read_reg w r.addr ADS1115_POINTER_CONVERSION).1 ∧
      v = get_volt r.gain raw ∧
      d = ⌊|v - (c_trunc v : ℚ)| * 1000⌋ ∧ 0 ≤ d ∧ d ≤ 999) := by
  refine ⟨fun gain raw => voltdec_of_eq _, ?_, ?_⟩
  · refine ⟨_, _, _, by rw [read_result w L r h1 hv hrec], rfl, rfl, ?_⟩
    exact voltdec_of_eq _
  · refine ⟨_, _, _, readoutdone_calls w _ r hrec, rfl, rfl, ?_⟩
    exact voltdec_of_eq _

/-- C17 (instance): `read(0x48)` with the conversion register holding 0xFFFF. -/
theorem C17_fraction_millis_witness :
    (lua_isnumber args_addr 1 = true ∧
     IS_I2C_ADDR_VALID (uint8_t_cast (luaL_checkinteger args_addr 1)) = true ∧
     world_negative.ads_ctrl_table (table_idx (uint8_t_cast (luaL_checkinteger args_addr 1)))
       = some (setup_defaults 0x48 115)) ∧
    ∃ (v : ℚ) (d : Int) (raw : Nat),
      (ads1115_lua_read world_negative args_addr).1 = Except.ok
        [LuaPushed.pushnumber v, LuaPushed.pushinteger d, LuaPushed.pushinteger raw] ∧
      raw = (read_reg world_negative (uint8_t_cast (luaL_checkinteger args_addr 1))
        ADS1115_POINTER_CONVERSION).1 ∧
      v = get_volt (setup_defaults 0x48 115).gain raw ∧
      d = ⌊|v - (c_trunc v : ℚ)| * 1000⌋ ∧ 0 ≤ d ∧ d ≤ 999 :=
  ⟨⟨rfl, by decide, rfl⟩,
   (C17_fraction_millis world_negative args_addr (setup_defaults 0x48 115)
     rfl (by decide) rfl).2.1⟩

/-! ## Further theorems on setting and setup -/

/-- The thresholds that `setting_thresholds` hands on: the converted bounds when the
arguments 7 and 8 are numbers, the unset pair otherwise. -/
theorem setting_thresholds_values (L : List LuaValue) (gain channel lo hi cm : Nat)
    (h : setting_thresholds L gain channel = Except.ok (lo, hi, cm)) :
    if (lua_isnumber L 7 && lua_isnumber L 8) = true then
      int16_t_cast (uint16_t_cast (luaL_checkinteger L 7))
        ≤ int16_t_cast (uint16_t_cast (luaL_checkinteger L 8)) ∧
      ∃ a b : Int,
        get_value gain channel (int16_t_cast (uint16_t_cast (luaL_checkinteger L 7))) = some a ∧
        get_value gain channel (int16_t_cast (uint16_t_cast (luaL_checkinteger L 8))) = some b ∧
        lo = uint16_t_cast a ∧ hi = uint16_t_cast b
    else
      lo = 0x7FFF ∧ hi = 0x8000 := by
  unfold setting_thresholds at h
  split at h
  · rename_i h78
    rw [if_pos h78]
    simp only [] at h
    split at h
    · exact absurd h (by simp)
    · rename_i hle
      refine ⟨not_lt.mp hle, ?_⟩
      split at h
      · exact absurd h (by simp)
      · rename_i a ha
        split at h
        · exact absurd h (by simp)
        · rename_i b hb
          refine ⟨a, b, ha, hb, ?_⟩
          split at h
          · split at h
            · exact absurd h (by simp)
            · simp only [Except.ok.injEq, Prod.mk.injEq] at h
              exact ⟨h.1.symm, h.2.1.symm⟩
          · simp only [Except.ok.injEq, Prod.mk.injEq] at h
            exact ⟨h.1.symm, h.2.1.symm⟩
  · rename_i h78
    rw [if_neg h78]
    simp only [Except.ok.injEq, Prod.mk.injEq] at h
    exact ⟨h.1.symm, h.2.1.symm⟩

theorem setting_thresholds_bad_cmode (L : List LuaValue) (gain channel : Nat)
    (h7 : lua_isnumber L 7 = true) (h8 : lua_isnumber L 8 = true)
    (hle : int16_t_cast (uint16_t_cast (luaL_checkinteger L 7))
        ≤ int16_t_cast (uint16_t_cast (luaL_checkinteger L 8)))
    (hlo : get_value gain channel (int16_t_cast (uint16_t_cast (luaL_checkinteger L 7)))
        ≠ none)
    (hhi : get_value gain channel (int16_t_cast (uint16_t_cast (luaL_checkinteger L 8)))
        ≠ none)
    (h9 : lua_isnumber L 9 = true)
    (hbad : uint16_t_cast (luaL_checkinteger L 9) ≠ ADS1115_CMODE_WINDOW ∧
      uint16_t_cast (luaL_checkinteger L 9) ≠ ADS1115_CMODE_TRAD) :
    setting_thresholds L gain channel = Except.error "Invalid argument: comparator_mode" := by
  unfold setting_thresholds
  simp only [h7, h8, h9, Bool.and_self, if_true, not_lt.mpr hle, if_false]
  cases ha : get_value gain channel (int16_t_cast (uint16_t_cast (luaL_checkinteger L 7))) with
  | none => exact absurd ha hlo
  | some a =>
    cases hb : get_value gain channel (int16_t_cast (uint16_t_cast (luaL_checkinteger L 8))) with
    | none => exact absurd hb hhi
    | some b =>
      simp only []
      rw [if_pos hbad]

/-- A failing `ads1115_lua_setting` leaves the thresholds, the comparator queue setting,
the cached config word, the address, the chip variant and the timer of the record as they
were. -/
theorem setting_failed_record (w : World) (L : List LuaValue) (r : ads_ctrl_struct_t)
    (hfail : (ads1115_lua_setting w L).1 ≠ Except.ok [])
    (hrec : w.ads_ctrl_table (table_idx (uint8_t_cast (luaL_checkinteger L 1))) = some r) :
    ∃ r' : ads_ctrl_struct_t,
      (ads1115_lua_setting w L).2.ads_ctrl_table
        (table_idx (uint8_t_cast (luaL_checkinteger L 1))) = some r' ∧
      r'.threshold_low = r.threshold_low ∧ r'.threshold_hi = r.threshold_hi ∧
      r'.comp = r.comp ∧ r'.config = r.config ∧ r'.addr = r.addr ∧
      r'.chip_id = r.chip_id ∧ r'.timer = r.timer ∧ r'.timer_ref = r.timer_ref := by
  unfold ads1115_lua_setting at hfail ⊢
  simp only [hrec] at hfail ⊢
  repeat' split
  all_goals first
    | exact ⟨r, hrec, rfl, rfl, rfl, rfl, rfl, rfl, rfl, rfl⟩
    | exact ⟨_, Function.update_same _ _ _, rfl, rfl, rfl, rfl, rfl, rfl, rfl, rfl⟩
    | (exfalso; apply hfail; simp_all [setting_finish_fst])

/-- C18 (as stated, refuted): `setting` with a comparator queue depth and no threshold
bounds succeeds and writes the threshold registers, 0x7FFF to register 0x02 and 0x8000 to
register 0x03, before the config register. -/
theorem C18_thresholds_written_without_bounds :
    (lua_isnumber args_setting_rdy 6 = true ∧ lua_isnumber args_setting_rdy 7 = false ∧
      lua_isnumber args_setting_rdy 8 = false) ∧
    (ads1115_lua_setting world_ready args_setting_rdy).1 = Except.ok [] ∧
    (ads1115_lua_setting world_ready args_setting_rdy).2.i2c_log = world_ready.i2c_log ++
      (write_reg_calls 0x48 ADS1115_POINTER_THRESH_LOW 0x7FFF ++
       (write_reg_calls 0x48 ADS1115_POINTER_THRESH_HI 0x8000 ++
        write_reg_calls 0x48 ADS1115_POINTER_CONFIG 0xC180)) :=
  ⟨⟨rfl, rfl, rfl⟩, rfl, by decide⟩

/-- C18 (amended): a successful `setting` writes the threshold registers (register 0x02,
then register 0x03, both before the config register 0x01) if and only if a comparator
queue depth was supplied; what it writes there are the thresholds it stores in the
record: the converted bounds when bounds were supplied, the unset pair (0x7FFF, 0x8000)
otherwise.  A successful `setting` without comparator queue depth writes only the config
register. -/
theorem C18_threshold_writes_iff_queue (w : World) (L : List LuaValue)
    (hok : (ads1115_lua_setting w L).1 = Except.ok []) :
    ∃ r' : ads_ctrl_struct_t,
      (ads1115_lua_setting w L).2.ads_ctrl_table
        (table_idx (uint8_t_cast (luaL_checkinteger L 1))) = some r' ∧
      (ads1115_lua_setting w L).2.i2c_log = w.i2c_log ++
        ((if lua_isnumber L 6 = true then
            write_reg_calls (uint8_t_cast (luaL_checkinteger L 1)) ADS1115_POINTER_THRESH_LOW
              r'.threshold_low ++
            write_reg_calls (uint8_t_cast (luaL_checkinteger L 1)) ADS1115_POINTER_THRESH_HI
              r'.threshold_hi
          else []) ++
         write_reg_calls (uint8_t_cast (luaL_checkinteger L 1)) ADS1115_POINTER_CONFIG
           r'.config) ∧
      (lua_isnumber L 6 = false ∨
        if (lua_isnumber L 7 && lua_isnumber L 8) = true then
          ∃ a b : Int,
            get_value (uint16_t_cast (luaL_checkinteger L 2))
              (uint16_t_cast (luaL_checkinteger L 4))
              (int16_t_cast (uint16_t_cast (luaL_checkinteger L 7))) = some a ∧
            get_value (uint16_t_cast (luaL_checkinteger L 2))
              (uint16_t_cast (luaL_checkinteger L 4))
              (int16_t_cast (uint16_t_cast (luaL_checkinteger L 8))) = some b ∧
            r'.threshold_low = uint16_t_cast a ∧ r'.threshold_hi = uint16_t_cast b
        else
          r'.threshold_low = 0x7FFF ∧ r'.threshold_hi = 0x8000) := by
  obtain ⟨r, r', cm, -, htab, -, -, -, -, -, -, -, -, -, -, -, -, -, hcase⟩ :=
    setting_ok_inv w L hok
  refine ⟨r', by rw [htab]; simp, ?_, ?_⟩
  · rcases hcase with ⟨h6, -, -, -, -, hlog⟩ | ⟨h6, -, -, -, hlog⟩
    · rw [hlog]; simp [h6]
    · rw [hlog]; simp [h6]
  · rcases hcase with ⟨h6, -⟩ | ⟨-, -, -, hthr, -⟩
    · exact Or.inl h6
    · right
      have h := setting_thresholds_values L _ _ _ _ _ hthr
      split
      · rename_i h78
        rw [if_pos h78] at h
        exact h.2
      · rename_i h78
        rw [if_neg h78] at h
        exact h

/-- C18 (amended, instance): `setting` with a comparator queue depth and no bounds. -/
theorem C18_threshold_writes_iff_queue_witness :
    (ads1115_lua_setting world_ready args_setting_rdy).1 = Except.ok [] ∧
    ∃ r' : ads_ctrl_struct_t,
      (ads1115_lua_setting world_ready args_setting_rdy).2.ads_ctrl_table
        (table_idx (uint8_t_cast (luaL_checkinteger args_setting_rdy 1))) = some r' ∧
      (ads1115_lua_setting world_ready args_setting_rdy).2.i2c_log = world_ready.i2c_log ++
        ((if lua_isnumber args_setting_rdy 6 = true then
            write_reg_calls (uint8_t_cast (luaL_checkinteger args_setting_rdy 1))
              ADS1115_POINTER_THRESH_LOW r'.threshold_low ++
            write_reg_calls (uint8_t_cast (luaL_checkinteger args_setting_rdy 1))
              ADS1115_POINTER_THRESH_HI r'.threshold_hi
          else []) ++
         write_reg_calls (uint8_t_cast (luaL_checkinteger args_setting_rdy 1))
           ADS1115_POINTER_CONFIG r'.config) ∧
      (lua_isnumber args_setting_rdy 6 = false ∨
        if (lua_isnumber args_setting_rdy 7 && lua_isnumber args_setting_rdy 8) = true then
          ∃ a b : Int,
            get_value (uint16_t_cast (luaL_checkinteger args_setting_rdy 2))
              (uint16_t_cast (luaL_checkinteger args_setting_rdy 4))
              (int16_t_cast (uint16_t_cast (luaL_checkinteger args_setting_rdy 7))) = some a ∧
            get_value (uint16_t_cast (luaL_checkinteger args_setting_rdy 2))
              (uint16_t_cast (luaL_checkinteger args_setting_rdy 4))
              (int16_t_cast (uint16_t_cast (luaL_checkinteger args_setting_rdy 8))) = some b ∧
            r'.threshold_low = uint16_t_cast a ∧ r'.threshold_hi = uint16_t_cast b
        else
          r'.threshold_low = 0x7FFF ∧ r'.threshold_hi = 0x8000) :=
  ⟨rfl, C18_threshold_writes_iff_queue world_ready args_setting_rdy rfl⟩

/-- C19 (as stated, refuted): after `setup(0x48, ADS1115)` on the fresh state the record
holds the thresholds (0x8000, 0x7FFF), not the pair (0x7FFF, 0x8000). -/
theorem C19_setup_thresholds_not_unset_pair :
    (ads1115_lua_setup world_fresh args_setup).1 = Except.ok [] ∧
    ∃ r : ads_ctrl_struct_t,
      (ads1115_lua_setup world_fresh args_setup).2.ads_ctrl_table
        (table_idx (uint8_t_cast (luaL_checkinteger args_setup 1))) = some r ∧
      r.threshold_low = 0x8000 ∧ r.threshold_hi = 0x7FFF ∧
      (r.threshold_low, r.threshold_hi) ≠ (0x7FFF, 0x8000) :=
  ⟨rfl, setup_defaults 0x48 115, rfl, rfl, rfl, by decide⟩

/-- C19 (amended): after every successful `setup`, the record holds the thresholds
(0x8000, 0x7FFF); this is not the pair (0x7FFF, 0x8000) that `setting` stores when no
bounds are supplied and that `startread` tests for, and the test of `startread` for the
conversion-ready-pin mode fails on the record. -/
theorem C19_setup_thresholds (w : World) (L : List LuaValue)
    (hok : (ads1115_lua_setup w L).1 = Except.ok []) :
    ∃ r : ads_ctrl_struct_t,
      (ads1115_lua_setup w L).2.ads_ctrl_table
        (table_idx (uint8_t_cast (luaL_checkinteger L 1))) = some r ∧
      r.threshold_low = 0x8000 ∧ r.threshold_hi = 0x7FFF ∧
      (r.threshold_low, r.threshold_hi) ≠ (0x7FFF, 0x8000) ∧
      conversion_ready_mode r = false := by
  obtain ⟨-, hst⟩ := setup_ok_state w L hok
  rw [hst]
  refine ⟨setup_defaults (uint8_t_cast (luaL_checkinteger L 1))
    (uint8_t_cast (luaL_checkinteger L 2)), by simp [World.store], rfl, rfl, ?_, rfl⟩
  show ((0x8000 : Nat), (0x7FFF : Nat)) ≠ (0x7FFF, 0x8000)
  decide

/-- C19 (amended, instance): `setup(0x48, ADS1115)` on the fresh state. -/
theorem C19_setup_thresholds_witness :
    (ads1115_lua_setup world_fresh args_setup).1 = Except.ok [] ∧
    ∃ r : ads_ctrl_struct_t,
      (ads1115_lua_setup world_fresh args_setup).2.ads_ctrl_table
        (table_idx (uint8_t_cast (luaL_checkinteger args_setup 1))) = some r ∧
      r.threshold_low = 0x8000 ∧ r.threshold_hi = 0x7FFF ∧
      (r.threshold_low, r.threshold_hi) ≠ (0x7FFF, 0x8000) ∧
      conversion_ready_mode r = false :=
  ⟨rfl, C19_setup_thresholds world_fresh args_setup rfl⟩

/-- C20 (as stated, refuted): no call of `setting` fails after having made a bus call; in
particular the call with ordered thresholds in range and the comparator mode 5 fails with
"Invalid argument: comparator_mode" and leaves the bus log as it was. -/
theorem C20_no_failure_after_bus_write :
    (¬ ∃ (w : World) (L : List LuaValue),
      (ads1115_lua_setting w L).1 ≠ Except.ok [] ∧
      (ads1115_lua_setting w L).2.i2c_log ≠ w.i2c_log) ∧
    (ads1115_lua_setting world_ready args_setting_bad_cmode).1
      = Except.error "Invalid argument: comparator_mode" ∧
    (ads1115_lua_setting world_ready args_setting_bad_cmode).2.i2c_log
      = world_ready.i2c_log := by
  have e : (ads1115_lua_setting world_ready args_setting_bad_cmode).1
      = Except.error "Invalid argument: comparator_mode" := by
    rw [setting_result world_ready args_setting_bad_cmode (setup_defaults 0x48 115)
      rfl rfl rfl rfl rfl (by decide) rfl]
    rw [setting_thresholds_bad_cmode args_setting_bad_cmode _ _ rfl rfl (by decide)
      (by rw [Ne, get_value_eq_none_iff _ _ _ (by decide)]; decide)
      (by rw [Ne, get_value_eq_none_iff _ _ _ (by decide)]; decide)
      rfl (by decide)]
    rfl
  refine ⟨?_, e, ?_⟩
  · rintro ⟨w, L, hfail, hlog⟩
    exact hlog (setting_failed_log w L hfail)
  · apply setting_failed_log
    rw [e]; simp

/-- C20 (amended): on an initialised device, a call of `setting` with valid gain, sample
rate, channel, mode and comparator queue depth, ordered thresholds in range and an
invalid comparator mode fails with "Invalid argument: comparator_mode", an
invalid-argument error, before any bus call: no threshold register is written, and the
thresholds of the record are as before. -/
theorem C20_bad_comparator_mode_no_write (w : World) (L : List LuaValue)
    (r : ads_ctrl_struct_t)
    (h1 : lua_isnumber L 1 = true) (h2 : lua_isnumber L 2 = true)
    (h3 : lua_isnumber L 3 = true) (h4 : lua_isnumber L 4 = true)
    (h5 : lua_isnumber L 5 = true)
    (hv : IS_I2C_ADDR_VALID (uint8_t_cast (luaL_checkinteger L 1)) = true)
    (hrec : w.ads_ctrl_table (table_idx (uint8_t_cast (luaL_checkinteger L 1))) = some r)
    (hg : uint16_t_cast (luaL_checkinteger L 2) ∈ gain_settings)
    (hs : uint16_t_cast (luaL_checkinteger L 3) ∈ (rate_table r.chip_id).map Prod.fst)
    (hc : uint16_t_cast (luaL_checkinteger L 4) ∈ mux_selectors)
    (hm : uint16_t_cast (luaL_checkinteger L 5) = ADS1115_MODE_SINGLE ∨
      uint16_t_cast (luaL_checkinteger L 5) = ADS1115_MODE_CONTIN)
    (h6 : lua_isnumber L 6 = true)
    (hq : uint16_t_cast (luaL_checkinteger L 6) = ADS1115_CQUE_1CONV ∨
      uint16_t_cast (luaL_checkinteger L 6) = ADS1115_CQUE_2CONV ∨
      uint16_t_cast (luaL_checkinteger L 6) = ADS1115_CQUE_4CONV)
    (h7 : lua_isnumber L 7 = true) (h8 : lua_isnumber L 8 = true)
    (hle : int16_t_cast (uint16_t_cast (luaL_checkinteger L 7))
        ≤ int16_t_cast (uint16_t_cast (luaL_checkinteger L 8)))
    (hlo : get_value (uint16_t_cast (luaL_checkinteger L 2))
        (uint16_t_cast (luaL_checkinteger L 4))
        (int16_t_cast (uint16_t_cast (luaL_checkinteger L 7))) ≠ none)
    (hhi : get_value (uint16_t_cast (luaL_checkinteger L 2))
        (uint16_t_cast (luaL_checkinteger L 4))
        (int16_t_cast (uint16_t_cast (luaL_checkinteger L 8))) ≠ none)
    (h9 : lua_isnumber L 9 = true)
    (hbad : uint16_t_cast (luaL_checkinteger L 9) ≠ ADS1115_CMODE_WINDOW ∧
      uint16_t_cast (luaL_checkinteger L 9) ≠ ADS1115_CMODE_TRAD) :
    (ads1115_lua_setting w L).1 = Except.error "Invalid argument: comparator_mode" ∧
    InvalidArgument (ads1115_lua_setting w L).1 ∧
    (ads1115_lua_setting w L).2.i2c_log = w.i2c_log ∧
    ∃ r' : ads_ctrl_struct_t,
      (ads1115_lua_setting w L).2.ads_ctrl_table
        (table_idx (uint8_t_cast (luaL_checkinteger L 1))) = some r' ∧
      r'.threshold_low = r.threshold_low ∧ r'.threshold_hi = r.threshold_hi := by
  have hres := setting_result w L r h1 h2 h3 h4 h5 hv hrec
  have hch := (channel_check_iff _ (uint16_t_cast_lt _)).mpr hc
  have hsam := (setting_samples_ne_none_iff r.chip_id _).mpr hs
  rw [if_neg (not_not.mpr hg), if_neg hsam, if_neg (by simp [hch]), if_neg (not_not.mpr hm),
    if_neg (by simp [h6]), if_neg (not_not.mpr hq),
    setting_thresholds_bad_cmode L _ _ h7 h8 hle hlo hhi h9 hbad] at hres
  have hfail : (ads1115_lua_setting w L).1 ≠ Except.ok [] := by rw [hres]; simp
  obtain ⟨r', hr', hlo', hhi', -⟩ := setting_failed_record w L r hfail hrec
  refine ⟨hres, ?_, setting_failed_log w L hfail, r', hr', hlo', hhi'⟩
  rw [hres]; simp [InvalidArgument, invalid_argument_messages]

/-- C20 (amended, instance): thresholds -1000 mV and 1000 mV at gain 6.144V on AIN0/AIN1
with the comparator mode 5. -/
theorem C20_bad_comparator_mode_no_write_witness :
    (ads1115_lua_setting world_ready args_setting_bad_cmode).1
      = Except.error "Invalid argument: comparator_mode" ∧
    InvalidArgument (ads1115_lua_setting world_ready args_setting_bad_cmode).1 ∧
    (ads1115_lua_setting world_ready args_setting_bad_cmode).2.i2c_log = world_ready.i2c_log ∧
    ∃ r' : ads_ctrl_struct_t,
      (ads1115_lua_setting world_ready args_setting_bad_cmode).2.ads_ctrl_table
        (table_idx (uint8_t_cast (luaL_checkinteger args_setting_bad_cmode 1))) = some r' ∧
      r'.threshold_low = (setup_defaults 0x48 115).threshold_low ∧
      r'.threshold_hi = (setup_defaults 0x48 115).threshold_hi :=
  C20_bad_comparator_mode_no_write world_ready args_setting_bad_cmode
    (setup_defaults 0x48 115) rfl rfl rfl rfl rfl (by decide) rfl (by decide) (by decide)
    (by decide) (by decide) rfl (by decide) rfl rfl (by decide)
    (by rw [Ne, get_value_eq_none_iff _ _ _ (by decide)]; decide)
    (by rw [Ne, get_value_eq_none_iff _ _ _ (by decide)]; decide)
    rfl (by decide)

/-! ## The record after a failing setting -/

/-- The record that a failing `ads1115_lua_setting` leaves behind on an initialised
device, its five mandatory arguments being numbers: each of gain, sample rate (with its
register bits) and mode has been overwritten if and only if the checks up to and including
its own have passed; every other field and every other slot is as before. -/
theorem setting_failed_state (w : World) (L : List LuaValue) (r : ads_ctrl_struct_t)
    (h1 : lua_isnumber L 1 = true) (h2 : lua_isnumber L 2 = true)
    (h3 : lua_isnumber L 3 = true) (h4 : lua_isnumber L 4 = true)
    (h5 : lua_isnumber L 5 = true)
    (hv : IS_I2C_ADDR_VALID (uint8_t_cast (luaL_checkinteger L 1)) = true)
    (hrec : w.ads_ctrl_table (table_idx (uint8_t_cast (luaL_checkinteger L 1))) = some r)
    (hfail : (ads1115_lua_setting w L).1 ≠ Except.ok []) :
    (ads1115_lua_setting w L).2.ads_ctrl_table =
      Function.update w.ads_ctrl_table (table_idx (uint8_t_cast (luaL_checkinteger L 1)))
        (some { r with
          gain :=
            if uint16_t_cast (luaL_checkinteger L 2) ∈ gain_settings
            then uint16_t_cast (luaL_checkinteger L 2) else r.gain
          samples_value :=
            if uint16_t_cast (luaL_checkinteger L 2) ∈ gain_settings ∧
                setting_samples r.chip_id (uint16_t_cast (luaL_checkinteger L 3)) ≠ none
            then uint16_t_cast (luaL_checkinteger L 3) else r.samples_value
          samples :=
            if uint16_t_cast (luaL_checkinteger L 2) ∈ gain_settings
            then (setting_samples r.chip_id (uint16_t_cast (luaL_checkinteger L 3))).getD
              r.samples
            else r.samples
          mode :=
            if uint16_t_cast (luaL_checkinteger L 2) ∈ gain_settings ∧
                setting_samples r.chip_id (uint16_t_cast (luaL_checkinteger L 3)) ≠ none ∧
                IS_CHANNEL_VALID (uint16_t_cast (luaL_checkinteger L 4)) = true ∧
                (uint16_t_cast (luaL_checkinteger L 5) = ADS1115_MODE_SINGLE ∨
                  uint16_t_cast (luaL_checkinteger L 5) = ADS1115_MODE_CONTIN)
            then uint16_t_cast (luaL_checkinteger L 5) else r.mode }) := by
  have hv' : (!IS_I2C_ADDR_VALID (uint8_t_cast (luaL_checkinteger L 1))) = false := by
    rw [hv]; rfl
  have hself : Function.update w.ads_ctrl_table
      (table_idx (uint8_t_cast (luaL_checkinteger L 1))) (some r) = w.ads_ctrl_table := by
    rw [← hrec]; exact Function.update_eq_self _ _
  unfold ads1115_lua_setting at hfail ⊢
  simp only [h1, h2, h3, h4, h5, hv', hrec, Bool.not_true, Bool.or_self, Bool.false_eq_true,
    if_false] at hfail ⊢
  by_cases c1 : (uint16_t_cast (luaL_checkinteger L 2) == ADS1115_PGA_6_144V
      || uint16_t_cast (luaL_checkinteger L 2) == ADS1115_PGA_4_096V
      || uint16_t_cast (luaL_checkinteger L 2) == ADS1115_PGA_2_048V
      || uint16_t_cast (luaL_checkinteger L 2) == ADS1115_PGA_1_024V
      || uint16_t_cast (luaL_checkinteger L 2) == ADS1115_PGA_0_512V
      || uint16_t_cast (luaL_checkinteger L 2) == ADS1115_PGA_0_256V) = true
  swap
  · have hg : uint16_t_cast (luaL_checkinteger L 2) ∉ gain_settings :=
      fun h => c1 ((gain_check_iff _).mpr h)
    have c1' := Bool.eq_false_iff.mpr c1
    simp only [c1', Bool.not_false, if_true, hg, false_and, if_false]
    exact hself.symm
  have hg : uint16_t_cast (luaL_checkinteger L 2) ∈ gain_settings := (gain_check_iff _).mp c1
  simp only [c1, Bool.not_true, Bool.false_eq_true, if_false, hg, true_and, if_true]
    at hfail ⊢
  cases hsam : setting_samples r.chip_id (uint16_t_cast (luaL_checkinteger L 3)) with
  | none =>
    simp [World.store]
  | some bits =>
  simp only [hsam] at hfail
  simp only [reduceCtorEq, not_false_eq_true, true_and, if_true, Option.getD_some, ne_eq]
  cases c3 : IS_CHANNEL_VALID (uint16_t_cast (luaL_checkinteger L 4)) with
  | false =>
    simp [World.store]
  | true =>
  simp only [c3, Bool.not_true, Bool.false_eq_true, if_false] at hfail
  simp only [Bool.not_true, Bool.false_eq_true, if_false, true_and]
  by_cases c4 : (uint16_t_cast (luaL_checkinteger L 5) == ADS1115_MODE_SINGLE
      || uint16_t_cast (luaL_checkinteger L 5) == ADS1115_MODE_CONTIN) = true
  swap
  · have hm : ¬ (uint16_t_cast (luaL_checkinteger L 5) = ADS1115_MODE_SINGLE ∨
        uint16_t_cast (luaL_checkinteger L 5) = ADS1115_MODE_CONTIN) :=
      fun h => c4 ((mode_check_iff _).mpr h)
    have c4' := Bool.eq_false_iff.mpr c4
    simp only [c4', Bool.not_false, if_true, hm, if_false]
    simp [World.store]
  have hm := (mode_check_iff _).mp c4
  simp only [c4, Bool.not_true, Bool.false_eq_true, if_false] at hfail
  simp only [c4, Bool.not_true, Bool.false_eq_true, if_false, hm, if_true]
  cases c5 : lua_isnumber L 6 with
  | false =>
    simp only [c5, Bool.false_eq_true, if_false] at hfail
    exact absurd rfl hfail
  | true =>
  simp only [c5, if_true] at hfail
  simp only [if_true]
  by_cases c6 : (uint16_t_cast (luaL_checkinteger L 6) == ADS1115_CQUE_1CONV
      || uint16_t_cast (luaL_checkinteger L 6) == ADS1115_CQUE_2CONV
      || uint16_t_cast (luaL_checkinteger L 6) == ADS1115_CQUE_4CONV) = true
  swap
  · have c6' := Bool.eq_false_iff.mpr c6
    simp [c6', World.store]
  simp only [c6, Bool.not_true, Bool.false_eq_true, if_false] at hfail
  simp only [c6, Bool.not_true, Bool.false_eq_true, if_false]
  cases hthr : setting_thresholds L (uint16_t_cast (luaL_checkinteger L 2))
      (uint16_t_cast (luaL_checkinteger L 4)) with
  | error msg => simp [World.store]
  | ok t =>
    simp only [hthr] at hfail
    exact absurd rfl hfail

/-- A call of `ads1115_lua_setting` that fails before it has looked up the record (an
argument among the first five is no number, the address is invalid, or the slot is empty)
leaves the whole state as it was. -/
theorem setting_failed_early (w : World) (L : List LuaValue)
    (h : (lua_isnumber L 1 && lua_isnumber L 2 && lua_isnumber L 3 && lua_isnumber L 4
          && lua_isnumber L 5 && IS_I2C_ADDR_VALID (uint8_t_cast (luaL_checkinteger L 1)))
          = false ∨
        w.ads_ctrl_table (table_idx (uint8_t_cast (luaL_checkinteger L 1))) = none) :
    (ads1115_lua_setting w L).2 = w := by
  unfold ads1115_lua_setting
  rcases h with h | h
  · by_cases c1 : (!lua_isnumber L 1 || !lua_isnumber L 2 || !lua_isnumber L 3
        || !lua_isnumber L 4 || !lua_isnumber L 5) = true
    · simp only [c1, if_true]
    · by_cases c2 : (!IS_I2C_ADDR_VALID (uint8_t_cast (luaL_checkinteger L 1))) = true
      · simp [c1, c2]
      · exfalso
        simp only [Bool.or_eq_true, Bool.not_eq_true', not_or, Bool.not_eq_false] at c1 c2
        obtain ⟨⟨⟨⟨a1, a2⟩, a3⟩, a4⟩, a5⟩ := c1
        simp [a1, a2, a3, a4, a5, c2] at h
  · simp only [h]
    repeat' split
    all_goals rfl

/-- C21 (as stated, refuted): on the record stored by `setup(0x48, ADS1115)`, the call
`setting(0x48, GAIN_4_096V, 7, SINGLE_0, SINGLE_SHOT)` fails with
"Invalid argument: samples", an invalid-argument error, and yet the record's gain has
changed from `ADS1115_PGA_6_144V` to `ADS1115_PGA_4_096V`: the record is not left
unchanged. -/
theorem C21_failed_setting_changes_gain :
    (ads1115_lua_setting world_ready args_setting_bad_samples).1
      = Except.error "Invalid argument: samples" ∧
    InvalidArgument (ads1115_lua_setting world_ready args_setting_bad_samples).1 ∧
    ∃ r r' : ads_ctrl_struct_t,
      world_ready.ads_ctrl_table (table_idx 0x48) = some r ∧
      (ads1115_lua_setting world_ready args_setting_bad_samples).2.ads_ctrl_table
        (table_idx 0x48) = some r' ∧
      r.gain = ADS1115_PGA_6_144V ∧ r'.gain = ADS1115_PGA_4_096V ∧ r'.gain ≠ r.gain :=
  ⟨rfl,
    (by
      show "Invalid argument: samples" ∈ invalid_argument_messages
      simp [invalid_argument_messages]),
    setup_defaults 0x48 115,
    ({ setup_defaults 0x48 115 with
       gain := ADS1115_PGA_4_096V } : ads_ctrl_struct_t),
    rfl, rfl, rfl, rfl, by decide⟩

/-- C21 (amended): whenever `setting` fails, it has made no bus call.  If it fails before
the record is looked up (one of the first five arguments is no number, the address is
invalid, or the device was never set up), the whole state is as before.  If it fails on an
initialised device, the record keeps its comparator queue, thresholds, cached config word,
address, chip variant and timer, and every other slot is untouched; the gain is
overwritten with the requested gain exactly when the gain check passed, the sample rate
and its register bits exactly when the gain and rate checks passed, and the mode exactly
when the gain, rate, channel and mode checks passed. -/
theorem C21_failed_setting_record (w : World) (L : List LuaValue)
    (hfail : (ads1115_lua_setting w L).1 ≠ Except.ok []) :
    (ads1115_lua_setting w L).2.i2c_log = w.i2c_log ∧
    (((lua_isnumber L 1 && lua_isnumber L 2 && lua_isnumber L 3 && lua_isnumber L 4
          && lua_isnumber L 5 && IS_I2C_ADDR_VALID (uint8_t_cast (luaL_checkinteger L 1)))
          = false ∨
        w.ads_ctrl_table (table_idx (uint8_t_cast (luaL_checkinteger L 1))) = none) →
      (ads1115_lua_setting w L).2 = w) ∧
    ∀ r : ads_ctrl_struct_t,
      (lua_isnumber L 1 && lua_isnumber L 2 && lua_isnumber L 3 && lua_isnumber L 4
          && lua_isnumber L 5 && IS_I2C_ADDR_VALID (uint8_t_cast (luaL_checkinteger L 1)))
          = true →
      w.ads_ctrl_table (table_idx (uint8_t_cast (luaL_checkinteger L 1))) = some r →
      (ads1115_lua_setting w L).2.ads_ctrl_table =
        Function.update w.ads_ctrl_table (table_idx (uint8_t_cast (luaL_checkinteger L 1)))
          (some { r with
            gain :=
              if uint16_t_cast (luaL_checkinteger L 2) ∈ gain_settings
              then uint16_t_cast (luaL_checkinteger L 2) else r.gain
            samples_value :=
              if uint16_t_cast (luaL_checkinteger L 2) ∈ gain_settings ∧
                  setting_samples r.chip_id (uint16_t_cast (luaL_checkinteger L 3)) ≠ none
              then uint16_t_cast (luaL_checkinteger L 3) else r.samples_value
            samples :=
              if uint16_t_cast (luaL_checkinteger L 2) ∈ gain_settings
              then (setting_samples r.chip_id (uint16_t_cast (luaL_checkinteger L 3))).getD
                r.samples
              else r.samples
            mode :=
              if uint16_t_cast (luaL_checkinteger L 2) ∈ gain_settings ∧
                  setting_samples r.chip_id (uint16_t_cast (luaL_checkinteger L 3)) ≠ none ∧
                  IS_CHANNEL_VALID (uint16_t_cast (luaL_checkinteger L 4)) = true ∧
                  (uint16_t_cast (luaL_checkinteger L 5) = ADS1115_MODE_SINGLE ∨
                    uint16_t_cast (luaL_checkinteger L 5) = ADS1115_MODE_CONTIN)
              then uint16_t_cast (luaL_checkinteger L 5) else r.mode }) := by
  refine ⟨setting_failed_log w L hfail, setting_failed_early w L, ?_⟩
  intro r hnum hrec
  simp only [Bool.and_eq_true] at hnum
  obtain ⟨⟨⟨⟨⟨h1, h2⟩, h3⟩, h4⟩, h5⟩, hv⟩ := hnum
  exact setting_failed_state w L r h1 h2 h3 h4 h5 hv hrec hfail

/-- C21 (amended, instance): `setting(0x48, GAIN_4_096V, 7, SINGLE_0, SINGLE_SHOT)` after
setup fails; of the record only the gain has changed. -/
theorem C21_failed_setting_record_witness :
    (ads1115_lua_setting world_ready args_setting_bad_samples).1 ≠ Except.ok [] ∧
    (lua_isnumber args_setting_bad_samples 1 && lua_isnumber args_setting_bad_samples 2
      && lua_isnumber args_setting_bad_samples 3 && lua_isnumber args_setting_bad_samples 4
      && lua_isnumber args_setting_bad_samples 5
      && IS_I2C_ADDR_VALID (uint8_t_cast (luaL_checkinteger args_setting_bad_samples 1)))
      = true ∧
    world_ready.ads_ctrl_table
      (table_idx (uint8_t_cast (luaL_checkinteger args_setting_bad_samples 1)))
      = some (setup_defaults 0x48 115) ∧
    (ads1115_lua_setting world_ready args_setting_bad_samples).2.i2c_log
      = world_ready.i2c_log ∧
    (ads1115_lua_setting world_ready args_setting_bad_samples).2.ads_ctrl_table =
      Function.update world_ready.ads_ctrl_table
        (table_idx (uint8_t_cast (luaL_checkinteger args_setting_bad_samples 1)))
        (some { setup_defaults 0x48 115 with
          gain := ADS1115_PGA_4_096V }) :=
  have h := C21_failed_setting_record world_ready args_setting_bad_samples
    (fun h => Except.noConfusion h)
  ⟨fun h => Except.noConfusion h, by decide, rfl, h.1,
    (h.2.2 (setup_defaults 0x48 115) (by decide) rfl).trans (by
      congr 2)⟩

/-! ## The cached config word and the fields of the record -/

/-- After every successful `ads1115_lua_setting` the cached config word encodes the
record's own gain, mode, sample-rate bits and comparator queue. -/
theorem setting_config_encodes_record (w : World) (L : List LuaValue)
    (hok : (ads1115_lua_setting w L).1 = Except.ok []) :
    ∃ r' : ads_ctrl_struct_t,
      (ads1115_lua_setting w L).2.ads_ctrl_table
        (table_idx (uint8_t_cast (luaL_checkinteger L 1))) = some r' ∧
      r'.config &&& ADS1115_PGA_MASK = r'.gain ∧
      r'.config &&& ADS1115_MODE_MASK = r'.mode ∧
      r'.config &&& ADS1115_DR_MASK = r'.samples ∧
      r'.config &&& ADS1115_CQUE_MASK = r'.comp := by
  obtain ⟨r, r', cm, hr, htab, -, hg, hs, hc, hm, -, hchip, -, -, hgain, -, hmode, hcfg,
    hcase⟩ := setting_ok_inv w L hok
  have hch := channel_check_mem _ (uint16_t_cast_lt _) hc
  have hbits := setting_samples_bits _ _ _ hs
  have hm' : uint16_t_cast (luaL_checkinteger L 5) ∈
      [ADS1115_MODE_SINGLE, ADS1115_MODE_CONTIN] := by
    simpa using hm
  have hcq : cm ∈ [ADS1115_CMODE_TRAD, ADS1115_CMODE_WINDOW] ∧
      r'.comp ∈ [ADS1115_CQUE_1CONV, ADS1115_CQUE_2CONV, ADS1115_CQUE_4CONV,
        ADS1115_CQUE_NONE] := by
    rcases hcase with ⟨-, hq, hcm, -, -, -⟩ | ⟨-, -, hqv, hthr, -⟩
    · exact ⟨by simp [hcm], by simp [hq]⟩
    · obtain ⟨-, e2⟩ := setting_thresholds_cmode L _ _ _ _ _ hthr
      refine ⟨by simpa using e2, ?_⟩
      rcases hqv with h | h | h <;> simp [h]
  obtain ⟨f0, -, -, f3, f4, f5, -, -, f8⟩ :=
    config_fields _ hm' _ hch _ hg _ hbits _ hcq.1 _ hcq.2
  rw [f0] at hcfg
  rw [← hcfg] at f3 f4 f5 f8
  exact ⟨r', by rw [htab]; simp, by rw [f3, hgain], by rw [f4, hmode], f5, f8⟩

/-- C22: `setup(0x48, ADS1115)` against a device that answers the config read with its
reset value 0x8583 succeeds and stores the gain `ADS1115_PGA_6_144V` (0x0000) together
with the cached config word 0x8583, whose gain field is `ADS1115_PGA_2_048V` (0x0400):
the cached word does not encode the record's gain, and the scale `get_volt` applies to a
conversion (0.1875 mV per code) is not the one of the gain in the cached word (0.0625 mV
per code).  The mode, sample-rate and comparator-queue fields of the word do equal the
record's. -/
theorem C22_setup_config_gain_mismatch :
    (ads1115_lua_setup world_fresh args_setup).1 = Except.ok [] ∧
    ∃ r : ads_ctrl_struct_t,
      (ads1115_lua_setup world_fresh args_setup).2.ads_ctrl_table (table_idx 0x48) = some r ∧
      r.config = ADS1115_DEFAULT_CONFIG_REG ∧
      r.gain = ADS1115_PGA_6_144V ∧
      r.config &&& ADS1115_PGA_MASK = ADS1115_PGA_2_048V ∧
      r.config &&& ADS1115_PGA_MASK ≠ r.gain ∧
      r.config &&& ADS1115_MODE_MASK = r.mode ∧
      r.config &&& ADS1115_DR_MASK = r.samples ∧
      r.config &&& ADS1115_CQUE_MASK = r.comp ∧
      get_volt r.gain 1 ≠ get_volt (r.config &&& ADS1115_PGA_MASK) 1 :=
  ⟨rfl, setup_defaults 0x48 115, rfl, rfl, rfl, by decide, by decide, by decide, by decide,
    by decide, by decide!⟩

/-! ## Monotonicity of the threshold conversion -/

theorem c_trunc_mono (p q : ℚ) (h : p ≤ q) : c_trunc p ≤ c_trunc q := by
  unfold c_trunc
  by_cases hp : 0 ≤ p
  · rw [if_pos hp, if_pos (le_trans hp h)]
    exact Int.floor_le_floor h
  · rw [if_neg hp]
    by_cases hq : 0 ≤ q
    · rw [if_pos hq]
      have h1 : ⌈p⌉ ≤ 0 := Int.ceil_le.mpr (by push_cast; exact le_of_lt (not_le.mp hp))
      have h2 : (0 : Int) ≤ ⌊q⌋ := Int.floor_nonneg.mpr hq
      omega
    · rw [if_neg hq]
      exact Int.ceil_le_ceil h

/-- An accepted millivolt value is converted to the truncated quotient, a code in the
`int16_t` range. -/
theorem get_value_case_some (fs : Int) (lsb : ℚ) (channel : Nat) (volt a : Int)
    (hlsb : 0 < lsb) (hfs : (fs : ℚ) = 32768 * lsb)
    (ha : get_value_case fs lsb channel volt = some a) :
    a = c_trunc ((volt : ℚ) / lsb) ∧ -32768 ≤ a ∧ a ≤ 32767 := by
  have hn : ¬ (volt ≥ fs ∨ volt < -fs ∨ (volt < 0 ∧ channel >>> 14 ≠ 0)) := by
    rw [← get_value_case_eq_none_iff fs lsb channel volt, ha]
    simp
  have h1 : -fs ≤ volt := by
    by_contra h; exact hn (Or.inr (Or.inl (by omega)))
  have h2 : volt < fs := by
    by_contra h; exact hn (Or.inl (by omega))
  have h3 : volt < 0 → channel >>> 14 = 0 := by
    intro h; by_contra h'; exact hn (Or.inr (Or.inr ⟨h, h'⟩))
  obtain ⟨e, b1, b2, -⟩ := get_value_case_accept fs lsb channel volt hlsb hfs h1 h2 h3
  rw [e] at ha
  have := Option.some.inj ha
  subst this
  exact ⟨rfl, b1, b2⟩

theorem get_value_case_mono (fs : Int) (lsb : ℚ) (channel : Nat) (v1 v2 a b : Int)
    (hlsb : 0 < lsb) (hfs : (fs : ℚ) = 32768 * lsb) (h : v1 ≤ v2)
    (ha : get_value_case fs lsb channel v1 = some a)
    (hb : get_value_case fs lsb channel v2 = some b) : a ≤ b := by
  obtain ⟨ea, -, -⟩ := get_value_case_some fs lsb channel v1 a hlsb hfs ha
  obtain ⟨eb, -, -⟩ := get_value_case_some fs lsb channel v2 b hlsb hfs hb
  rw [ea, eb]
  apply c_trunc_mono
  exact div_le_div_of_nonneg_right (by exact_mod_cast h) (le_of_lt hlsb)

/-- Function `get_value` is monotone in the millivolt value, for every gain and channel. -/
theorem get_value_mono (gain channel : Nat) (v1 v2 a b : Int) (h : v1 ≤ v2)
    (ha : get_value gain channel v1 = some a) (hb : get_value gain channel v2 = some b) :
    a ≤ b := by
  unfold get_value at ha hb
  by_cases g1 : gain = ADS1115_PGA_6_144V
  · rw [if_pos g1] at ha hb
    exact get_value_case_mono _ _ _ _ _ _ _ (by norm_num) (by norm_num) h ha hb
  rw [if_neg g1] at ha hb
  by_cases g2 : gain = ADS1115_PGA_4_096V
  · rw [if_pos g2] at ha hb
    exact get_value_case_mono _ _ _ _ _ _ _ (by norm_num) (by norm_num) h ha hb
  rw [if_neg g2] at ha hb
  by_cases g3 : gain = ADS1115_PGA_2_048V
  · rw [if_pos g3] at ha hb
    exact get_value_case_mono _ _ _ _ _ _ _ (by norm_num) (by norm_num) h ha hb
  rw [if_neg g3] at ha hb
  by_cases g4 : gain = ADS1115_PGA_1_024V
  · rw [if_pos g4] at ha hb
    exact get_value_case_mono _ _ _ _ _ _ _ (by norm_num) (by norm_num) h ha hb
  rw [if_neg g4] at ha hb
  by_cases g5 : gain = ADS1115_PGA_0_512V
  · rw [if_pos g5] at ha hb
    exact get_value_case_mono _ _ _ _ _ _ _ (by norm_num) (by norm_num) h ha hb
  rw [if_neg g5] at ha hb
  by_cases g6 : gain = ADS1115_PGA_0_256V
  · rw [if_pos g6] at ha hb
    exact get_value_case_mono _ _ _ _ _ _ _ (by norm_num) (by norm_num) h ha hb
  rw [if_neg g6] at ha hb
  have e1 := Option.some.inj ha
  have e2 := Option.some.inj hb
  omega

/-- For one of the six gain settings, an accepted value is converted to a code in the
`int16_t` range. -/
theorem get_value_range (gain channel : Nat) (v a : Int) (hg : gain ∈ gain_settings)
    (ha : get_value gain channel v = some a) : -32768 ≤ a ∧ a ≤ 32767 := by
  simp only [gain_settings, List.mem_cons, List.mem_singleton, List.not_mem_nil, or_false] at hg
  unfold get_value at ha
  rcases hg with h | h | h | h | h | h <;> subst h <;>
    simp only [reduceCtorEq, if_true, if_false, OfNat.ofNat_ne_zero, Nat.reduceEqDiff] at ha <;>
    exact (get_value_case_some _ _ _ _ _ (by norm_num) (by norm_num) ha).2

/-- A record whose thresholds are ordered as signed 16-bit values does not hold the unset
pair, so `ads1115_lua_startread` does not take it for the conversion-ready-pin mode. -/
theorem conversion_ready_mode_ordered (r : ads_ctrl_struct_t)
    (h : int16_t_cast (r.threshold_low : Int) ≤ int16_t_cast (r.threshold_hi : Int)) :
    (r.threshold_low, r.threshold_hi) ≠ (0x7FFF, 0x8000) ∧ conversion_ready_mode r = false := by
  have hne : ¬ (r.threshold_low = 0x7FFF ∧ r.threshold_hi = 0x8000) := by
    rintro ⟨h1, h2⟩
    rw [h1, h2] at h
    revert h
    decide
  constructor
  · intro he
    exact hne ⟨congrArg Prod.fst he, congrArg Prod.snd he⟩
  · unfold conversion_ready_mode
    by_cases h1 : r.threshold_low = 0x7FFF
    · have h2 : ¬ r.threshold_hi = 0x8000 := fun h2 => hne ⟨h1, h2⟩
      simp [h2]
    · simp [h1]

/-- C23: `get_value` is monotone in the millivolt value for a fixed gain and channel.
After every successful `setting` whose arguments 6, 7 and 8 are numbers (a comparator
queue depth with explicit bounds), the bounds passed were ordered, the stored threshold
codes are the converted bounds and satisfy `threshold_low <= threshold_hi` as signed
16-bit values, and the stored pair is not the unset pair (0x7FFF, 0x8000).  A later
`startread` on a record with these thresholds takes the callback and timer path: with a
function as second argument it returns nothing, keeps the function as pending callback and
arms the timer; without one it fails with "Must be function" and changes nothing; it
never returns the time stamp of the conversion-ready-pin path. -/
theorem C23_thresholds_ordered :
    (∀ (gain channel : Nat) (v1 v2 a b : Int), v1 ≤ v2 →
      get_value gain channel v1 = some a → get_value gain channel v2 = some b → a ≤ b) ∧
    (∀ (w : World) (L : List LuaValue),
      (ads1115_lua_setting w L).1 = Except.ok [] →
      lua_isnumber L 6 = true → lua_isnumber L 7 = true → lua_isnumber L 8 = true →
      int16_t_cast (uint16_t_cast (luaL_checkinteger L 7))
        ≤ int16_t_cast (uint16_t_cast (luaL_checkinteger L 8)) ∧
      ∃ r' : ads_ctrl_struct_t,
        (ads1115_lua_setting w L).2.ads_ctrl_table
          (table_idx (uint8_t_cast (luaL_checkinteger L 1))) = some r' ∧
        get_value r'.gain (uint16_t_cast (luaL_checkinteger L 4))
            (int16_t_cast (uint16_t_cast (luaL_checkinteger L 7)))
          = some (int16_t_cast (r'.threshold_low : Int)) ∧
        get_value r'.gain (uint16_t_cast (luaL_checkinteger L 4))
            (int16_t_cast (uint16_t_cast (luaL_checkinteger L 8)))
          = some (int16_t_cast (r'.threshold_hi : Int)) ∧
        int16_t_cast (r'.threshold_low : Int) ≤ int16_t_cast (r'.threshold_hi : Int) ∧
        (r'.threshold_low, r'.threshold_hi) ≠ (0x7FFF, 0x8000) ∧
        conversion_ready_mode r' = false ∧
        ∀ (w2 : World) (L2 : List LuaValue) (r2 : ads_ctrl_struct_t),
          lua_isnumber L2 1 = true →
          IS_I2C_ADDR_VALID (uint8_t_cast (luaL_checkinteger L2 1)) = true →
          w2.ads_ctrl_table (table_idx (uint8_t_cast (luaL_checkinteger L2 1))) = some r2 →
          r2.threshold_low = r'.threshold_low → r2.threshold_hi = r'.threshold_hi →
          if is_callback (L2.getD 1 LuaValue.nil) = true then
            (ads1115_lua_startread w2 L2).1 = Except.ok [] ∧
            ∃ r3 : ads_ctrl_struct_t,
              (ads1115_lua_startread w2 L2).2.ads_ctrl_table
                (table_idx (uint8_t_cast (luaL_checkinteger L2 1))) = some r3 ∧
              lua_rawgeti (ads1115_lua_startread w2 L2).2 r3.timer_ref
                = L2.getD 1 LuaValue.nil ∧
              r3.timer.armed = true ∧ r3.timer.fn_set = true ∧
              r3.timer.msec = startread_msec r2.samples_value
          else
            ads1115_lua_startread w2 L2 = (Except.error "Must be function", w2)) := by
  refine ⟨get_value_mono, ?_⟩
  intro w L hok h6 h7 h8
  obtain ⟨r, r', cm, hr, htab, -, hg, -, -, -, -, -, -, -, hgain, -, -, -, hcase⟩ :=
    setting_ok_inv w L hok
  rcases hcase with ⟨h6', -⟩ | ⟨-, -, -, hthr, -⟩
  · rw [h6] at h6'
    exact absurd h6' (by decide)
  have hv := setting_thresholds_values L _ _ _ _ _ hthr
  rw [h7, h8] at hv
  simp only [Bool.and_self, if_true] at hv
  obtain ⟨hle, a, b, ha, hb, hlo, hhi⟩ := hv
  have hab := get_value_mono _ _ _ _ _ _ hle ha hb
  obtain ⟨a1, a2⟩ := get_value_range _ _ _ _ hg ha
  obtain ⟨b1, b2⟩ := get_value_range _ _ _ _ hg hb
  have ea : int16_t_cast (r'.threshold_low : Int) = a := by
    rw [hlo]; exact int16_t_cast_uint16_t_cast a a1 a2
  have eb : int16_t_cast (r'.threshold_hi : Int) = b := by
    rw [hhi]; exact int16_t_cast_uint16_t_cast b b1 b2
  have hord : int16_t_cast (r'.threshold_low : Int) ≤ int16_t_cast (r'.threshold_hi : Int) := by
    rw [ea, eb]; exact hab
  obtain ⟨hne, hmode⟩ := conversion_ready_mode_ordered r' hord
  refine ⟨hle, r', by rw [htab]; simp, by rw [hgain, ea]; exact ha, by rw [hgain, eb]; exact hb,
    hord, hne, hmode, ?_⟩
  intro w2 L2 r2 k1 kv krec klo khi
  have hord2 : int16_t_cast (r2.threshold_low : Int) ≤ int16_t_cast (r2.threshold_hi : Int) := by
    rw [klo, khi]; exact hord
  have hmode2 := (conversion_ready_mode_ordered r2 hord2).2
  split
  · rename_i hcb
    rw [startread_polling w2 L2 r2 k1 kv krec hmode2 hcb]
    refine ⟨rfl, ({ r2 with
        timer_ref := (luaL_ref w2 (L2.getD 1 LuaValue.nil)).1
        timer := { armed := true, msec := startread_msec r2.samples_value,
                   repeat_flag := 0, fn_set := true } } : ads_ctrl_struct_t),
      by simp, ?_, rfl, rfl, rfl⟩
    simp only [lua_rawgeti]
    rw [registry_find_fresh _ _ _ (luaL_ref_fresh w2 (L2.getD 1 LuaValue.nil))]
  · rename_i hcb
    have hcb' : is_callback (L2.getD 1 LuaValue.nil) = false := by simpa using hcb
    exact startread_polling_no_callback w2 L2 r2 k1 kv krec hmode2 hcb'

/-- C23 (instance): at gain 6.144V on the differential input AIN0-AIN1 the bounds -1000 mV
and 1000 mV are converted to the codes -5333 and 5333; after
`setting(0x48, GAIN_6_144V, 128, DIFF_0_1, SINGLE_SHOT, COMP_1CONV, -1000, 1000)` on the
record stored by setup the thresholds are ordered, and `startread(0x48, cb1)` on the
resulting state returns nothing and arms the timer. -/
theorem C23_thresholds_ordered_witness :
    ((-1000 : Int) ≤ 1000 ∧
      get_value ADS1115_PGA_6_144V ADS1115_MUX_DIFF_0_1 (-1000) = some (-5333) ∧
      get_value ADS1115_PGA_6_144V ADS1115_MUX_DIFF_0_1 1000 = some 5333 ∧
      (-5333 : Int) ≤ 5333) ∧
    ((ads1115_lua_setting world_ready args_setting_bounds).1 = Except.ok [] ∧
      lua_isnumber args_setting_bounds 6 = true ∧ lua_isnumber args_setting_bounds 7 = true ∧
      lua_isnumber args_setting_bounds 8 = true ∧
      is_callback (args_startread_cb1.getD 1 LuaValue.nil) = true) ∧
    ∃ r' : ads_ctrl_struct_t,
      (ads1115_lua_setting world_ready args_setting_bounds).2.ads_ctrl_table
        (table_idx 0x48) = some r' ∧
      int16_t_cast (r'.threshold_low : Int) ≤ int16_t_cast (r'.threshold_hi : Int) ∧
      (r'.threshold_low, r'.threshold_hi) ≠ (0x7FFF, 0x8000) ∧
      conversion_ready_mode r' = false ∧
      (ads1115_lua_startread (ads1115_lua_setting world_ready args_setting_bounds).2
        args_startread_cb1).1 = Except.ok [] ∧
      ∃ r3 : ads_ctrl_struct_t,
        (ads1115_lua_startread (ads1115_lua_setting world_ready args_setting_bounds).2
          args_startread_cb1).2.ads_ctrl_table (table_idx 0x48) = some r3 ∧
        r3.timer.armed = true := by
  have e1 : get_value ADS1115_PGA_6_144V ADS1115_MUX_DIFF_0_1 (-1000) = some (-5333) := by
    decide!
  have e2 : get_value ADS1115_PGA_6_144V ADS1115_MUX_DIFF_0_1 1000 = some 5333 := by
    decide!
  refine ⟨⟨by decide, e1, e2,
    C23_thresholds_ordered.1 ADS1115_PGA_6_144V ADS1115_MUX_DIFF_0_1 (-1000) 1000 (-5333) 5333
      (by decide) e1 e2⟩, ⟨rfl, rfl, rfl, rfl, rfl⟩, ?_⟩
  obtain ⟨-, r', hr', -, -, hord, hne, hmode, hstart⟩ :=
    C23_thresholds_ordered.2 world_ready args_setting_bounds rfl rfl rfl rfl
  have hs := hstart (ads1115_lua_setting world_ready args_setting_bounds).2
    args_startread_cb1 r' rfl (by decide) hr' rfl rfl
  have hcb : is_callback (args_startread_cb1.getD 1 LuaValue.nil) = true := rfl
  rw [if_pos hcb] at hs
  obtain ⟨hres, r3, hr3, -, harm, -, -⟩ := hs
  exact ⟨r', hr', hord, hne, hmode, hres, r3, hr3, harm⟩

/-! ## The timer duration and the conversion period -/

/-- C24: for each chip variant and every sample rate `r` of that variant's table, the
timer duration `startread_msec r` (in ms) chosen by `startread` satisfies
`startread_msec r * r >= 1000`, so the timer does not expire before one conversion period
`1/r` has elapsed; the same holds for the sample rate stored by `setup` (128 for the
16-bit variant, 1600 otherwise); and over the accepted sample rates the duration is
non-increasing in the rate. -/
theorem C24_timer_covers_period :
    (∀ chip_id r : Nat, r ∈ (rate_table chip_id).map Prod.fst →
      1000 ≤ startread_msec r * r) ∧
    (∀ i2c_addr chip_id : Nat,
      ((setup_defaults i2c_addr chip_id).samples_value = 128 ∨
        (setup_defaults i2c_addr chip_id).samples_value = 1600) ∧
      1000 ≤ startread_msec (setup_defaults i2c_addr chip_id).samples_value
        * (setup_defaults i2c_addr chip_id).samples_value) ∧
    (∀ r1 ∈ accepted_rates, ∀ r2 ∈ accepted_rates, r1 ≤ r2 →
      startread_msec r2 ≤ startread_msec r1) := by
  refine ⟨?_, ?_, by decide⟩
  · intro chip_id r hr
    have h16 : ∀ r ∈ rate_table_16bit.map Prod.fst, 1000 ≤ startread_msec r * r := by decide
    have h12 : ∀ r ∈ rate_table_12bit.map Prod.fst, 1000 ≤ startread_msec r * r := by decide
    unfold rate_table at hr
    split at hr
    · exact h16 r hr
    · exact h12 r hr
  · intro i2c_addr chip_id
    by_cases h : chip_id = ADS1115_ADS1115
    · have e : (setup_defaults i2c_addr chip_id).samples_value = 128 := by
        simp [setup_defaults, h]
      rw [e]
      exact ⟨Or.inl rfl, by decide⟩
    · have e : (setup_defaults i2c_addr chip_id).samples_value = 1600 := by
        simp [setup_defaults, h]
      rw [e]
      exact ⟨Or.inr rfl, by decide⟩

/-- C24 (instance): the 16-bit variant at 8 samples per second waits 150 ms, and the
duration at 3300 samples per second is not above the one at 8. -/
theorem C24_timer_covers_period_witness :
    (8 ∈ (rate_table ADS1115_ADS1115).map Prod.fst ∧ 1000 ≤ startread_msec 8 * 8) ∧
    (8 ∈ accepted_rates ∧ 3300 ∈ accepted_rates ∧ (8 : Nat) ≤ 3300 ∧
      startread_msec 3300 ≤ startread_msec 8) :=
  ⟨⟨by decide, C24_timer_covers_period.1 ADS1115_ADS1115 8 (by decide)⟩,
   ⟨by decide, by decide, by decide,
    C24_timer_covers_period.2.2 8 (by decide) 3300 (by decide) (by decide)⟩⟩

end ADS1115
